import Mathlib

/-!
# go-operrouter: the three transport adapters

A shallow embedding of `operrouter/grpc_client.go`, `operrouter/ffi_client.go`
and `operrouter/http_client.go`.

* Go strings are Lean strings; `int` is the 64-bit signed integer.
* A `map[string]T` is an association list with pairwise distinct keys
  (`AList`).  A `range` loop over a map is a left fold over its entries; Go
  leaves the visiting order open, and the loops embedded here write a
  different key in every iteration, so every order yields the same lookups.
* A run-time panic (such as a failed one-result type assertion) is the `error`
  case of `Run`; it is kept apart from a Go `error` value returned to the
  caller.
-/

namespace OperRouter

/-! ## Go values -/

/-- A `float64`.  A finite value is `mant * 2 ^ exp`. -/
inductive Float64 where
  | finite (mant : Int) (exp : Int)
  | inf (neg : Bool)
  | nan
  deriving DecidableEq, Repr

namespace Float64

/-- The float64 holding the integer `p`. -/
def ofInt (p : Int) : Float64 := .finite p 0

/-- The integer part of a finite value, rounded toward zero. -/
def trunc : Float64 → Option Int
  | .finite m e => if 0 ≤ e then some (m * 2 ^ e.toNat) else some (m.tdiv (2 ^ (-e).toNat))
  | .inf _ => none
  | .nan => none

end Float64

/-- The smallest `int`. -/
def minInt : Int := -(2 ^ 63)

/-- The largest `int`. -/
def maxInt : Int := 2 ^ 63 - 1

/-- The conversion `int(f)`: the fractional part is discarded.  When the result
does not fit `int` (also for infinities and NaN) the Go specification leaves
the value to the implementation; amd64 yields the smallest `int`. -/
def Float64.toInt (f : Float64) : Int :=
  match f.trunc with
  | some n => if minInt ≤ n ∧ n ≤ maxInt then n else minInt
  | none => minInt

/-- A value of type `interface{}`, as far as the adapters can observe it: they
assert `string` and `float64` and format everything else with `%v`.  A float
carries the text `%v` prints for it, and a value of any further dynamic type
is given by its type name and that text (both come from package `fmt`). -/
inductive GoValue where
  | nil
  | string (s : String)
  | bool (b : Bool)
  | int (n : Int)
  | float64 (f : Float64) (text : String)
  | other (typeName : String) (text : String)
  deriving DecidableEq, Repr

namespace GoValue

/-- The dynamic type, as the run time names it in a panic message. -/
def typeName : GoValue → String
  | .nil => "nil"
  | .string _ => "string"
  | .bool _ => "bool"
  | .int _ => "int"
  | .float64 _ _ => "float64"
  | .other t _ => t

end GoValue

/-- The text of `fmt.Sprintf("%v", v)`. -/
def sprintV : GoValue → String
  | .nil => "<nil>"
  | .string s => s
  | .bool b => if b then "true" else "false"
  | .int n => toString n
  | .float64 _ text => text
  | .other _ text => text

/-- A run-time panic, with the text of the run-time error. -/
structure Panic where
  msg : String
  deriving DecidableEq, Repr

/-- The outcome of Go code that can panic. -/
abbrev Run (α : Type) := Except Panic α

/-- The type `map[string]interface{}`. -/
abbrev Config := AList (fun _ : String => GoValue)

/-- The type `map[string]string`. -/
abbrev StringMap := AList (fun _ : String => String)

/-- The index expression `m[k]`: the nil interface for a missing key. -/
def index (m : Config) (k : String) : GoValue :=
  (m.lookup k).getD .nil

/-- The two-result assertion `s, ok := v.(string)`. -/
def asString : GoValue → Option String
  | .string s => some s
  | _ => none

/-- The two-result assertion `f, ok := v.(float64)`. -/
def asFloat64 : GoValue → Option Float64
  | .float64 f _ => some f
  | _ => none

/-- The run-time error of a failed assertion to type `want`. -/
def conversionPanic (v : GoValue) (want : String) : Panic :=
  ⟨"interface conversion: interface {} is " ++ v.typeName ++ ", not " ++ want⟩

/-- The one-result assertion `v.(string)`, which panics on any other type. -/
def assertString (v : GoValue) : Run String :=
  match asString v with
  | some s => .ok s
  | none => .error (conversionPanic v "string")

/-- The one-result assertion `v.(float64)`, which panics on any other type. -/
def assertFloat64 (v : GoValue) : Run Float64 :=
  match asFloat64 v with
  | some f => .ok f
  | none => .error (conversionPanic v "float64")

/-! ## The message schema (package `gen/proto`) -/

/-- Modelled from the spec: the connection-type tag `pb.DataSourceType` of the
generated package, "one of: unspecified, postgresql, mysql, redis, mongodb,
kafka". -/
inductive DataSourceType where
  | UNSPECIFIED
  | POSTGRESQL
  | MYSQL
  | REDIS
  | MONGODB
  | KAFKA
  deriving DecidableEq, Repr

/-- Modelled from the spec: the provider tag `pb.LLMProvider` of the generated
package, "unspecified, openai, ollama, anthropic, local". -/
inductive LLMProvider where
  | UNSPECIFIED
  | OPENAI
  | OLLAMA
  | ANTHROPIC
  | LOCAL
  deriving DecidableEq, Repr

/-- Modelled from the spec: the role tag `pb.MessageRole` of the generated
package, "one of {system, user, assistant, unspecified}". -/
inductive MessageRole where
  | UNSPECIFIED
  | SYSTEM
  | USER
  | ASSISTANT
  deriving DecidableEq, Repr

/-- Modelled from the spec: `pb.DataSourceConfig`, the type tag, the connection
URL and the extras map, with the fields the adapters set. -/
structure DataSourceConfig where
  Type_ : DataSourceType
  Url : String
  Extra : StringMap
  deriving DecidableEq

/-- Modelled from the spec: `pb.CreateDataSourceRequest`, with the fields the
adapters set. -/
structure CreateDataSourceRequest where
  Name : String
  Config : DataSourceConfig
  deriving DecidableEq

/-- Modelled from the spec: `pb.CreateDataSourceResponse`, with the fields the
adapters read. -/
structure CreateDataSourceResponse where
  Success : Bool
  Error : String
  deriving DecidableEq, Repr

/-- Modelled from the spec: `pb.LLMMessage`, a (role, content) pair. -/
structure LLMMessage where
  Role : MessageRole
  Content : String
  deriving DecidableEq, Repr

/-- Modelled from the spec: `pb.ChatLLMRequest`, with the fields the adapters
set. -/
structure ChatLLMRequest where
  Name : String
  Messages : List LLMMessage
  deriving DecidableEq, Repr

/-- Modelled from the spec: `pb.ChatLLMResponse`, with the fields the adapters
read. -/
structure ChatLLMResponse where
  Success : Bool
  Text : String
  Error : String
  deriving DecidableEq, Repr

/-! ## The shared response structures (`interface.go`) -/

structure DataSourceResponse where
  Success : Bool
  Message : String
  deriving DecidableEq, Repr

structure LLMGenerateResponse where
  Success : Bool
  Text : String
  Message : String
  deriving DecidableEq, Repr

/-! ## The tag mappings (`grpc_client.go`) -/

def mapDataSourceType (driver : String) : DataSourceType :=
  if driver = "postgres" ∨ driver = "postgresql" then .POSTGRESQL
  else if driver = "mysql" then .MYSQL
  else if driver = "redis" then .REDIS
  else if driver = "mongodb" ∨ driver = "mongo" then .MONGODB
  else if driver = "kafka" then .KAFKA
  else .UNSPECIFIED

def mapLLMProvider (provider : String) : LLMProvider :=
  if provider = "openai" then .OPENAI
  else if provider = "ollama" then .OLLAMA
  else if provider = "anthropic" ∨ provider = "claude" then .ANTHROPIC
  else if provider = "local" then .LOCAL
  else .UNSPECIFIED

def mapMessageRole (role : String) : MessageRole :=
  if role = "system" then .SYSTEM
  else if role = "user" then .USER
  else if role = "assistant" then .ASSISTANT
  else .UNSPECIFIED

/-! ### The remaining messages of the schema -/

/-- A `float32`, given by the float64 of the same value: the conversion
`float64(v)` is exact. -/
structure Float32 where
  toFloat64 : Float64
  deriving DecidableEq, Repr

namespace pb

/-- Modelled from the spec: `pb.Value`, "a typed value": the string variant,
which the adapters build, another variant of the oneof, given by its name and
its content, or the empty oneof. -/
inductive Value where
  | unset
  | StringValue (s : String)
  | variant (name : String) (content : String)
  deriving DecidableEq, Repr

/-- Modelled from the spec: `pb.Row`, "a mapping from column name to a typed
value". -/
structure Row where
  Columns : AList (fun _ : String => Value)
  deriving DecidableEq

/-- Modelled from the spec: `pb.PingRequest`, which has no field. -/
structure PingRequest where
  deriving DecidableEq, Repr

/-- Modelled from the spec: `pb.PingResponse`. -/
structure PingResponse where
  Status : String
  Version : String
  deriving DecidableEq, Repr

/-- Modelled from the spec: `pb.ValidateConfigRequest`. -/
structure ValidateConfigRequest where
  TomlContent : String
  deriving DecidableEq, Repr

/-- Modelled from the spec: `pb.ValidateConfigResponse`. -/
structure ValidateConfigResponse where
  Valid : Bool
  Errors : List String
  deriving DecidableEq, Repr

/-- Modelled from the spec: `pb.LoadConfigRequest`. -/
structure LoadConfigRequest where
  ConfigPath : String
  deriving DecidableEq, Repr

/-- Modelled from the spec: `pb.LoadConfigResponse`. -/
structure LoadConfigResponse where
  Success : Bool
  OperatorName : String
  Error : String
  deriving DecidableEq, Repr

/-- Modelled from the spec: `pb.GetMetadataRequest`, which has no field. -/
structure GetMetadataRequest where
  deriving DecidableEq, Repr

/-- Modelled from the spec: the metadata sub-object of
`pb.GetMetadataResponse`. -/
structure OperatorMetadata where
  Name : String
  Version : String
  Description : String
  deriving DecidableEq, Repr

/-- Modelled from the spec: `pb.GetMetadataResponse`; the sub-object is a
pointer, nil (`none`) when it is absent. -/
structure GetMetadataResponse where
  Metadata : Option OperatorMetadata
  deriving DecidableEq, Repr

/-- Modelled from the spec: `pb.QueryDataSourceRequest`. -/
structure QueryDataSourceRequest where
  Name : String
  Query : String
  deriving DecidableEq, Repr

/-- Modelled from the spec: `pb.QueryDataSourceResponse`. -/
structure QueryDataSourceResponse where
  Success : Bool
  Rows : List Row
  Error : String
  deriving DecidableEq

/-- Modelled from the spec: `pb.ExecuteDataSourceRequest`. -/
structure ExecuteDataSourceRequest where
  Name : String
  Query : String
  deriving DecidableEq, Repr

/-- Modelled from the spec: `pb.ExecuteDataSourceResponse`. -/
structure ExecuteDataSourceResponse where
  Success : Bool
  Error : String
  deriving DecidableEq, Repr

/-- Modelled from the spec: `pb.InsertDataSourceRequest`. -/
structure InsertDataSourceRequest where
  Name : String
  Table : String
  Data : Row
  deriving DecidableEq

/-- Modelled from the spec: `pb.InsertDataSourceResponse`. -/
structure InsertDataSourceResponse where
  Success : Bool
  Error : String
  deriving DecidableEq, Repr

/-- Modelled from the spec: `pb.PingDataSourceRequest`. -/
structure PingDataSourceRequest where
  Name : String
  deriving DecidableEq, Repr

/-- Modelled from the spec: `pb.PingDataSourceResponse`. -/
structure PingDataSourceResponse where
  Healthy : Bool
  Error : String
  deriving DecidableEq, Repr

/-- Modelled from the spec: `pb.CloseDataSourceRequest`. -/
structure CloseDataSourceRequest where
  Name : String
  deriving DecidableEq, Repr

/-- Modelled from the spec: `pb.CloseDataSourceResponse`. -/
structure CloseDataSourceResponse where
  Success : Bool
  Error : String
  deriving DecidableEq, Repr

/-- Modelled from the spec: `pb.LLMConfig`, "a provider tag, a model identifier
string, and an optional API key". -/
structure LLMConfig where
  Provider : LLMProvider
  Model : String
  ApiKey : Option String
  deriving DecidableEq, Repr

/-- Modelled from the spec: `pb.CreateLLMRequest`. -/
structure CreateLLMRequest where
  Name : String
  Config : LLMConfig
  deriving DecidableEq, Repr

/-- Modelled from the spec: `pb.CreateLLMResponse`. -/
structure CreateLLMResponse where
  Success : Bool
  Error : String
  deriving DecidableEq, Repr

/-- Modelled from the spec: `pb.GenerateLLMRequest`. -/
structure GenerateLLMRequest where
  Name : String
  Prompt : String
  deriving DecidableEq, Repr

/-- Modelled from the spec: `pb.GenerateLLMResponse`. -/
structure GenerateLLMResponse where
  Success : Bool
  Text : String
  Error : String
  deriving DecidableEq, Repr

/-- Modelled from the spec: `pb.EmbeddingLLMRequest`. -/
structure EmbeddingLLMRequest where
  Name : String
  Text : String
  deriving DecidableEq, Repr

/-- Modelled from the spec: `pb.EmbeddingLLMResponse`, with the "embedding as
repeated 32-bit floats". -/
structure EmbeddingLLMResponse where
  Success : Bool
  Embedding : List Float32
  Error : String
  deriving DecidableEq, Repr

/-- Modelled from the spec: `pb.PingLLMRequest`. -/
structure PingLLMRequest where
  Name : String
  deriving DecidableEq, Repr

/-- Modelled from the spec: `pb.PingLLMResponse`. -/
structure PingLLMResponse where
  Healthy : Bool
  Error : String
  deriving DecidableEq, Repr

/-- Modelled from the spec: `pb.CloseLLMRequest`. -/
structure CloseLLMRequest where
  Name : String
  deriving DecidableEq, Repr

/-- Modelled from the spec: `pb.CloseLLMResponse`. -/
structure CloseLLMResponse where
  Success : Bool
  Error : String
  deriving DecidableEq, Repr

end pb

/-! ## Errors, contexts and the generated service stub -/

/-- A Go `error` value: one made outside the adapters (by the stub, the codec
or the HTTP stack), one made by `fmt.Errorf` with or without a wrapped cause,
the `*httpError` of the HTTP adapter, or the `*json.UnmarshalTypeError` for a
JSON value of kind `value` met where the Go type `goType` is decoded. -/
inductive GoError where
  | foreign (msg : String)
  | errorf (msg : String)
  | wrapf (msg : String) (cause : GoError)
  | httpError (code : Int) (msg : String)
  | unmarshalType (value : String) (goType : String)
  deriving DecidableEq, Repr

/-- A `time.Duration`, in nanoseconds. -/
abbrev Duration := Int

/-- The duration `time.Second`. -/
def Second : Duration := 1000000000

/-- A non-nil `context.Context`, with the timeout it was made with, if any;
`context.Background()` has none. -/
structure Context where
  timeout : Option Duration
  deriving DecidableEq, Repr

/-- The context `context.Background()`. -/
def Context.Background : Context := ⟨none⟩

/-- The context `context.WithTimeout(context.Background(), d)`. -/
def Context.WithTimeout (d : Duration) : Context := ⟨some d⟩

/-- Modelled from the spec: the generated service client `pb.OperRouterClient`,
"one RPC per operation"; an RPC gets the context it is called with (`none` is
a nil context) and the request, and yields a response or an error. -/
structure OperRouterClient where
  Ping : Option Context → pb.PingRequest → Except GoError pb.PingResponse
  ValidateConfig :
    Option Context → pb.ValidateConfigRequest → Except GoError pb.ValidateConfigResponse
  LoadConfig : Option Context → pb.LoadConfigRequest → Except GoError pb.LoadConfigResponse
  GetMetadata : Option Context → pb.GetMetadataRequest → Except GoError pb.GetMetadataResponse
  CreateDataSource :
    Option Context → CreateDataSourceRequest → Except GoError CreateDataSourceResponse
  QueryDataSource :
    Option Context → pb.QueryDataSourceRequest → Except GoError pb.QueryDataSourceResponse
  ExecuteDataSource :
    Option Context → pb.ExecuteDataSourceRequest → Except GoError pb.ExecuteDataSourceResponse
  InsertDataSource :
    Option Context → pb.InsertDataSourceRequest → Except GoError pb.InsertDataSourceResponse
  PingDataSource :
    Option Context → pb.PingDataSourceRequest → Except GoError pb.PingDataSourceResponse
  CloseDataSource :
    Option Context → pb.CloseDataSourceRequest → Except GoError pb.CloseDataSourceResponse
  CreateLLM : Option Context → pb.CreateLLMRequest → Except GoError pb.CreateLLMResponse
  GenerateLLM : Option Context → pb.GenerateLLMRequest → Except GoError pb.GenerateLLMResponse
  ChatLLM : Option Context → ChatLLMRequest → Except GoError ChatLLMResponse
  EmbeddingLLM :
    Option Context → pb.EmbeddingLLMRequest → Except GoError pb.EmbeddingLLMResponse
  PingLLM : Option Context → pb.PingLLMRequest → Except GoError pb.PingLLMResponse
  CloseLLM : Option Context → pb.CloseLLMRequest → Except GoError pb.CloseLLMResponse

/-- A `*grpc.ClientConn`, as far as `Close` is concerned. -/
structure ClientConn where
  closed : Bool
  deriving DecidableEq, Repr

/-- The gRPC adapter. -/
structure GRPCClient where
  conn : Option ClientConn
  service : OperRouterClient
  timeout : Duration

/-- What an operation hands to its caller: the response pointer (`none` is
nil) and the error (`none` is nil). -/
abbrev Returned (α : Type) := Option α × Option GoError

/-! ## The gRPC adapter (`grpc_client.go`) -/

namespace GRPCClient

/-- The `switch driver` statement of `CreateDataSource` (lines 211-240), entered
with the empty `url` and `extra`; it yields both as the switch leaves them. -/
def CreateDataSource.buildURL (config : Config) (driver : String) : Run (String × StringMap) :=
  let url := ""
  let extra : StringMap := ∅
  if driver = "postgres" ∨ driver = "postgresql" then do
    let host ← assertString (index config "host")
    let port := (← assertFloat64 (index config "port")).toInt
    let database ← assertString (index config "database")
    let url := "postgres://" ++ host ++ ":" ++ toString port ++ "/" ++ database
    let extra :=
      match asString (index config "username") with
      | some username => extra.insert "username" username
      | none => extra
    let extra :=
      match asString (index config "password") with
      | some password => extra.insert "password" password
      | none => extra
    pure (url, extra)
  else if driver = "mysql" then do
    let host ← assertString (index config "host")
    let port := (← assertFloat64 (index config "port")).toInt
    let database ← assertString (index config "database")
    pure ("mysql://" ++ host ++ ":" ++ toString port ++ "/" ++ database, extra)
  else if driver = "redis" then do
    let host ← assertString (index config "host")
    let port := (← assertFloat64 (index config "port")).toInt
    pure ("redis://" ++ host ++ ":" ++ toString port, extra)
  else if driver = "mongodb" ∨ driver = "mongo" then do
    let host ← assertString (index config "host")
    let port := (← assertFloat64 (index config "port")).toInt
    pure ("mongodb://" ++ host ++ ":" ++ toString port, extra)
  else if driver = "kafka" then
    match asString (index config "brokers") with
    | some brokers => pure (brokers, extra)
    | none => pure (url, extra)
  else
    pure (url, extra)

/-- One iteration of the loop "Copy remaining config to extra" (lines 244-248). -/
def CreateDataSource.copyEntry (extra : StringMap) (k : String) (v : GoValue) : StringMap :=
  if k ≠ "driver" ∧ k ≠ "host" ∧ k ≠ "port" ∧ k ≠ "database" ∧ k ≠ "username" ∧
      k ≠ "password" ∧ k ≠ "brokers" then
    extra.insert k (sprintV v)
  else
    extra

/-- The request `CreateDataSource` builds (lines 203-257). -/
def CreateDataSource.request (name : String) (config : Config) : Run CreateDataSourceRequest := do
  let (driver, url, extra) ←
    match asString (index config "driver") with
    | some d => (CreateDataSource.buildURL config d).map fun r => (d, r.1, r.2)
    | none => pure ("", "", (∅ : StringMap))
  let extra := config.foldl CreateDataSource.copyEntry extra
  pure { Name := name,
         Config := { Type_ := mapDataSourceType driver, Url := url, Extra := extra } }

/-- The operation `CreateDataSource`. -/
def CreateDataSource (c : GRPCClient) (ctx : Option Context) (name : String) (config : Config) :
    Run (Returned DataSourceResponse) := do
  let req ← CreateDataSource.request name config
  match c.service.CreateDataSource ctx req with
  | .error err => pure (none, some err)
  | .ok resp => pure (some { Success := resp.Success, Message := resp.Error }, none)

/-- The conversion of one chat message (body of the loop at lines 481-494). -/
def ChatLLM.message (msg : Config) : LLMMessage :=
  let role :=
    match asString (index msg "role") with
    | some r => r
    | none => ""
  let content :=
    match asString (index msg "content") with
    | some c => c
    | none => ""
  { Role := mapMessageRole role, Content := content }

/-- The request `ChatLLM` builds (lines 479-499). -/
def ChatLLM.request (name : String) (messages : List Config) : ChatLLMRequest :=
  { Name := name, Messages := messages.map ChatLLM.message }

/-- The operation `ChatLLM`. -/
def ChatLLM (c : GRPCClient) (ctx : Option Context) (name : String) (messages : List Config) :
    Returned LLMGenerateResponse :=
  let ctx :=
    match ctx with
    | none => some (Context.WithTimeout c.timeout)
    | some ctx => some ctx
  let req := ChatLLM.request name messages
  match c.service.ChatLLM ctx req with
  | .error err => (none, some (.wrapf "chat llm failed: " err))
  | .ok resp => (some { Success := resp.Success, Text := resp.Text, Message := resp.Error }, none)

end GRPCClient

/-! ## The FFI adapter (`ffi_client.go`) -/

/-- A sequence of bytes. -/
abbrev Bytes := List (Fin 256)

/-- A C pointer to bytes, given by the bytes stored from its address on;
`none` is NULL. -/
abbrev Ptr := Option Bytes

/-- The C struct `ProtoBuffer`. -/
structure ProtoBuffer where
  data : Ptr
  len : Nat
  deriving DecidableEq, Repr

/-- A native entry point, of C type `ProtoBuffer (*)(const uint8_t*, size_t)`. -/
abbrev EntryPoint := Ptr → Nat → ProtoBuffer

/-- A non-null library handle. -/
abbrev Handle := Nat

/-- The dynamic loader of the process: the entry point `dlsym` finds for a handle
(`none` is the null handle) and an operation symbol, and whether it finds the
symbol `proto_buffer_free`. -/
structure Loader where
  dlsym : Option Handle → String → Option EntryPoint
  dlsymFree : Option Handle → Bool

/-- What happens at the native boundary during a call. -/
inductive FFIEvent where
  | invoke (symbol : String) (input_ptr : Ptr) (input_len : Nat)
  | goBytes (buf : ProtoBuffer)
  | bufferFree (buf : ProtoBuffer)
  | unmarshal (respBytes : Bytes)
  | dlclose (handle : Handle)
  deriving DecidableEq, Repr

/-- The outcome of Go code together with what it did at the native boundary. -/
structure Traced (α : Type) where
  events : List FFIEvent
  outcome : Run α

/-- The functions `proto.Marshal` and `proto.Unmarshal` at a request and a
response type; `Unmarshal` yields the message as it leaves it and the error. -/
structure Codec (Req Resp : Type) where
  Marshal : Req → Except GoError Bytes
  Unmarshal : Bytes → Resp → Resp × Option GoError

/-- The C helpers `call_<op>_proto` (lines 36-137), which differ in the symbol
only: `{NULL, 0}` when the symbol does not resolve. -/
def call_proto (ld : Loader) (symbol : String) (handle : Option Handle) (input_ptr : Ptr)
    (input_len : Nat) : ProtoBuffer × List FFIEvent :=
  match ld.dlsym handle symbol with
  | none => (⟨none, 0⟩, [])
  | some fn => (fn input_ptr input_len, [.invoke symbol input_ptr input_len])

/-- The C helper `call_proto_buffer_free` (lines 60-63). -/
def call_proto_buffer_free (ld : Loader) (handle : Option Handle) (buf : ProtoBuffer) :
    List FFIEvent :=
  if ld.dlsymFree handle then [.bufferFree buf] else []

/-- The conversion `C.int(n)` of a `size_t`. -/
def toCInt (n : Nat) : Int :=
  if n % 2 ^ 32 < 2 ^ 31 then (n % 2 ^ 32 : Nat) else (n % 2 ^ 32 : Nat) - 2 ^ 32

/-- The function `C.GoBytes`: a copy of `n` bytes; a negative `n` panics. -/
def GoBytes (data : Bytes) (n : Int) : Run Bytes :=
  if n < 0 then .error ⟨"gobytes: length out of range"⟩ else .ok (data.take n.toNat)

/-- The FFI adapter. -/
structure FFIClient where
  handle : Option Handle
  path : String
  deriving DecidableEq, Repr

namespace FFIClient

/-- The helper `callFFI` (lines 182-230); the result holds the error returned
and the response message as the call leaves it. -/
def callFFI {Req Resp : Type} (c : FFIClient) (ld : Loader) (codec : Codec Req Resp)
    (callFunc : Option Handle → Ptr → Nat → ProtoBuffer × List FFIEvent)
    (req : Req) (resp : Resp) : Traced (Option GoError × Resp) :=
  match codec.Marshal req with
  | .error err => ⟨[], .ok (some (.wrapf "failed to marshal request: " err), resp)⟩
  | .ok reqBytes =>
    let input : Ptr × Nat :=
      if reqBytes.length > 0 then (some reqBytes, reqBytes.length) else (none, 0)
    let called := callFunc c.handle input.1 input.2
    let outputBuf := called.1
    match outputBuf.data with
    | none =>
      if outputBuf.len > 0 then
        ⟨called.2, .ok (some (.errorf "FFI call returned null pointer"), resp)⟩
      else
        ⟨called.2 ++ call_proto_buffer_free ld c.handle outputBuf, .ok (none, resp)⟩
    | some data =>
      if outputBuf.len > 0 then
        match GoBytes data (toCInt outputBuf.len) with
        | .error p => ⟨called.2 ++ [.goBytes outputBuf], .error p⟩
        | .ok respBytes =>
          let freed :=
            called.2 ++ [.goBytes outputBuf] ++ call_proto_buffer_free ld c.handle outputBuf
          if respBytes.length > 0 then
            match codec.Unmarshal respBytes resp with
            | (resp, some err) =>
              ⟨freed ++ [.unmarshal respBytes],
                .ok (some (.wrapf "failed to unmarshal response: " err), resp)⟩
            | (resp, none) => ⟨freed ++ [.unmarshal respBytes], .ok (none, resp)⟩
          else
            ⟨freed, .ok (none, resp)⟩
      else
        ⟨called.2 ++ call_proto_buffer_free ld c.handle outputBuf, .ok (none, resp)⟩

/-- The `switch driver` statement of `CreateDataSource` (lines 332-361), entered
with the empty `url` and `extra`; it yields both as the switch leaves them. -/
def CreateDataSource.buildURL (config : Config) (driver : String) : Run (String × StringMap) :=
  let url := ""
  let extra : StringMap := ∅
  if driver = "postgres" ∨ driver = "postgresql" then do
    let host ← assertString (index config "host")
    let port := (← assertFloat64 (index config "port")).toInt
    let database ← assertString (index config "database")
    let url := "postgres://" ++ host ++ ":" ++ toString port ++ "/" ++ database
    let extra :=
      match asString (index config "username") with
      | some username => extra.insert "username" username
      | none => extra
    let extra :=
      match asString (index config "password") with
      | some password => extra.insert "password" password
      | none => extra
    pure (url, extra)
  else if driver = "mysql" then do
    let host ← assertString (index config "host")
    let port := (← assertFloat64 (index config "port")).toInt
    let database ← assertString (index config "database")
    pure ("mysql://" ++ host ++ ":" ++ toString port ++ "/" ++ database, extra)
  else if driver = "redis" then do
    let host ← assertString (index config "host")
    let port := (← assertFloat64 (index config "port")).toInt
    pure ("redis://" ++ host ++ ":" ++ toString port, extra)
  else if driver = "mongodb" ∨ driver = "mongo" then do
    let host ← assertString (index config "host")
    let port := (← assertFloat64 (index config "port")).toInt
    pure ("mongodb://" ++ host ++ ":" ++ toString port, extra)
  else if driver = "kafka" then
    match asString (index config "brokers") with
    | some brokers => pure (brokers, extra)
    | none => pure (url, extra)
  else
    pure (url, extra)

/-- One iteration of the loop "Copy remaining config to extra" (lines 365-369). -/
def CreateDataSource.copyEntry (extra : StringMap) (k : String) (v : GoValue) : StringMap :=
  if k ≠ "driver" ∧ k ≠ "host" ∧ k ≠ "port" ∧ k ≠ "database" ∧ k ≠ "username" ∧
      k ≠ "password" ∧ k ≠ "brokers" then
    extra.insert k (sprintV v)
  else
    extra

/-- The request `CreateDataSource` builds (lines 324-378). -/
def CreateDataSource.request (name : String) (config : Config) : Run CreateDataSourceRequest := do
  let (driver, url, extra) ←
    match asString (index config "driver") with
    | some d => (CreateDataSource.buildURL config d).map fun r => (d, r.1, r.2)
    | none => pure ("", "", (∅ : StringMap))
  let extra := config.foldl CreateDataSource.copyEntry extra
  pure { Name := name,
         Config := { Type_ := mapDataSourceType driver, Url := url, Extra := extra } }

/-- The operation `CreateDataSource`. -/
def CreateDataSource (c : FFIClient) (ld : Loader)
    (codec : Codec CreateDataSourceRequest CreateDataSourceResponse) (_ctx : Option Context)
    (name : String) (config : Config) : Traced (Returned DataSourceResponse) :=
  match CreateDataSource.request name config with
  | .error p => ⟨[], .error p⟩
  | .ok req =>
    let resp : CreateDataSourceResponse := { Success := false, Error := "" }
    let r := c.callFFI ld codec (call_proto ld "datasource_create_proto") req resp
    match r.outcome with
    | .error p => ⟨r.events, .error p⟩
    | .ok (some err, _) =>
      ⟨r.events, .ok (none, some (.wrapf "datasource create failed: " err))⟩
    | .ok (none, resp) =>
      ⟨r.events, .ok (some { Success := resp.Success, Message := resp.Error }, none)⟩

/-- The conversion of one chat message (body of the loop at lines 568-581). -/
def ChatLLM.message (msg : Config) : LLMMessage :=
  let role :=
    match asString (index msg "role") with
    | some r => r
    | none => ""
  let content :=
    match asString (index msg "content") with
    | some c => c
    | none => ""
  { Role := mapMessageRole role, Content := content }

/-- The request `ChatLLM` builds (lines 567-586). -/
def ChatLLM.request (name : String) (messages : List Config) : ChatLLMRequest :=
  { Name := name, Messages := messages.map ChatLLM.message }

/-- The operation `ChatLLM`. -/
def ChatLLM (c : FFIClient) (ld : Loader) (codec : Codec ChatLLMRequest ChatLLMResponse)
    (_ctx : Option Context) (name : String) (messages : List Config) :
    Traced (Returned LLMGenerateResponse) :=
  let req := ChatLLM.request name messages
  let resp : ChatLLMResponse := { Success := false, Text := "", Error := "" }
  let r := c.callFFI ld codec (call_proto ld "llm_chat_proto") req resp
  match r.outcome with
  | .error p => ⟨r.events, .error p⟩
  | .ok (some err, _) => ⟨r.events, .ok (none, some (.wrapf "llm chat failed: " err))⟩
  | .ok (none, resp) =>
    ⟨r.events,
      .ok (some { Success := resp.Success, Text := resp.Text, Message := resp.Error }, none)⟩

end FFIClient

/-! ## JSON values and `json.Unmarshal` (package `encoding/json`) -/

/-- A JSON value.  A number is given by the float64 its literal converts to,
`none` when the literal is outside the float64 range. -/
inductive JSON where
  | null
  | bool (b : Bool)
  | number (f : Option Float64)
  | string (s : String)
  | array (elems : List JSON)
  | object (members : List (String × JSON))
  deriving Repr

/-- The kind of a JSON value, as an `UnmarshalTypeError` names it. -/
def JSON.kind : JSON → String
  | .null => "null"
  | .bool _ => "bool"
  | .number _ => "number"
  | .string _ => "string"
  | .array _ => "array"
  | .object _ => "object"

mutual
/-- Whether every number of the value converts to a float64. -/
def JSON.fits : JSON → Bool
  | .number none => false
  | .array elems => JSON.fitsList elems
  | .object members => JSON.fitsMembers members
  | _ => true
/-- Whether every number of the elements converts to a float64. -/
def JSON.fitsList : List JSON → Bool
  | [] => true
  | x :: xs => x.fits && JSON.fitsList xs
/-- Whether every number of the members converts to a float64. -/
def JSON.fitsMembers : List (String × JSON) → Bool
  | [] => true
  | (_, v) :: ms => v.fits && JSON.fitsMembers ms
end

/-- The case folding of one character of an object key, for the comparison with
the ASCII names of the struct tags: ASCII letters fold to upper case, and so do
the two other characters whose fold class holds an ASCII letter, U+017F and
U+212A. -/
def foldRune (c : Char) : Char :=
  if c = Char.ofNat 0x17F then 'S' else if c = Char.ofNat 0x212A then 'K' else c.toUpper

/-- The folded form of an object key. -/
def foldName (s : String) : String := ⟨s.data.map foldRune⟩

/-- Whether the decoder stores the member with key `key` in the struct field
tagged `tag`: on an exact or a case-insensitive match. -/
def matchesTag (tag key : String) : Bool :=
  key == tag || foldName key == foldName tag

/-- The first error of a decoding run, which is the one `Unmarshal` returns. -/
def firstError (a b : Option GoError) : Option GoError :=
  match a with
  | some e => some e
  | none => b

/-- Decoding into a `bool`: `null` leaves the target as it is. -/
def unmarshalBool (v : JSON) (old : Bool) : Bool × Option GoError :=
  match v with
  | .null => (old, none)
  | .bool b => (b, none)
  | _ => (old, some (.unmarshalType v.kind "bool"))

/-- Decoding into a `string`: `null` leaves the target as it is. -/
def unmarshalString (v : JSON) (old : String) : String × Option GoError :=
  match v with
  | .null => (old, none)
  | .string s => (s, none)
  | _ => (old, some (.unmarshalType v.kind "string"))

/-- Decoding into a `float64`: `null` leaves the target as it is. -/
def unmarshalFloat64 (v : JSON) (old : Float64) : Float64 × Option GoError :=
  match v with
  | .null => (old, none)
  | .number (some f) => (f, none)
  | _ => (old, some (.unmarshalType v.kind "float64"))

/-- Decoding the elements of an array into a slice: element `i` is decoded into
the old element `i`, or into a zero value beyond the old length. -/
def unmarshalElems {α : Type} (elem : JSON → α → α × Option GoError) (zero : α) :
    List JSON → List α → List α × Option GoError
  | [], _ => ([], none)
  | x :: xs, old =>
    let r := elem x (old.headD zero)
    let rs := unmarshalElems elem zero xs old.tail
    (r.1 :: rs.1, firstError r.2 rs.2)

/-- Decoding into a slice: `null` makes it nil. -/
def unmarshalSlice {α : Type} (elem : JSON → α → α × Option GoError) (zero : α)
    (goType : String) (v : JSON) (old : List α) : List α × Option GoError :=
  match v with
  | .null => ([], none)
  | .array elems => unmarshalElems elem zero elems old
  | _ => (old, some (.unmarshalType v.kind goType))

/-- Decoding an object into a struct: the members are taken in order, `setField`
stores one member, and a member that matches no field is skipped; `null`
leaves the struct as it is. -/
def unmarshalStruct {ρ : Type} (setField : String → JSON → ρ → ρ × Option GoError)
    (goType : String) (v : JSON) (old : ρ) : ρ × Option GoError :=
  match v with
  | .null => (old, none)
  | .object members =>
    members.foldl (fun acc kv =>
      let r := setField kv.1 kv.2 acc.1
      (r.1, firstError acc.2 r.2)) (old, none)
  | _ => (old, some (.unmarshalType v.kind goType))

/-- A value stored in a result row: the Go value a JSON value decodes to (nil,
bool, float64, string, `[]interface{}` or `map[string]interface{}`), given by
that JSON value, or a `*pb.Value` of the schema. -/
inductive RowValue where
  | json (v : JSON)
  | proto (v : pb.Value)
  deriving Repr

/-- The type `map[string]interface{}` of a result row. -/
abbrev Row := AList (fun _ : String => RowValue)

/-- Decoding into a fresh `interface{}`. -/
def unmarshalInterface (v : JSON) : RowValue × Option GoError :=
  if v.fits then (.json v, none) else (.json v, some (.unmarshalType "number" "float64"))

/-- Decoding into a `map[string]interface{}`: the members are stored under
their own keys; `null` makes the map nil. -/
def unmarshalRow (v : JSON) (old : Row) : Row × Option GoError :=
  match v with
  | .null => (∅, none)
  | .object members =>
    members.foldl (fun acc kv =>
      let r := unmarshalInterface kv.2
      (acc.1.insert kv.1 r.1, firstError acc.2 r.2)) (old, none)
  | _ => (old, some (.unmarshalType v.kind "map[string]interface {}"))

/-- Decoding into a `map[string]string`. -/
def unmarshalStringMap (v : JSON) (old : StringMap) : StringMap × Option GoError :=
  match v with
  | .null => (∅, none)
  | .object members =>
    members.foldl (fun acc kv =>
      let r := unmarshalString kv.2 ""
      (acc.1.insert kv.1 r.1, firstError acc.2 r.2)) (old, none)
  | _ => (old, some (.unmarshalType v.kind "map[string]string"))

/-! ## The remaining shared response structures (`interface.go`) -/

structure PingResponse where
  Status : String
  Version : String
  deriving DecidableEq, Repr

structure ValidateConfigResponse where
  Valid : Bool
  Errors : List String
  deriving DecidableEq, Repr

structure LoadConfigResponse where
  Success : Bool
  OperatorName : String
  Error : String
  deriving DecidableEq, Repr

structure MetadataResponse where
  Name : String
  Version : String
  Description : String
  deriving DecidableEq, Repr

structure DataSourceQueryResponse where
  Success : Bool
  Rows : List Row
  Message : String

structure LLMResponse where
  Success : Bool
  Message : String
  deriving DecidableEq, Repr

structure LLMEmbeddingResponse where
  Success : Bool
  Embedding : List Float64
  Message : String
  deriving DecidableEq, Repr

/-! ## The HTTP adapter (`http_client.go`) -/

/-- A value of a `params` map. -/
inductive Param where
  | string (s : String)
  | config (c : Config)
  | messages (ms : List Config)

/-- The `params` of a request: nil (`none`) or a map literal. -/
abbrev Params := Option (AList (fun _ : String => Param))

structure jsonrpcRequest where
  JSONRPC : String
  Method : String
  Params : Params
  ID : Int

/-- The anonymous struct of the field `Error` of `jsonrpcResponse`. -/
structure rpcError where
  Code : Int
  Message : String
  deriving DecidableEq, Repr

/-- The decoded reply; `Result` and `Error` are nil (`none`) when the reply
has no such member or has `null` there. -/
structure jsonrpcResponse where
  JSONRPC : String
  Result : Option JSON
  Error : Option rpcError
  ID : Int

/-- A `*http.Client`: `Post` takes the URL, the content type and the body and
yields the body of the response. -/
structure HTTPDoer where
  Post : String → String → String → Except GoError String

/-- The functions of `encoding/json` at the envelope types: `json.Marshal` of
the request and `Decode` of the response body. -/
structure EnvelopeCodec where
  Marshal : jsonrpcRequest → Except GoError String
  Decode : String → Except GoError jsonrpcResponse

/-- The HTTP adapter. -/
structure HTTPClient where
  BaseURL : String
  HTTP : HTTPDoer
  timeout : Duration

namespace HTTPClient

/-- The first part of `callJSONRPC` (lines 61-76): the request is marshalled and
posted, and the reply is decoded. -/
def exchange (c : HTTPClient) (js : EnvelopeCodec) (method : String) (params : Params) :
    Except GoError jsonrpcResponse :=
  let req : jsonrpcRequest := { JSONRPC := "2.0", Method := method, Params := params, ID := 1 }
  match js.Marshal req with
  | .error err => .error (.wrapf "failed to marshal request: " err)
  | .ok reqBytes =>
    match c.HTTP.Post (c.BaseURL ++ "/jsonrpc") "application/json" reqBytes with
    | .error err => .error (.wrapf "http request failed: " err)
    | .ok body =>
      match js.Decode body with
      | .error err => .error (.wrapf "failed to decode response: " err)
      | .ok rpcResp => .ok rpcResp

/-- The helper `callJSONRPC` (lines 60-89).  `result` is the target the caller's
pointer addresses (no caller passes nil), `unmarshal` is `json.Unmarshal` at
its type; the outcome is the target as the call leaves it, and the error. -/
def callJSONRPC {ρ : Type} (c : HTTPClient) (js : EnvelopeCodec) (method : String)
    (params : Params) (unmarshal : JSON → ρ → ρ × Option GoError) (result : ρ) :
    ρ × Option GoError :=
  match c.exchange js method params with
  | .error err => (result, some err)
  | .ok rpcResp =>
    match rpcResp.Error with
    | some e => (result, some (.httpError e.Code e.Message))
    | none =>
      match rpcResp.Result with
      | some raw =>
        match unmarshal raw result with
        | (result, some err) => (result, some (.wrapf "failed to unmarshal result: " err))
        | (result, none) => (result, none)
      | none => (result, none)

end HTTPClient

/-! ### The result targets of the operations -/

/-- The struct `{valid bool; errors []string}` of `ValidateConfig`. -/
structure validateResult where
  Valid : Bool
  Errors : List String
  deriving DecidableEq, Repr

/-- The struct `{success bool; message string; operator_name string}` of
`LoadConfig`. -/
structure loadConfigResult where
  Success : Bool
  Message : String
  OperatorName : String
  deriving DecidableEq, Repr

/-- The struct `{name, version, description string}` of `GetMetadata`. -/
structure metadataResult where
  Name : String
  Version : String
  Description : String
  deriving DecidableEq, Repr

/-- The struct `{success bool; message string}`, which eight operations declare. -/
structure statusResult where
  Success : Bool
  Message : String
  deriving DecidableEq, Repr

/-- The struct `{success bool; rows []map[string]interface{}; message string}`
of `QueryDataSource`. -/
structure queryResult where
  Success : Bool
  Rows : List Row
  Message : String

/-- The struct `{success bool; text string; message string}` of `GenerateLLM`
and `ChatLLM`. -/
structure generateResult where
  Success : Bool
  Text : String
  Message : String
  deriving DecidableEq, Repr

/-- The struct `{success bool; embedding []float64; message string}` of
`EmbeddingLLM`. -/
structure embeddingResult where
  Success : Bool
  Embedding : List Float64
  Message : String
  deriving DecidableEq, Repr

/-- How the decoder stores one member of an object in a `validateResult`, by the
struct tags. -/
def validateResult.setField (key : String) (v : JSON) (r : validateResult) :
    validateResult × Option GoError :=
  if matchesTag "valid" key then
    let d := unmarshalBool v r.Valid
    ({ r with Valid := d.1 }, d.2)
  else if matchesTag "errors" key then
    let d := unmarshalSlice unmarshalString "" "[]string" v r.Errors
    ({ r with Errors := d.1 }, d.2)
  else (r, none)

/-- The function `json.Unmarshal` at `validateResult`. -/
def validateResult.unmarshal : JSON → validateResult → validateResult × Option GoError :=
  unmarshalStruct validateResult.setField "struct"

/-- How the decoder stores one member of an object in a `loadConfigResult`, by the
struct tags. -/
def loadConfigResult.setField (key : String) (v : JSON) (r : loadConfigResult) :
    loadConfigResult × Option GoError :=
  if matchesTag "success" key then
    let d := unmarshalBool v r.Success
    ({ r with Success := d.1 }, d.2)
  else if matchesTag "message" key then
    let d := unmarshalString v r.Message
    ({ r with Message := d.1 }, d.2)
  else if matchesTag "operator_name" key then
    let d := unmarshalString v r.OperatorName
    ({ r with OperatorName := d.1 }, d.2)
  else (r, none)

/-- The function `json.Unmarshal` at `loadConfigResult`. -/
def loadConfigResult.unmarshal : JSON → loadConfigResult → loadConfigResult × Option GoError :=
  unmarshalStruct loadConfigResult.setField "struct"

/-- How the decoder stores one member of an object in a `metadataResult`, by the
struct tags. -/
def metadataResult.setField (key : String) (v : JSON) (r : metadataResult) :
    metadataResult × Option GoError :=
  if matchesTag "name" key then
    let d := unmarshalString v r.Name
    ({ r with Name := d.1 }, d.2)
  else if matchesTag "version" key then
    let d := unmarshalString v r.Version
    ({ r with Version := d.1 }, d.2)
  else if matchesTag "description" key then
    let d := unmarshalString v r.Description
    ({ r with Description := d.1 }, d.2)
  else (r, none)

/-- The function `json.Unmarshal` at `metadataResult`. -/
def metadataResult.unmarshal : JSON → metadataResult → metadataResult × Option GoError :=
  unmarshalStruct metadataResult.setField "struct"

/-- How the decoder stores one member of an object in a `statusResult`, by the
struct tags. -/
def statusResult.setField (key : String) (v : JSON) (r : statusResult) :
    statusResult × Option GoError :=
  if matchesTag "success" key then
    let d := unmarshalBool v r.Success
    ({ r with Success := d.1 }, d.2)
  else if matchesTag "message" key then
    let d := unmarshalString v r.Message
    ({ r with Message := d.1 }, d.2)
  else (r, none)

/-- The function `json.Unmarshal` at `statusResult`. -/
def statusResult.unmarshal : JSON → statusResult → statusResult × Option GoError :=
  unmarshalStruct statusResult.setField "struct"

/-- How the decoder stores one member of an object in a `queryResult`, by the
struct tags. -/
def queryResult.setField (key : String) (v : JSON) (r : queryResult) :
    queryResult × Option GoError :=
  if matchesTag "success" key then
    let d := unmarshalBool v r.Success
    ({ r with Success := d.1 }, d.2)
  else if matchesTag "rows" key then
    let d := unmarshalSlice unmarshalRow ∅ "[]map[string]interface {}" v r.Rows
    ({ r with Rows := d.1 }, d.2)
  else if matchesTag "message" key then
    let d := unmarshalString v r.Message
    ({ r with Message := d.1 }, d.2)
  else (r, none)

/-- The function `json.Unmarshal` at `queryResult`. -/
def queryResult.unmarshal : JSON → queryResult → queryResult × Option GoError :=
  unmarshalStruct queryResult.setField "struct"

/-- How the decoder stores one member of an object in a `generateResult`, by the
struct tags. -/
def generateResult.setField (key : String) (v : JSON) (r : generateResult) :
    generateResult × Option GoError :=
  if matchesTag "success" key then
    let d := unmarshalBool v r.Success
    ({ r with Success := d.1 }, d.2)
  else if matchesTag "text" key then
    let d := unmarshalString v r.Text
    ({ r with Text := d.1 }, d.2)
  else if matchesTag "message" key then
    let d := unmarshalString v r.Message
    ({ r with Message := d.1 }, d.2)
  else (r, none)

/-- The function `json.Unmarshal` at `generateResult`. -/
def generateResult.unmarshal : JSON → generateResult → generateResult × Option GoError :=
  unmarshalStruct generateResult.setField "struct"

/-- How the decoder stores one member of an object in a `embeddingResult`, by the
struct tags. -/
def embeddingResult.setField (key : String) (v : JSON) (r : embeddingResult) :
    embeddingResult × Option GoError :=
  if matchesTag "success" key then
    let d := unmarshalBool v r.Success
    ({ r with Success := d.1 }, d.2)
  else if matchesTag "embedding" key then
    let d := unmarshalSlice unmarshalFloat64 (.finite 0 0) "[]float64" v r.Embedding
    ({ r with Embedding := d.1 }, d.2)
  else if matchesTag "message" key then
    let d := unmarshalString v r.Message
    ({ r with Message := d.1 }, d.2)
  else (r, none)

/-- The function `json.Unmarshal` at `embeddingResult`. -/
def embeddingResult.unmarshal : JSON → embeddingResult → embeddingResult × Option GoError :=
  unmarshalStruct embeddingResult.setField "struct"

/-- The index expression `m[k]` of a `map[string]string`: the empty string for a
missing key. -/
def indexString (m : StringMap) (k : String) : String :=
  (m.lookup k).getD ""

namespace HTTPClient

/-- The operation `Ping`. -/
def Ping (c : HTTPClient) (js : EnvelopeCodec) (_ctx : Option Context) : Returned PingResponse :=
  let result : StringMap := ∅
  match c.callJSONRPC js "ping" none unmarshalStringMap result with
  | (_, some err) => (none, some err)
  | (result, none) =>
    (some { Status := indexString result "status", Version := indexString result "version" }, none)

/-- The operation `ValidateConfig`. -/
def ValidateConfig (c : HTTPClient) (js : EnvelopeCodec) (_ctx : Option Context)
    (tomlContent : String) : Returned ValidateConfigResponse :=
  let params : Params := some (List.toAList [⟨"config_toml", .string tomlContent⟩])
  let result : validateResult := { Valid := false, Errors := [] }
  match c.callJSONRPC js "validate_config" params validateResult.unmarshal result with
  | (_, some err) => (none, some err)
  | (result, none) => (some { Valid := result.Valid, Errors := result.Errors }, none)

/-- The operation `LoadConfig`. -/
def LoadConfig (c : HTTPClient) (js : EnvelopeCodec) (_ctx : Option Context)
    (configPath : String) : Returned LoadConfigResponse :=
  let params : Params := some (List.toAList [⟨"config_path", .string configPath⟩])
  let result : loadConfigResult := { Success := false, Message := "", OperatorName := "" }
  match c.callJSONRPC js "load_config" params loadConfigResult.unmarshal result with
  | (_, some err) => (none, some err)
  | (result, none) =>
    (some { Success := result.Success, OperatorName := result.OperatorName,
            Error := result.Message }, none)

/-- The operation `GetMetadata`. -/
def GetMetadata (c : HTTPClient) (js : EnvelopeCodec) (_ctx : Option Context) :
    Returned MetadataResponse :=
  let result : metadataResult := { Name := "", Version := "", Description := "" }
  match c.callJSONRPC js "get_metadata" none metadataResult.unmarshal result with
  | (_, some err) => (none, some err)
  | (result, none) =>
    (some { Name := result.Name, Version := result.Version,
            Description := result.Description }, none)

/-- The operation `CreateDataSource`. -/
def CreateDataSource (c : HTTPClient) (js : EnvelopeCodec) (_ctx : Option Context)
    (name : String) (config : Config) : Returned DataSourceResponse :=
  let params : Params := some (List.toAList [⟨"name", .string name⟩, ⟨"config", .config config⟩])
  let result : statusResult := { Success := false, Message := "" }
  match c.callJSONRPC js "datasource.create" params statusResult.unmarshal result with
  | (_, some err) => (none, some err)
  | (result, none) => (some { Success := result.Success, Message := result.Message }, none)

/-- The operation `QueryDataSource`. -/
def QueryDataSource (c : HTTPClient) (js : EnvelopeCodec) (_ctx : Option Context)
    (name : String) (query : String) : Returned DataSourceQueryResponse :=
  let params : Params := some (List.toAList [⟨"name", .string name⟩, ⟨"query", .string query⟩])
  let result : queryResult := { Success := false, Rows := [], Message := "" }
  match c.callJSONRPC js "datasource.query" params queryResult.unmarshal result with
  | (_, some err) => (none, some err)
  | (result, none) =>
    (some { Success := result.Success, Rows := result.Rows, Message := result.Message }, none)

/-- The operation `ExecuteDataSource`. -/
def ExecuteDataSource (c : HTTPClient) (js : EnvelopeCodec) (_ctx : Option Context)
    (name : String) (query : String) : Returned DataSourceResponse :=
  let params : Params := some (List.toAList [⟨"name", .string name⟩, ⟨"query", .string query⟩])
  let result : statusResult := { Success := false, Message := "" }
  match c.callJSONRPC js "datasource.execute" params statusResult.unmarshal result with
  | (_, some err) => (none, some err)
  | (result, none) => (some { Success := result.Success, Message := result.Message }, none)

/-- The operation `InsertDataSource`. -/
def InsertDataSource (c : HTTPClient) (js : EnvelopeCodec) (_ctx : Option Context)
    (name : String) (data : Config) : Returned DataSourceResponse :=
  let params : Params := some (List.toAList [⟨"name", .string name⟩, ⟨"data", .config data⟩])
  let result : statusResult := { Success := false, Message := "" }
  match c.callJSONRPC js "datasource.insert" params statusResult.unmarshal result with
  | (_, some err) => (none, some err)
  | (result, none) => (some { Success := result.Success, Message := result.Message }, none)

/-- The operation `PingDataSource`. -/
def PingDataSource (c : HTTPClient) (js : EnvelopeCodec) (_ctx : Option Context)
    (name : String) : Returned DataSourceResponse :=
  let params : Params := some (List.toAList [⟨"name", .string name⟩])
  let result : statusResult := { Success := false, Message := "" }
  match c.callJSONRPC js "datasource.ping" params statusResult.unmarshal result with
  | (_, some err) => (none, some err)
  | (result, none) => (some { Success := result.Success, Message := result.Message }, none)

/-- The operation `CloseDataSource`. -/
def CloseDataSource (c : HTTPClient) (js : EnvelopeCodec) (_ctx : Option Context)
    (name : String) : Returned DataSourceResponse :=
  let params : Params := some (List.toAList [⟨"name", .string name⟩])
  let result : statusResult := { Success := false, Message := "" }
  match c.callJSONRPC js "datasource.close" params statusResult.unmarshal result with
  | (_, some err) => (none, some err)
  | (result, none) => (some { Success := result.Success, Message := result.Message }, none)

/-- The operation `CreateLLM`. -/
def CreateLLM (c : HTTPClient) (js : EnvelopeCodec) (_ctx : Option Context)
    (name : String) (config : Config) : Returned LLMResponse :=
  let params : Params := some (List.toAList [⟨"name", .string name⟩, ⟨"config", .config config⟩])
  let result : statusResult := { Success := false, Message := "" }
  match c.callJSONRPC js "llm.create" params statusResult.unmarshal result with
  | (_, some err) => (none, some err)
  | (result, none) => (some { Success := result.Success, Message := result.Message }, none)

/-- The operation `GenerateLLM`. -/
def GenerateLLM (c : HTTPClient) (js : EnvelopeCodec) (_ctx : Option Context)
    (name : String) (prompt : String) : Returned LLMGenerateResponse :=
  let params : Params := some (List.toAList [⟨"name", .string name⟩, ⟨"prompt", .string prompt⟩])
  let result : generateResult := { Success := false, Text := "", Message := "" }
  match c.callJSONRPC js "llm.generate" params generateResult.unmarshal result with
  | (_, some err) => (none, some err)
  | (result, none) =>
    (some { Success := result.Success, Text := result.Text, Message := result.Message }, none)

/-- The operation `ChatLLM`. -/
def ChatLLM (c : HTTPClient) (js : EnvelopeCodec) (_ctx : Option Context)
    (name : String) (messages : List Config) : Returned LLMGenerateResponse :=
  let params : Params :=
    some (List.toAList [⟨"name", .string name⟩, ⟨"messages", .messages messages⟩])
  let result : generateResult := { Success := false, Text := "", Message := "" }
  match c.callJSONRPC js "llm.chat" params generateResult.unmarshal result with
  | (_, some err) => (none, some err)
  | (result, none) =>
    (some { Success := result.Success, Text := result.Text, Message := result.Message }, none)

/-- The operation `EmbeddingLLM`. -/
def EmbeddingLLM (c : HTTPClient) (js : EnvelopeCodec) (_ctx : Option Context)
    (name : String) (text : String) : Returned LLMEmbeddingResponse :=
  let params : Params := some (List.toAList [⟨"name", .string name⟩, ⟨"text", .string text⟩])
  let result : embeddingResult := { Success := false, Embedding := [], Message := "" }
  match c.callJSONRPC js "llm.embedding" params embeddingResult.unmarshal result with
  | (_, some err) => (none, some err)
  | (result, none) =>
    (some { Success := result.Success, Embedding := result.Embedding,
            Message := result.Message }, none)

/-- The operation `PingLLM`. -/
def PingLLM (c : HTTPClient) (js : EnvelopeCodec) (_ctx : Option Context)
    (name : String) : Returned LLMResponse :=
  let params : Params := some (List.toAList [⟨"name", .string name⟩])
  let result : statusResult := { Success := false, Message := "" }
  match c.callJSONRPC js "llm.ping" params statusResult.unmarshal result with
  | (_, some err) => (none, some err)
  | (result, none) => (some { Success := result.Success, Message := result.Message }, none)

/-- The operation `CloseLLM`. -/
def CloseLLM (c : HTTPClient) (js : EnvelopeCodec) (_ctx : Option Context)
    (name : String) : Returned LLMResponse :=
  let params : Params := some (List.toAList [⟨"name", .string name⟩])
  let result : statusResult := { Success := false, Message := "" }
  match c.callJSONRPC js "llm.close" params statusResult.unmarshal result with
  | (_, some err) => (none, some err)
  | (result, none) => (some { Success := result.Success, Message := result.Message }, none)

end HTTPClient

/-! ## The gRPC adapter: the remaining operations -/

/-- The method `Close` of a `*grpc.ClientConn`: the first call closes the
connection, and a call on a closed connection returns `ErrClientConnClosing`. -/
def ClientConn.Close (cc : ClientConn) : ClientConn × Option GoError :=
  if cc.closed then (cc, some (.foreign "grpc: the client connection is closing"))
  else ({ closed := true }, none)

namespace GRPCClient

/-- The row `InsertDataSource` builds from the data map (the loop "Convert map
to proto Row"). -/
def InsertDataSource.columns (data : Config) : AList (fun _ : String => pb.Value) :=
  data.foldl (fun columns key val => columns.insert key (pb.Value.StringValue (sprintV val))) ∅

/-- The request `InsertDataSource` builds. -/
def InsertDataSource.request (name : String) (data : Config) : pb.InsertDataSourceRequest :=
  { Name := name, Table := "", Data := { Columns := InsertDataSource.columns data } }

/-- The request `CreateLLM` builds. -/
def CreateLLM.request (name : String) (config : Config) : pb.CreateLLMRequest :=
  let provider :=
    match asString (index config "provider") with
    | some p => p
    | none => ""
  let configProto : pb.LLMConfig :=
    { Provider := mapLLMProvider provider, Model := "", ApiKey := none }
  let configProto :=
    match asString (index config "model") with
    | some model => { configProto with Model := model }
    | none => configProto
  let configProto :=
    match asString (index config "api_key") with
    | some apiKey => { configProto with ApiKey := some apiKey }
    | none => configProto
  { Name := name, Config := configProto }


/-- The operation `Ping`. -/
def Ping (c : GRPCClient) (ctx : Option Context) :
    Returned PingResponse :=
  let ctx :=
    match ctx with
    | none => some (Context.WithTimeout c.timeout)
    | some ctx => some ctx
  let req : pb.PingRequest := {}
  match c.service.Ping ctx req with
  | .error err => (none, some (.wrapf "ping failed: " err))
  | .ok resp =>
    (some { Status := resp.Status, Version := resp.Version }, none)

/-- The operation `ValidateConfig`. -/
def ValidateConfig (c : GRPCClient) (ctx : Option Context) (tomlContent : String) :
    Returned ValidateConfigResponse :=
  let ctx :=
    match ctx with
    | none => some (Context.WithTimeout c.timeout)
    | some ctx => some ctx
  let req : pb.ValidateConfigRequest := { TomlContent := tomlContent }
  match c.service.ValidateConfig ctx req with
  | .error err => (none, some (.wrapf "validate config failed: " err))
  | .ok resp =>
    (some { Valid := resp.Valid, Errors := resp.Errors }, none)

/-- The operation `LoadConfig`. -/
def LoadConfig (c : GRPCClient) (ctx : Option Context) (configPath : String) :
    Returned LoadConfigResponse :=
  let ctx :=
    match ctx with
    | none => some (Context.WithTimeout c.timeout)
    | some ctx => some ctx
  let req : pb.LoadConfigRequest := { ConfigPath := configPath }
  match c.service.LoadConfig ctx req with
  | .error err => (none, some (.wrapf "load config failed: " err))
  | .ok resp =>
    (some { Success := resp.Success, OperatorName := resp.OperatorName, Error := resp.Error }, none)

/-- The operation `ExecuteDataSource`. -/
def ExecuteDataSource (c : GRPCClient) (ctx : Option Context) (name : String) (query : String) :
    Returned DataSourceResponse :=
  let ctx :=
    match ctx with
    | none => some (Context.WithTimeout c.timeout)
    | some ctx => some ctx
  let req : pb.ExecuteDataSourceRequest := { Name := name, Query := query }
  match c.service.ExecuteDataSource ctx req with
  | .error err => (none, some (.wrapf "execute datasource failed: " err))
  | .ok resp =>
    (some { Success := resp.Success, Message := resp.Error }, none)

/-- The operation `InsertDataSource`. -/
def InsertDataSource (c : GRPCClient) (ctx : Option Context) (name : String) (data : Config) :
    Returned DataSourceResponse :=
  let ctx :=
    match ctx with
    | none => some (Context.WithTimeout c.timeout)
    | some ctx => some ctx
  let req : pb.InsertDataSourceRequest := InsertDataSource.request name data
  match c.service.InsertDataSource ctx req with
  | .error err => (none, some (.wrapf "insert datasource failed: " err))
  | .ok resp =>
    (some { Success := resp.Success, Message := resp.Error }, none)

/-- The operation `PingDataSource`. -/
def PingDataSource (c : GRPCClient) (ctx : Option Context) (name : String) :
    Returned DataSourceResponse :=
  let ctx :=
    match ctx with
    | none => some (Context.WithTimeout c.timeout)
    | some ctx => some ctx
  let req : pb.PingDataSourceRequest := { Name := name }
  match c.service.PingDataSource ctx req with
  | .error err => (none, some (.wrapf "ping datasource failed: " err))
  | .ok resp =>
    (some { Success := resp.Healthy, Message := resp.Error }, none)

/-- The operation `CloseDataSource`. -/
def CloseDataSource (c : GRPCClient) (ctx : Option Context) (name : String) :
    Returned DataSourceResponse :=
  let ctx :=
    match ctx with
    | none => some (Context.WithTimeout c.timeout)
    | some ctx => some ctx
  let req : pb.CloseDataSourceRequest := { Name := name }
  match c.service.CloseDataSource ctx req with
  | .error err => (none, some (.wrapf "close datasource failed: " err))
  | .ok resp =>
    (some { Success := resp.Success, Message := resp.Error }, none)

/-- The operation `CreateLLM`. -/
def CreateLLM (c : GRPCClient) (ctx : Option Context) (name : String) (config : Config) :
    Returned LLMResponse :=
  let ctx :=
    match ctx with
    | none => some (Context.WithTimeout c.timeout)
    | some ctx => some ctx
  let req : pb.CreateLLMRequest := CreateLLM.request name config
  match c.service.CreateLLM ctx req with
  | .error err => (none, some (.wrapf "create llm failed: " err))
  | .ok resp =>
    (some { Success := resp.Success, Message := resp.Error }, none)

/-- The operation `GenerateLLM`. -/
def GenerateLLM (c : GRPCClient) (ctx : Option Context) (name : String) (prompt : String) :
    Returned LLMGenerateResponse :=
  let ctx :=
    match ctx with
    | none => some (Context.WithTimeout c.timeout)
    | some ctx => some ctx
  let req : pb.GenerateLLMRequest := { Name := name, Prompt := prompt }
  match c.service.GenerateLLM ctx req with
  | .error err => (none, some (.wrapf "generate llm failed: " err))
  | .ok resp =>
    (some { Success := resp.Success, Text := resp.Text, Message := resp.Error }, none)

/-- The operation `EmbeddingLLM`. -/
def EmbeddingLLM (c : GRPCClient) (ctx : Option Context) (name : String) (text : String) :
    Returned LLMEmbeddingResponse :=
  let ctx :=
    match ctx with
    | none => some (Context.WithTimeout c.timeout)
    | some ctx => some ctx
  let req : pb.EmbeddingLLMRequest := { Name := name, Text := text }
  match c.service.EmbeddingLLM ctx req with
  | .error err => (none, some (.wrapf "embedding llm failed: " err))
  | .ok resp =>
    let embedding := resp.Embedding.map Float32.toFloat64
    (some { Success := resp.Success, Embedding := embedding, Message := resp.Error }, none)

/-- The operation `PingLLM`. -/
def PingLLM (c : GRPCClient) (ctx : Option Context) (name : String) :
    Returned LLMResponse :=
  let ctx :=
    match ctx with
    | none => some (Context.WithTimeout c.timeout)
    | some ctx => some ctx
  let req : pb.PingLLMRequest := { Name := name }
  match c.service.PingLLM ctx req with
  | .error err => (none, some (.wrapf "ping llm failed: " err))
  | .ok resp =>
    (some { Success := resp.Healthy, Message := resp.Error }, none)

/-- The operation `CloseLLM`. -/
def CloseLLM (c : GRPCClient) (ctx : Option Context) (name : String) :
    Returned LLMResponse :=
  let ctx :=
    match ctx with
    | none => some (Context.WithTimeout c.timeout)
    | some ctx => some ctx
  let req : pb.CloseLLMRequest := { Name := name }
  match c.service.CloseLLM ctx req with
  | .error err => (none, some (.wrapf "close llm failed: " err))
  | .ok resp =>
    (some { Success := resp.Success, Message := resp.Error }, none)

/-- The operation `GetMetadata`. -/
def GetMetadata (c : GRPCClient) (ctx : Option Context) : Returned MetadataResponse :=
  let ctx :=
    match ctx with
    | none => some (Context.WithTimeout c.timeout)
    | some ctx => some ctx
  let req : pb.GetMetadataRequest := {}
  match c.service.GetMetadata ctx req with
  | .error err => (none, some (.wrapf "get metadata failed: " err))
  | .ok resp =>
    match resp.Metadata with
    | none => (none, some (.errorf "metadata is nil in response"))
    | some metadata =>
      (some { Name := metadata.Name, Version := metadata.Version,
              Description := metadata.Description }, none)

/-- The conversion of one result row (body of the loop "Convert proto rows to
map format"). -/
def QueryDataSource.rowMap (protoRow : pb.Row) : Row :=
  protoRow.Columns.foldl (fun rowMap key value => rowMap.insert key (.proto value)) ∅

/-- The rows `QueryDataSource` returns. -/
def QueryDataSource.rows (protoRows : List pb.Row) : List Row :=
  protoRows.foldl (fun rows protoRow => rows ++ [QueryDataSource.rowMap protoRow]) []

/-- The operation `QueryDataSource`. -/
def QueryDataSource (c : GRPCClient) (ctx : Option Context) (name : String) (query : String) :
    Returned DataSourceQueryResponse :=
  let ctx :=
    match ctx with
    | none => some (Context.WithTimeout c.timeout)
    | some ctx => some ctx
  let req : pb.QueryDataSourceRequest := { Name := name, Query := query }
  match c.service.QueryDataSource ctx req with
  | .error err => (none, some (.wrapf "query datasource failed: " err))
  | .ok resp =>
    (some { Success := resp.Success, Rows := QueryDataSource.rows resp.Rows,
            Message := resp.Error }, none)

/-- The method `Close`: the client as the call leaves it, and the error. -/
def Close (c : GRPCClient) : GRPCClient × Option GoError :=
  match c.conn with
  | some conn =>
    let closed := conn.Close
    ({ c with conn := some closed.1 }, closed.2)
  | none => (c, none)

end GRPCClient

/-! ## The FFI adapter: the remaining operations -/

namespace FFIClient

/-- The row `InsertDataSource` builds from the data map (the loop "Convert map
to proto Row"). -/
def InsertDataSource.columns (data : Config) : AList (fun _ : String => pb.Value) :=
  data.foldl (fun columns key val => columns.insert key (pb.Value.StringValue (sprintV val))) ∅

/-- The request `InsertDataSource` builds. -/
def InsertDataSource.request (name : String) (data : Config) : pb.InsertDataSourceRequest :=
  { Name := name, Table := "", Data := { Columns := InsertDataSource.columns data } }

/-- The request `CreateLLM` builds. -/
def CreateLLM.request (name : String) (config : Config) : pb.CreateLLMRequest :=
  let provider :=
    match asString (index config "provider") with
    | some p => p
    | none => ""
  let configProto : pb.LLMConfig :=
    { Provider := mapLLMProvider provider, Model := "", ApiKey := none }
  let configProto :=
    match asString (index config "model") with
    | some model => { configProto with Model := model }
    | none => configProto
  let configProto :=
    match asString (index config "api_key") with
    | some apiKey => { configProto with ApiKey := some apiKey }
    | none => configProto
  { Name := name, Config := configProto }


/-- The operation `Ping`. -/
def Ping (c : FFIClient) (ld : Loader) (codec : Codec pb.PingRequest pb.PingResponse)
    (_ctx : Option Context) : Traced (Returned PingResponse) :=
  let req : pb.PingRequest := {}
  let resp : pb.PingResponse := { Status := "", Version := "" }
  let r := c.callFFI ld codec (call_proto ld "ping_proto") req resp
  match r.outcome with
  | .error p => ⟨r.events, .error p⟩
  | .ok (some err, _) => ⟨r.events, .ok (none, some (.wrapf "ping failed: " err))⟩
  | .ok (none, resp) =>
    ⟨r.events, .ok (some { Status := resp.Status, Version := resp.Version }, none)⟩

/-- The operation `ValidateConfig`. -/
def ValidateConfig (c : FFIClient) (ld : Loader)
    (codec : Codec pb.ValidateConfigRequest pb.ValidateConfigResponse)
    (_ctx : Option Context) (tomlContent : String) : Traced (Returned ValidateConfigResponse) :=
  let req : pb.ValidateConfigRequest := { TomlContent := tomlContent }
  let resp : pb.ValidateConfigResponse := { Valid := false, Errors := [] }
  let r := c.callFFI ld codec (call_proto ld "validate_config_proto") req resp
  match r.outcome with
  | .error p => ⟨r.events, .error p⟩
  | .ok (some err, _) => ⟨r.events, .ok (none, some (.wrapf "validate config failed: " err))⟩
  | .ok (none, resp) =>
    ⟨r.events, .ok (some { Valid := resp.Valid, Errors := resp.Errors }, none)⟩

/-- The operation `LoadConfig`. -/
def LoadConfig (c : FFIClient) (ld : Loader)
    (codec : Codec pb.LoadConfigRequest pb.LoadConfigResponse)
    (_ctx : Option Context) (configPath : String) : Traced (Returned LoadConfigResponse) :=
  let req : pb.LoadConfigRequest := { ConfigPath := configPath }
  let resp : pb.LoadConfigResponse := { Success := false, OperatorName := "", Error := "" }
  let r := c.callFFI ld codec (call_proto ld "load_config_proto") req resp
  match r.outcome with
  | .error p => ⟨r.events, .error p⟩
  | .ok (some err, _) => ⟨r.events, .ok (none, some (.wrapf "load config failed: " err))⟩
  | .ok (none, resp) =>
    ⟨r.events,
      .ok (some { Success := resp.Success, OperatorName := resp.OperatorName, Error := resp.Error }, none)⟩

/-- The operation `ExecuteDataSource`. -/
def ExecuteDataSource (c : FFIClient) (ld : Loader)
    (codec : Codec pb.ExecuteDataSourceRequest pb.ExecuteDataSourceResponse)
    (_ctx : Option Context) (name : String) (query : String) : Traced (Returned DataSourceResponse) :=
  let req : pb.ExecuteDataSourceRequest := { Name := name, Query := query }
  let resp : pb.ExecuteDataSourceResponse := { Success := false, Error := "" }
  let r := c.callFFI ld codec (call_proto ld "datasource_execute_proto") req resp
  match r.outcome with
  | .error p => ⟨r.events, .error p⟩
  | .ok (some err, _) => ⟨r.events, .ok (none, some (.wrapf "datasource execute failed: " err))⟩
  | .ok (none, resp) =>
    ⟨r.events, .ok (some { Success := resp.Success, Message := resp.Error }, none)⟩

/-- The operation `InsertDataSource`. -/
def InsertDataSource (c : FFIClient) (ld : Loader)
    (codec : Codec pb.InsertDataSourceRequest pb.InsertDataSourceResponse)
    (_ctx : Option Context) (name : String) (data : Config) : Traced (Returned DataSourceResponse) :=
  let req : pb.InsertDataSourceRequest := InsertDataSource.request name data
  let resp : pb.InsertDataSourceResponse := { Success := false, Error := "" }
  let r := c.callFFI ld codec (call_proto ld "datasource_insert_proto") req resp
  match r.outcome with
  | .error p => ⟨r.events, .error p⟩
  | .ok (some err, _) => ⟨r.events, .ok (none, some (.wrapf "datasource insert failed: " err))⟩
  | .ok (none, resp) =>
    ⟨r.events, .ok (some { Success := resp.Success, Message := resp.Error }, none)⟩

/-- The operation `PingDataSource`. -/
def PingDataSource (c : FFIClient) (ld : Loader)
    (codec : Codec pb.PingDataSourceRequest pb.PingDataSourceResponse)
    (_ctx : Option Context) (name : String) : Traced (Returned DataSourceResponse) :=
  let req : pb.PingDataSourceRequest := { Name := name }
  let resp : pb.PingDataSourceResponse := { Healthy := false, Error := "" }
  let r := c.callFFI ld codec (call_proto ld "datasource_ping_proto") req resp
  match r.outcome with
  | .error p => ⟨r.events, .error p⟩
  | .ok (some err, _) => ⟨r.events, .ok (none, some (.wrapf "datasource ping failed: " err))⟩
  | .ok (none, resp) =>
    ⟨r.events, .ok (some { Success := resp.Healthy, Message := resp.Error }, none)⟩

/-- The operation `CloseDataSource`. -/
def CloseDataSource (c : FFIClient) (ld : Loader)
    (codec : Codec pb.CloseDataSourceRequest pb.CloseDataSourceResponse)
    (_ctx : Option Context) (name : String) : Traced (Returned DataSourceResponse) :=
  let req : pb.CloseDataSourceRequest := { Name := name }
  let resp : pb.CloseDataSourceResponse := { Success := false, Error := "" }
  let r := c.callFFI ld codec (call_proto ld "datasource_close_proto") req resp
  match r.outcome with
  | .error p => ⟨r.events, .error p⟩
  | .ok (some err, _) => ⟨r.events, .ok (none, some (.wrapf "datasource close failed: " err))⟩
  | .ok (none, resp) =>
    ⟨r.events, .ok (some { Success := resp.Success, Message := resp.Error }, none)⟩

/-- The operation `CreateLLM`. -/
def CreateLLM (c : FFIClient) (ld : Loader) (codec : Codec pb.CreateLLMRequest pb.CreateLLMResponse)
    (_ctx : Option Context) (name : String) (config : Config) : Traced (Returned LLMResponse) :=
  let req : pb.CreateLLMRequest := CreateLLM.request name config
  let resp : pb.CreateLLMResponse := { Success := false, Error := "" }
  let r := c.callFFI ld codec (call_proto ld "llm_create_proto") req resp
  match r.outcome with
  | .error p => ⟨r.events, .error p⟩
  | .ok (some err, _) => ⟨r.events, .ok (none, some (.wrapf "llm create failed: " err))⟩
  | .ok (none, resp) =>
    ⟨r.events, .ok (some { Success := resp.Success, Message := resp.Error }, none)⟩

/-- The operation `GenerateLLM`. -/
def GenerateLLM (c : FFIClient) (ld : Loader)
    (codec : Codec pb.GenerateLLMRequest pb.GenerateLLMResponse)
    (_ctx : Option Context) (name : String) (prompt : String) : Traced (Returned LLMGenerateResponse) :=
  let req : pb.GenerateLLMRequest := { Name := name, Prompt := prompt }
  let resp : pb.GenerateLLMResponse := { Success := false, Text := "", Error := "" }
  let r := c.callFFI ld codec (call_proto ld "llm_generate_proto") req resp
  match r.outcome with
  | .error p => ⟨r.events, .error p⟩
  | .ok (some err, _) => ⟨r.events, .ok (none, some (.wrapf "llm generate failed: " err))⟩
  | .ok (none, resp) =>
    ⟨r.events,
      .ok (some { Success := resp.Success, Text := resp.Text, Message := resp.Error }, none)⟩

/-- The operation `EmbeddingLLM`. -/
def EmbeddingLLM (c : FFIClient) (ld : Loader)
    (codec : Codec pb.EmbeddingLLMRequest pb.EmbeddingLLMResponse)
    (_ctx : Option Context) (name : String) (text : String) : Traced (Returned LLMEmbeddingResponse) :=
  let req : pb.EmbeddingLLMRequest := { Name := name, Text := text }
  let resp : pb.EmbeddingLLMResponse := { Success := false, Embedding := [], Error := "" }
  let r := c.callFFI ld codec (call_proto ld "llm_embedding_proto") req resp
  match r.outcome with
  | .error p => ⟨r.events, .error p⟩
  | .ok (some err, _) => ⟨r.events, .ok (none, some (.wrapf "llm embedding failed: " err))⟩
  | .ok (none, resp) =>
    let embedding := resp.Embedding.map Float32.toFloat64
    ⟨r.events,
      .ok (some { Success := resp.Success, Embedding := embedding, Message := resp.Error }, none)⟩

/-- The operation `PingLLM`. -/
def PingLLM (c : FFIClient) (ld : Loader) (codec : Codec pb.PingLLMRequest pb.PingLLMResponse)
    (_ctx : Option Context) (name : String) : Traced (Returned LLMResponse) :=
  let req : pb.PingLLMRequest := { Name := name }
  let resp : pb.PingLLMResponse := { Healthy := false, Error := "" }
  let r := c.callFFI ld codec (call_proto ld "llm_ping_proto") req resp
  match r.outcome with
  | .error p => ⟨r.events, .error p⟩
  | .ok (some err, _) => ⟨r.events, .ok (none, some (.wrapf "llm ping failed: " err))⟩
  | .ok (none, resp) =>
    ⟨r.events, .ok (some { Success := resp.Healthy, Message := resp.Error }, none)⟩

/-- The operation `CloseLLM`. -/
def CloseLLM (c : FFIClient) (ld : Loader) (codec : Codec pb.CloseLLMRequest pb.CloseLLMResponse)
    (_ctx : Option Context) (name : String) : Traced (Returned LLMResponse) :=
  let req : pb.CloseLLMRequest := { Name := name }
  let resp : pb.CloseLLMResponse := { Success := false, Error := "" }
  let r := c.callFFI ld codec (call_proto ld "llm_close_proto") req resp
  match r.outcome with
  | .error p => ⟨r.events, .error p⟩
  | .ok (some err, _) => ⟨r.events, .ok (none, some (.wrapf "llm close failed: " err))⟩
  | .ok (none, resp) =>
    ⟨r.events, .ok (some { Success := resp.Success, Message := resp.Error }, none)⟩

/-- The operation `GetMetadata`. -/
def GetMetadata (c : FFIClient) (ld : Loader)
    (codec : Codec pb.GetMetadataRequest pb.GetMetadataResponse) (_ctx : Option Context) :
    Traced (Returned MetadataResponse) :=
  let req : pb.GetMetadataRequest := {}
  let resp : pb.GetMetadataResponse := { Metadata := none }
  let r := c.callFFI ld codec (call_proto ld "get_metadata_proto") req resp
  match r.outcome with
  | .error p => ⟨r.events, .error p⟩
  | .ok (some err, _) => ⟨r.events, .ok (none, some (.wrapf "get metadata failed: " err))⟩
  | .ok (none, resp) =>
    match resp.Metadata with
    | none => ⟨r.events, .ok (none, some (.errorf "metadata is nil in response"))⟩
    | some metadata =>
      ⟨r.events, .ok (some { Name := metadata.Name, Version := metadata.Version,
                             Description := metadata.Description }, none)⟩

/-- The operation `QueryDataSource`. -/
def QueryDataSource (c : FFIClient) (ld : Loader)
    (codec : Codec pb.QueryDataSourceRequest pb.QueryDataSourceResponse)
    (_ctx : Option Context) (name : String) (query : String) :
    Traced (Returned DataSourceQueryResponse) :=
  let req : pb.QueryDataSourceRequest := { Name := name, Query := query }
  let resp : pb.QueryDataSourceResponse := { Success := false, Rows := [], Error := "" }
  let r := c.callFFI ld codec (call_proto ld "datasource_query_proto") req resp
  match r.outcome with
  | .error p => ⟨r.events, .error p⟩
  | .ok (some err, _) =>
    ⟨r.events, .ok (none, some (.wrapf "datasource query failed: " err))⟩
  | .ok (none, resp) =>
    let rows : List Row := []
    ⟨r.events, .ok (some { Success := resp.Success, Rows := rows, Message := resp.Error }, none)⟩

/-- The method `Close`: the client as the call leaves it, what happened at the
native boundary, and the error. -/
def Close (c : FFIClient) : FFIClient × List FFIEvent × Option GoError :=
  match c.handle with
  | some handle => ({ c with handle := none }, [.dlclose handle], none)
  | none => (c, [], none)

end FFIClient

/-- The method `Close` of the HTTP adapter: the client as the call leaves it,
and the error. -/
def HTTPClient.Close (c : HTTPClient) : HTTPClient × Option GoError :=
  (c, none)

/-- The functions `proto.Marshal` and `proto.Unmarshal` at the message types of
the sixteen operations. -/
structure Codecs where
  Ping : Codec pb.PingRequest pb.PingResponse
  ValidateConfig : Codec pb.ValidateConfigRequest pb.ValidateConfigResponse
  LoadConfig : Codec pb.LoadConfigRequest pb.LoadConfigResponse
  GetMetadata : Codec pb.GetMetadataRequest pb.GetMetadataResponse
  CreateDataSource : Codec CreateDataSourceRequest CreateDataSourceResponse
  QueryDataSource : Codec pb.QueryDataSourceRequest pb.QueryDataSourceResponse
  ExecuteDataSource : Codec pb.ExecuteDataSourceRequest pb.ExecuteDataSourceResponse
  InsertDataSource : Codec pb.InsertDataSourceRequest pb.InsertDataSourceResponse
  PingDataSource : Codec pb.PingDataSourceRequest pb.PingDataSourceResponse
  CloseDataSource : Codec pb.CloseDataSourceRequest pb.CloseDataSourceResponse
  CreateLLM : Codec pb.CreateLLMRequest pb.CreateLLMResponse
  GenerateLLM : Codec pb.GenerateLLMRequest pb.GenerateLLMResponse
  ChatLLM : Codec ChatLLMRequest ChatLLMResponse
  EmbeddingLLM : Codec pb.EmbeddingLLMRequest pb.EmbeddingLLMResponse
  PingLLM : Codec pb.PingLLMRequest pb.PingLLMResponse
  CloseLLM : Codec pb.CloseLLMRequest pb.CloseLLMResponse

/-! ## Vocabulary of the statements -/

/-- The keys the loop "Copy remaining config to extra" skips. -/
def reservedKey (k : String) : Prop :=
  k = "driver" ∨ k = "host" ∨ k = "port" ∨ k = "database" ∨ k = "username" ∨
    k = "password" ∨ k = "brokers"

instance (k : String) : Decidable (reservedKey k) := by
  unfold reservedKey; infer_instance

/-- The spec's example: driver "postgres", host "localhost", port 5432 and
database "testdb", with credentials. -/
def postgresExample : Config :=
  List.toAList [⟨"driver", .string "postgres"⟩, ⟨"host", .string "localhost"⟩,
    ⟨"port", .float64 (.ofInt 5432) "5432"⟩, ⟨"database", .string "testdb"⟩,
    ⟨"username", .string "postgres"⟩, ⟨"password", .string "password"⟩]

/-- The example with the port 2^63, a float64 that no `int` holds. -/
def hugePortExample : Config :=
  List.toAList [⟨"driver", .string "postgres"⟩, ⟨"host", .string "localhost"⟩,
    ⟨"port", .float64 (.ofInt (2 ^ 63)) "9.223372036854776e+18"⟩,
    ⟨"database", .string "testdb"⟩]

/-- The spec's example: driver "kafka" with two brokers; the host is no string. -/
def kafkaExample : Config :=
  List.toAList [⟨"driver", .string "kafka"⟩, ⟨"brokers", .string "b1:9092,b2:9092"⟩,
    ⟨"host", .int 7⟩]

/-- A MySQL configuration with credentials. -/
def mysqlExample : Config :=
  List.toAList [⟨"driver", .string "mysql"⟩, ⟨"host", .string "db.internal"⟩,
    ⟨"port", .float64 (.ofInt 3306) "3306"⟩, ⟨"database", .string "shop"⟩,
    ⟨"username", .string "root"⟩, ⟨"password", .string "secret"⟩,
    ⟨"charset", .string "utf8"⟩]

/-- A Redis configuration whose port is 2^63, a float64 that no `int` holds. -/
def redisHugePortExample : Config :=
  List.toAList [⟨"driver", .string "redis"⟩, ⟨"host", .string "cache"⟩,
    ⟨"port", .float64 (.ofInt (2 ^ 63)) "9.223372036854776e+18"⟩]

/-- A configuration whose driver no branch knows, with connection fields. -/
def sqliteExample : Config :=
  List.toAList [⟨"driver", .string "sqlite"⟩, ⟨"host", .string "localhost"⟩,
    ⟨"port", .float64 (.ofInt 5432) "5432"⟩, ⟨"database", .string "testdb"⟩,
    ⟨"username", .string "u"⟩, ⟨"password", .string "p"⟩, ⟨"brokers", .string "b"⟩,
    ⟨"mode", .string "rw"⟩, ⟨"pool", .int 4⟩]

/-- The extras map as the postgres branch of the switch statement leaves it:
the username and the password that are strings. -/
def credentialExtras (config : Config) : StringMap :=
  match asString (index config "password") with
  | some password =>
    (match asString (index config "username") with
      | some username => (∅ : StringMap).insert "username" username
      | none => ∅).insert "password" password
  | none =>
    match asString (index config "username") with
    | some username => (∅ : StringMap).insert "username" username
    | none => ∅

/-- A service stub that accepts every request. -/
def acceptingService : OperRouterClient where
  Ping := fun _ _ => .ok { Status := "ok", Version := "1.0" }
  ValidateConfig := fun _ _ => .ok { Valid := true, Errors := [] }
  LoadConfig := fun _ _ => .ok { Success := true, OperatorName := "demo", Error := "" }
  GetMetadata := fun _ _ =>
    .ok { Metadata := some { Name := "demo", Version := "1.0", Description := "" } }
  CreateDataSource := fun _ _ => .ok { Success := true, Error := "" }
  QueryDataSource := fun _ _ => .ok { Success := true, Rows := [], Error := "" }
  ExecuteDataSource := fun _ _ => .ok { Success := true, Error := "" }
  InsertDataSource := fun _ _ => .ok { Success := true, Error := "" }
  PingDataSource := fun _ _ => .ok { Healthy := true, Error := "" }
  CloseDataSource := fun _ _ => .ok { Success := true, Error := "" }
  CreateLLM := fun _ _ => .ok { Success := true, Error := "" }
  GenerateLLM := fun _ _ => .ok { Success := true, Text := "", Error := "" }
  ChatLLM := fun _ _ => .ok { Success := true, Text := "", Error := "" }
  EmbeddingLLM := fun _ _ => .ok { Success := true, Embedding := [], Error := "" }
  PingLLM := fun _ _ => .ok { Healthy := true, Error := "" }
  CloseLLM := fun _ _ => .ok { Success := true, Error := "" }

/-- A connected gRPC adapter over the accepting stub. -/
def acceptingClient : GRPCClient :=
  { conn := some ⟨false⟩, service := acceptingService, timeout := 5 * Second }

/-- A Kafka configuration without the `brokers` key. -/
def kafkaNoBrokersExample : Config :=
  List.toAList [⟨"driver", .string "kafka"⟩, ⟨"topic", .string "events"⟩]

/-- A postgres configuration without the `host` key. -/
def postgresNoHostExample : Config :=
  List.toAList [⟨"driver", .string "postgres"⟩, ⟨"port", .float64 (.ofInt 5432) "5432"⟩,
    ⟨"database", .string "testdb"⟩]

/-- The spec's chat example: a system message and a user message. -/
def chatExample : List Config :=
  [List.toAList [⟨"role", .string "system"⟩, ⟨"content", .string "You are helpful"⟩],
   List.toAList [⟨"role", .string "user"⟩, ⟨"content", .string "Hi"⟩]]

/-- The operations of the capability interface, with their arguments. -/
inductive Operation where
  | Ping
  | ValidateConfig (tomlContent : String)
  | LoadConfig (configPath : String)
  | GetMetadata
  | CreateDataSource (name : String) (config : Config)
  | QueryDataSource (name : String) (query : String)
  | ExecuteDataSource (name : String) (query : String)
  | InsertDataSource (name : String) (data : Config)
  | PingDataSource (name : String)
  | CloseDataSource (name : String)
  | CreateLLM (name : String) (config : Config)
  | GenerateLLM (name : String) (prompt : String)
  | ChatLLM (name : String) (messages : List Config)
  | EmbeddingLLM (name : String) (text : String)
  | PingLLM (name : String)
  | CloseLLM (name : String)

/-- The JSON-RPC method of an operation, from the spec's method catalog. -/
def Operation.method : Operation → String
  | .Ping => "ping"
  | .ValidateConfig _ => "validate_config"
  | .LoadConfig _ => "load_config"
  | .GetMetadata => "get_metadata"
  | .CreateDataSource _ _ => "datasource.create"
  | .QueryDataSource _ _ => "datasource.query"
  | .ExecuteDataSource _ _ => "datasource.execute"
  | .InsertDataSource _ _ => "datasource.insert"
  | .PingDataSource _ => "datasource.ping"
  | .CloseDataSource _ => "datasource.close"
  | .CreateLLM _ _ => "llm.create"
  | .GenerateLLM _ _ => "llm.generate"
  | .ChatLLM _ _ => "llm.chat"
  | .EmbeddingLLM _ _ => "llm.embedding"
  | .PingLLM _ => "llm.ping"
  | .CloseLLM _ => "llm.close"

/-- The `params` of an operation: its arguments under their names. -/
def Operation.params : Operation → Params
  | .Ping => none
  | .ValidateConfig tomlContent => some (List.toAList [⟨"config_toml", .string tomlContent⟩])
  | .LoadConfig configPath => some (List.toAList [⟨"config_path", .string configPath⟩])
  | .GetMetadata => none
  | .CreateDataSource name config =>
    some (List.toAList [⟨"name", .string name⟩, ⟨"config", .config config⟩])
  | .QueryDataSource name query =>
    some (List.toAList [⟨"name", .string name⟩, ⟨"query", .string query⟩])
  | .ExecuteDataSource name query =>
    some (List.toAList [⟨"name", .string name⟩, ⟨"query", .string query⟩])
  | .InsertDataSource name data =>
    some (List.toAList [⟨"name", .string name⟩, ⟨"data", .config data⟩])
  | .PingDataSource name => some (List.toAList [⟨"name", .string name⟩])
  | .CloseDataSource name => some (List.toAList [⟨"name", .string name⟩])
  | .CreateLLM name config =>
    some (List.toAList [⟨"name", .string name⟩, ⟨"config", .config config⟩])
  | .GenerateLLM name prompt =>
    some (List.toAList [⟨"name", .string name⟩, ⟨"prompt", .string prompt⟩])
  | .ChatLLM name messages =>
    some (List.toAList [⟨"name", .string name⟩, ⟨"messages", .messages messages⟩])
  | .EmbeddingLLM name text =>
    some (List.toAList [⟨"name", .string name⟩, ⟨"text", .string text⟩])
  | .PingLLM name => some (List.toAList [⟨"name", .string name⟩])
  | .CloseLLM name => some (List.toAList [⟨"name", .string name⟩])

/-- The HTTP adapter's operation returns a nil response and the error `err`. -/
def Operation.httpFailsWith (c : HTTPClient) (js : EnvelopeCodec) (ctx : Option Context)
    (err : GoError) : Operation → Prop
  | .Ping => c.Ping js ctx = (none, some err)
  | .ValidateConfig tomlContent => c.ValidateConfig js ctx tomlContent = (none, some err)
  | .LoadConfig configPath => c.LoadConfig js ctx configPath = (none, some err)
  | .GetMetadata => c.GetMetadata js ctx = (none, some err)
  | .CreateDataSource name config => c.CreateDataSource js ctx name config = (none, some err)
  | .QueryDataSource name query => c.QueryDataSource js ctx name query = (none, some err)
  | .ExecuteDataSource name query => c.ExecuteDataSource js ctx name query = (none, some err)
  | .InsertDataSource name data => c.InsertDataSource js ctx name data = (none, some err)
  | .PingDataSource name => c.PingDataSource js ctx name = (none, some err)
  | .CloseDataSource name => c.CloseDataSource js ctx name = (none, some err)
  | .CreateLLM name config => c.CreateLLM js ctx name config = (none, some err)
  | .GenerateLLM name prompt => c.GenerateLLM js ctx name prompt = (none, some err)
  | .ChatLLM name messages => c.ChatLLM js ctx name messages = (none, some err)
  | .EmbeddingLLM name text => c.EmbeddingLLM js ctx name text = (none, some err)
  | .PingLLM name => c.PingLLM js ctx name = (none, some err)
  | .CloseLLM name => c.CloseLLM js ctx name = (none, some err)

/-- An HTTP stack that answers every request with the reply `r`. -/
def answering (r : jsonrpcResponse) : HTTPClient × EnvelopeCodec :=
  ({ BaseURL := "http://localhost:8080", HTTP := ⟨fun _ _ _ => .ok ""⟩, timeout := 5 * Second },
   { Marshal := fun _ => .ok "", Decode := fun _ => .ok r })

/-- A reply with an error object and, against the protocol, a result too. -/
def methodNotFoundReply : jsonrpcResponse :=
  { JSONRPC := "2.0",
    Result := some (.object [("success", .bool true), ("message", .string "created")]),
    Error := some { Code := -32601, Message := "Method not found" },
    ID := 1 }

/-- The members of a JSON object; no members for any other value. -/
def JSON.members : JSON → List (String × JSON)
  | .object members => members
  | _ => []

/-- The value on the wire for the struct field tagged `tag`: that of the first
member of the reply's result whose key matches the tag. -/
def wire (tag : String) (res : Option JSON) : Option JSON :=
  match res with
  | some raw => (raw.members.find? fun kv => matchesTag tag kv.1).map fun kv => kv.2
  | none => none

/-- The value on the wire under the map key `key`, compared exactly. -/
def wireKey (key : String) (res : Option JSON) : Option JSON :=
  match res with
  | some raw => (raw.members.find? fun kv => kv.1 == key).map fun kv => kv.2
  | none => none

/-- The bool a wire value holds; `false` when it is absent or `null`. -/
def boolOf : Option JSON → Bool
  | some (.bool b) => b
  | _ => false

/-- The string a wire value holds; empty when it is absent or `null`. -/
def stringOf : Option JSON → String
  | some (.string s) => s
  | _ => ""

/-- The float64 a wire value holds; zero when it is absent or `null`. -/
def floatOf : Option JSON → Float64
  | some (.number (some f)) => f
  | _ => .finite 0 0

/-- The strings a wire value holds; empty when it is absent or `null`. -/
def stringsOf : Option JSON → List String
  | some (.array elems) => elems.map fun e => stringOf (some e)
  | _ => []

/-- The floats a wire value holds; empty when it is absent or `null`. -/
def floatsOf : Option JSON → List Float64
  | some (.array elems) => elems.map fun e => floatOf (some e)
  | _ => []

/-- The row a JSON object holds: every member under its key. -/
def rowOf : JSON → Row
  | .object members => members.foldl (fun m kv => m.insert kv.1 (.json kv.2)) ∅
  | _ => ∅

/-- The rows a wire value holds; empty when it is absent or `null`. -/
def rowsOf : Option JSON → List Row
  | some (.array elems) => elems.map rowOf
  | _ => []

/-- A JSON value that decodes into a `bool` without error. -/
def fitsBool : JSON → Bool
  | .null => true
  | .bool _ => true
  | _ => false

/-- A JSON value that decodes into a `string` without error. -/
def fitsString : JSON → Bool
  | .null => true
  | .string _ => true
  | _ => false

/-- A JSON value that decodes into a `float64` without error. -/
def fitsFloat64 : JSON → Bool
  | .null => true
  | .number (some _) => true
  | _ => false

/-- A JSON value that decodes into a slice without error, given the values
that do so for an element. -/
def fitsSlice (elem : JSON → Bool) : JSON → Bool
  | .null => true
  | .array elems => elems.all elem
  | _ => false

/-- A JSON value that decodes into a `map[string]interface{}` without error. -/
def fitsRow : JSON → Bool
  | .null => true
  | .object members => JSON.fitsMembers members
  | _ => false

/-- The reply's result decodes without error into a struct with the given
fields (tag and accepted values), each of them on the wire at most once: the
result is absent, `null`, or an object whose members addressed to a field hold
a value the field accepts. -/
def typedResult (fields : List (String × (JSON → Bool))) : Option JSON → Prop
  | none => True
  | some .null => True
  | some (.object members) =>
    ∀ f ∈ fields,
      (members.filter fun kv => matchesTag f.1 kv.1).length ≤ 1 ∧
      ∀ kv ∈ members, matchesTag f.1 kv.1 = true → f.2 kv.2 = true
  | some _ => False

/-- The reply's result decodes without error into the `map[string]string` of
`Ping`, with the keys `status` and `version` at most once. -/
def typedStringMap : Option JSON → Prop
  | none => True
  | some .null => True
  | some (.object members) =>
    (∀ kv ∈ members, fitsString kv.2 = true) ∧
    (members.filter fun kv => kv.1 == "status").length ≤ 1 ∧
    (members.filter fun kv => kv.1 == "version").length ≤ 1
  | some _ => False

/-- The fields the operation reads from the reply's result are well typed. -/
def Operation.typedReply (res : Option JSON) : Operation → Prop
  | .Ping => typedStringMap res
  | .ValidateConfig _ => typedResult [("valid", fitsBool), ("errors", fitsSlice fitsString)] res
  | .LoadConfig _ =>
    typedResult [("success", fitsBool), ("message", fitsString), ("operator_name", fitsString)] res
  | .GetMetadata =>
    typedResult [("name", fitsString), ("version", fitsString), ("description", fitsString)] res
  | .QueryDataSource _ _ =>
    typedResult [("success", fitsBool), ("rows", fitsSlice fitsRow), ("message", fitsString)] res
  | .GenerateLLM _ _ =>
    typedResult [("success", fitsBool), ("text", fitsString), ("message", fitsString)] res
  | .ChatLLM _ _ =>
    typedResult [("success", fitsBool), ("text", fitsString), ("message", fitsString)] res
  | .EmbeddingLLM _ _ =>
    typedResult [("success", fitsBool), ("embedding", fitsSlice fitsFloat64),
      ("message", fitsString)] res
  | _ => typedResult [("success", fitsBool), ("message", fitsString)] res

/-- The HTTP adapter's operation returns no error and the response whose fields
hold the wire values of the reply's result `res`. -/
def Operation.httpReturns (c : HTTPClient) (js : EnvelopeCodec) (ctx : Option Context)
    (res : Option JSON) : Operation → Prop
  | .Ping =>
    c.Ping js ctx =
      (some { Status := stringOf (wireKey "status" res),
              Version := stringOf (wireKey "version" res) }, none)
  | .ValidateConfig tomlContent =>
    c.ValidateConfig js ctx tomlContent =
      (some { Valid := boolOf (wire "valid" res), Errors := stringsOf (wire "errors" res) }, none)
  | .LoadConfig configPath =>
    c.LoadConfig js ctx configPath =
      (some { Success := boolOf (wire "success" res),
              OperatorName := stringOf (wire "operator_name" res),
              Error := stringOf (wire "message" res) }, none)
  | .GetMetadata =>
    c.GetMetadata js ctx =
      (some { Name := stringOf (wire "name" res), Version := stringOf (wire "version" res),
              Description := stringOf (wire "description" res) }, none)
  | .CreateDataSource name config =>
    c.CreateDataSource js ctx name config =
      (some { Success := boolOf (wire "success" res),
              Message := stringOf (wire "message" res) }, none)
  | .QueryDataSource name query =>
    c.QueryDataSource js ctx name query =
      (some { Success := boolOf (wire "success" res), Rows := rowsOf (wire "rows" res),
              Message := stringOf (wire "message" res) }, none)
  | .ExecuteDataSource name query =>
    c.ExecuteDataSource js ctx name query =
      (some { Success := boolOf (wire "success" res),
              Message := stringOf (wire "message" res) }, none)
  | .InsertDataSource name data =>
    c.InsertDataSource js ctx name data =
      (some { Success := boolOf (wire "success" res),
              Message := stringOf (wire "message" res) }, none)
  | .PingDataSource name =>
    c.PingDataSource js ctx name =
      (some { Success := boolOf (wire "success" res),
              Message := stringOf (wire "message" res) }, none)
  | .CloseDataSource name =>
    c.CloseDataSource js ctx name =
      (some { Success := boolOf (wire "success" res),
              Message := stringOf (wire "message" res) }, none)
  | .CreateLLM name config =>
    c.CreateLLM js ctx name config =
      (some { Success := boolOf (wire "success" res),
              Message := stringOf (wire "message" res) }, none)
  | .GenerateLLM name prompt =>
    c.GenerateLLM js ctx name prompt =
      (some { Success := boolOf (wire "success" res), Text := stringOf (wire "text" res),
              Message := stringOf (wire "message" res) }, none)
  | .ChatLLM name messages =>
    c.ChatLLM js ctx name messages =
      (some { Success := boolOf (wire "success" res), Text := stringOf (wire "text" res),
              Message := stringOf (wire "message" res) }, none)
  | .EmbeddingLLM name text =>
    c.EmbeddingLLM js ctx name text =
      (some { Success := boolOf (wire "success" res),
              Embedding := floatsOf (wire "embedding" res),
              Message := stringOf (wire "message" res) }, none)
  | .PingLLM name =>
    c.PingLLM js ctx name =
      (some { Success := boolOf (wire "success" res),
              Message := stringOf (wire "message" res) }, none)
  | .CloseLLM name =>
    c.CloseLLM js ctx name =
      (some { Success := boolOf (wire "success" res),
              Message := stringOf (wire "message" res) }, none)

/-- A reply without an error object and with the given result. -/
def resultReply (result : JSON) : jsonrpcResponse :=
  { JSONRPC := "2.0", Result := some result, Error := none, ID := 1 }

/-- The result of a successful `load_config`, with a message. -/
def loadedResult : JSON :=
  .object [("success", .bool true), ("message", .string "loaded"),
    ("operator_name", .string "demo")]

/-- A `load_config` result that reports its failure under the name `error`. -/
def errorNamedResult : JSON :=
  .object [("success", .bool false), ("error", .string "boom")]

/-- A result whose `success` member is a string. -/
def mistypedResult : JSON :=
  .object [("success", .string "yes"), ("message", .string "created")]


/-! ### Vocabulary for the envelopes, the native boundary and `Close` -/

/-- The request envelope of an operation: version "2.0", the operation's method
and params, and the id 1. -/
def Operation.envelope (op : Operation) : jsonrpcRequest :=
  { JSONRPC := "2.0", Method := op.method, Params := op.params, ID := 1 }

/-- An HTTP stack whose `Marshal` fails and reports the version, the method and
the id of the envelope it is given. -/
def reportingStack : HTTPClient × EnvelopeCodec :=
  ({ BaseURL := "http://localhost:8080", HTTP := ⟨fun _ _ _ => .ok ""⟩, timeout := 5 * Second },
   { Marshal := fun req =>
       .error (.foreign (req.JSONRPC ++ " " ++ req.Method ++ " " ++ toString req.ID)),
     Decode := fun _ => .error (.foreign "no reply") })

/-- The context a gRPC operation issues its call under: the caller's, or one
with the adapter's timeout when the caller passes nil. -/
def callContext (c : GRPCClient) (ctx : Option Context) : Option Context :=
  match ctx with
  | none => some (Context.WithTimeout c.timeout)
  | some ctx => some ctx

/-- The exported symbol of an operation, from the spec's FFI ABI. -/
def Operation.symbol : Operation → String
  | .Ping => "ping_proto"
  | .ValidateConfig _ => "validate_config_proto"
  | .LoadConfig _ => "load_config_proto"
  | .GetMetadata => "get_metadata_proto"
  | .CreateDataSource _ _ => "datasource_create_proto"
  | .QueryDataSource _ _ => "datasource_query_proto"
  | .ExecuteDataSource _ _ => "datasource_execute_proto"
  | .InsertDataSource _ _ => "datasource_insert_proto"
  | .PingDataSource _ => "datasource_ping_proto"
  | .CloseDataSource _ => "datasource_close_proto"
  | .CreateLLM _ _ => "llm_create_proto"
  | .GenerateLLM _ _ => "llm_generate_proto"
  | .ChatLLM _ _ => "llm_chat_proto"
  | .EmbeddingLLM _ _ => "llm_embedding_proto"
  | .PingLLM _ => "llm_ping_proto"
  | .CloseLLM _ => "llm_close_proto"

/-- The text the FFI adapter's operation puts before an error of `callFFI`. -/
def Operation.ffiWrap : Operation → String
  | .Ping => "ping failed: "
  | .ValidateConfig _ => "validate config failed: "
  | .LoadConfig _ => "load config failed: "
  | .GetMetadata => "get metadata failed: "
  | .CreateDataSource _ _ => "datasource create failed: "
  | .QueryDataSource _ _ => "datasource query failed: "
  | .ExecuteDataSource _ _ => "datasource execute failed: "
  | .InsertDataSource _ _ => "datasource insert failed: "
  | .PingDataSource _ => "datasource ping failed: "
  | .CloseDataSource _ => "datasource close failed: "
  | .CreateLLM _ _ => "llm create failed: "
  | .GenerateLLM _ _ => "llm generate failed: "
  | .ChatLLM _ _ => "llm chat failed: "
  | .EmbeddingLLM _ _ => "llm embedding failed: "
  | .PingLLM _ => "llm ping failed: "
  | .CloseLLM _ => "llm close failed: "

/-- The serialized request of the FFI adapter's operation: what `proto.Marshal`
yields for the request the operation builds; `none` when building it panics. -/
def Operation.ffiMarshal (cs : Codecs) : Operation → Option (Except GoError Bytes)
  | .Ping => some (cs.Ping.Marshal {})
  | .ValidateConfig tomlContent => some (cs.ValidateConfig.Marshal { TomlContent := tomlContent })
  | .LoadConfig configPath => some (cs.LoadConfig.Marshal { ConfigPath := configPath })
  | .GetMetadata => some (cs.GetMetadata.Marshal {})
  | .CreateDataSource name config =>
    match FFIClient.CreateDataSource.request name config with
    | .ok req => some (cs.CreateDataSource.Marshal req)
    | .error _ => none
  | .QueryDataSource name query => some (cs.QueryDataSource.Marshal { Name := name, Query := query })
  | .ExecuteDataSource name query =>
    some (cs.ExecuteDataSource.Marshal { Name := name, Query := query })
  | .InsertDataSource name data =>
    some (cs.InsertDataSource.Marshal (FFIClient.InsertDataSource.request name data))
  | .PingDataSource name => some (cs.PingDataSource.Marshal { Name := name })
  | .CloseDataSource name => some (cs.CloseDataSource.Marshal { Name := name })
  | .CreateLLM name config =>
    some (cs.CreateLLM.Marshal (FFIClient.CreateLLM.request name config))
  | .GenerateLLM name prompt => some (cs.GenerateLLM.Marshal { Name := name, Prompt := prompt })
  | .ChatLLM name messages =>
    some (cs.ChatLLM.Marshal (FFIClient.ChatLLM.request name messages))
  | .EmbeddingLLM name text => some (cs.EmbeddingLLM.Marshal { Name := name, Text := text })
  | .PingLLM name => some (cs.PingLLM.Marshal { Name := name })
  | .CloseLLM name => some (cs.CloseLLM.Marshal { Name := name })

/-- What the FFI adapter's operation does at the native boundary. -/
def Operation.ffiEvents (c : FFIClient) (ld : Loader) (cs : Codecs) (ctx : Option Context) :
    Operation → List FFIEvent
  | .Ping => (c.Ping ld cs.Ping ctx).events
  | .ValidateConfig tomlContent => (c.ValidateConfig ld cs.ValidateConfig ctx tomlContent).events
  | .LoadConfig configPath => (c.LoadConfig ld cs.LoadConfig ctx configPath).events
  | .GetMetadata => (c.GetMetadata ld cs.GetMetadata ctx).events
  | .CreateDataSource name config =>
    (c.CreateDataSource ld cs.CreateDataSource ctx name config).events
  | .QueryDataSource name query => (c.QueryDataSource ld cs.QueryDataSource ctx name query).events
  | .ExecuteDataSource name query =>
    (c.ExecuteDataSource ld cs.ExecuteDataSource ctx name query).events
  | .InsertDataSource name data =>
    (c.InsertDataSource ld cs.InsertDataSource ctx name data).events
  | .PingDataSource name => (c.PingDataSource ld cs.PingDataSource ctx name).events
  | .CloseDataSource name => (c.CloseDataSource ld cs.CloseDataSource ctx name).events
  | .CreateLLM name config => (c.CreateLLM ld cs.CreateLLM ctx name config).events
  | .GenerateLLM name prompt => (c.GenerateLLM ld cs.GenerateLLM ctx name prompt).events
  | .ChatLLM name messages => (c.ChatLLM ld cs.ChatLLM ctx name messages).events
  | .EmbeddingLLM name text => (c.EmbeddingLLM ld cs.EmbeddingLLM ctx name text).events
  | .PingLLM name => (c.PingLLM ld cs.PingLLM ctx name).events
  | .CloseLLM name => (c.CloseLLM ld cs.CloseLLM ctx name).events

/-- The FFI adapter's operation returns a nil response and the error `err`. -/
def Operation.ffiFailsWith (c : FFIClient) (ld : Loader) (cs : Codecs) (ctx : Option Context)
    (err : GoError) : Operation → Prop
  | .Ping => (c.Ping ld cs.Ping ctx).outcome = .ok (none, some err)
  | .ValidateConfig tomlContent =>
    (c.ValidateConfig ld cs.ValidateConfig ctx tomlContent).outcome = .ok (none, some err)
  | .LoadConfig configPath =>
    (c.LoadConfig ld cs.LoadConfig ctx configPath).outcome = .ok (none, some err)
  | .GetMetadata => (c.GetMetadata ld cs.GetMetadata ctx).outcome = .ok (none, some err)
  | .CreateDataSource name config =>
    (c.CreateDataSource ld cs.CreateDataSource ctx name config).outcome = .ok (none, some err)
  | .QueryDataSource name query =>
    (c.QueryDataSource ld cs.QueryDataSource ctx name query).outcome = .ok (none, some err)
  | .ExecuteDataSource name query =>
    (c.ExecuteDataSource ld cs.ExecuteDataSource ctx name query).outcome = .ok (none, some err)
  | .InsertDataSource name data =>
    (c.InsertDataSource ld cs.InsertDataSource ctx name data).outcome = .ok (none, some err)
  | .PingDataSource name =>
    (c.PingDataSource ld cs.PingDataSource ctx name).outcome = .ok (none, some err)
  | .CloseDataSource name =>
    (c.CloseDataSource ld cs.CloseDataSource ctx name).outcome = .ok (none, some err)
  | .CreateLLM name config =>
    (c.CreateLLM ld cs.CreateLLM ctx name config).outcome = .ok (none, some err)
  | .GenerateLLM name prompt =>
    (c.GenerateLLM ld cs.GenerateLLM ctx name prompt).outcome = .ok (none, some err)
  | .ChatLLM name messages =>
    (c.ChatLLM ld cs.ChatLLM ctx name messages).outcome = .ok (none, some err)
  | .EmbeddingLLM name text =>
    (c.EmbeddingLLM ld cs.EmbeddingLLM ctx name text).outcome = .ok (none, some err)
  | .PingLLM name => (c.PingLLM ld cs.PingLLM ctx name).outcome = .ok (none, some err)
  | .CloseLLM name => (c.CloseLLM ld cs.CloseLLM ctx name).outcome = .ok (none, some err)

/-- The pointer and the length for a serialized request: NULL and 0 for no
bytes, else the address of the first byte and the number of bytes. -/
def nativeInput : Bytes → Ptr × Nat
  | [] => (none, 0)
  | b :: bs => (some (b :: bs), (b :: bs).length)

/-- A codec that serializes every request to the same three bytes and decodes
nothing. -/
def fixedCodec {Req Resp : Type} : Codec Req Resp :=
  { Marshal := fun _ => .ok [1, 2, 3], Unmarshal := fun _ resp => (resp, none) }

/-- A codec that serializes every request to no bytes and decodes nothing. -/
def emptyCodec {Req Resp : Type} : Codec Req Resp :=
  { Marshal := fun _ => .ok [], Unmarshal := fun _ resp => (resp, none) }

/-- A codec that serializes every request to three bytes and fails to decode. -/
def failingCodec {Req Resp : Type} : Codec Req Resp :=
  { Marshal := fun _ => .ok [1, 2, 3],
    Unmarshal := fun _ resp => (resp, some (.foreign "proto: cannot parse invalid wire-format data")) }

/-- The fixed codec at every message type. -/
def fixedCodecs : Codecs :=
  { Ping := fixedCodec, ValidateConfig := fixedCodec, LoadConfig := fixedCodec,
    GetMetadata := fixedCodec, CreateDataSource := fixedCodec, QueryDataSource := fixedCodec,
    ExecuteDataSource := fixedCodec, InsertDataSource := fixedCodec,
    PingDataSource := fixedCodec, CloseDataSource := fixedCodec, CreateLLM := fixedCodec,
    GenerateLLM := fixedCodec, ChatLLM := fixedCodec, EmbeddingLLM := fixedCodec,
    PingLLM := fixedCodec, CloseLLM := fixedCodec }

/-- The empty codec at every message type. -/
def emptyCodecs : Codecs :=
  { Ping := emptyCodec, ValidateConfig := emptyCodec, LoadConfig := emptyCodec,
    GetMetadata := emptyCodec, CreateDataSource := emptyCodec, QueryDataSource := emptyCodec,
    ExecuteDataSource := emptyCodec, InsertDataSource := emptyCodec,
    PingDataSource := emptyCodec, CloseDataSource := emptyCodec, CreateLLM := emptyCodec,
    GenerateLLM := emptyCodec, ChatLLM := emptyCodec, EmbeddingLLM := emptyCodec,
    PingLLM := emptyCodec, CloseLLM := emptyCodec }

/-- A buffer of 2^31 bytes. -/
def hugeBuffer : ProtoBuffer :=
  { data := some (List.replicate (2 ^ 31) 0), len := 2 ^ 31 }

/-- A library all of whose entry points return the buffer `buf`; `free` tells
whether it exports `proto_buffer_free`. -/
def libraryReturning (buf : ProtoBuffer) (free : Bool) : Loader :=
  { dlsym := fun _ _ => some (fun _ _ => buf), dlsymFree := fun _ => free }

/-- A library that exports no symbol. -/
def emptyLibrary : Loader :=
  { dlsym := fun _ _ => none, dlsymFree := fun _ => false }

/-- An FFI adapter with a loaded library. -/
def loadedClient : FFIClient :=
  { handle := some 1, path := "/usr/local/lib/liboperrouter_core_ffi.so" }

/-- A query response with two rows, the first of two typed columns. -/
def twoRowsResponse : pb.QueryDataSourceResponse :=
  { Success := true,
    Rows := [{ Columns := List.toAList [⟨"id", .variant "int_value" "7"⟩,
                                         ⟨"name", .StringValue "ada"⟩] },
             { Columns := List.toAList [⟨"id", .variant "int_value" "8"⟩] }],
    Error := "" }

/-- A connected gRPC adapter whose stub answers `QueryDataSource` with the two
rows. -/
def twoRowsClient : GRPCClient :=
  { conn := some ⟨false⟩,
    service := { acceptingService with QueryDataSource := fun _ _ => .ok twoRowsResponse },
    timeout := 5 * Second }

/-- A reply without an error object whose result is `null` or absent. -/
def nullResultReply : jsonrpcResponse :=
  { JSONRPC := "2.0", Result := none, Error := none, ID := 1 }

/-- A connected gRPC adapter whose stub answers `GetMetadata` with a response
without the metadata sub-object. -/
def noMetadataClient : GRPCClient :=
  { conn := some ⟨false⟩,
    service := { acceptingService with GetMetadata := fun _ _ => .ok { Metadata := none } },
    timeout := 5 * Second }


/-! ### Constructors and options (`interface.go`, `NewHTTP`, `NewGRPCWithOptions`) -/

/-- The type `ClientOption`, `func(interface{})`: what the function does to the
client it is handed, for each adapter the constructors hand it. -/
structure ClientOption where
  onHTTP : HTTPClient → HTTPClient
  onGRPC : GRPCClient → GRPCClient
  onFFI : FFIClient → FFIClient

/-- The function `WithTimeout` (interface.go, lines 125-129): the function it
returns has an empty body. -/
def WithTimeout (_timeout : Int) : ClientOption :=
  { onHTTP := fun c => c, onGRPC := fun c => c, onFFI := fun c => c }

/-- The constructor `NewHTTP` (lines 44-57); `doer` is the
`http.Client{Timeout: 10 * time.Second}` it makes. -/
def NewHTTP (doer : HTTPDoer) (baseURL : String) (opts : List ClientOption) : HTTPClient :=
  let client : HTTPClient := { BaseURL := baseURL, HTTP := doer, timeout := 5 * Second }
  opts.foldl (fun client opt => opt.onHTTP client) client

/-- The constructor `NewGRPCWithOptions` (lines 29-49); `dial` is what
`grpc.DialContext` yields under the dial timeout, and `service` the stub
`pb.NewOperRouterClient` makes over the connection. -/
def NewGRPCWithOptions (dial : Except GoError ClientConn) (service : OperRouterClient)
    (clientOpts : List ClientOption) : Returned GRPCClient :=
  match dial with
  | .error err => (none, some (.wrapf "failed to connect to gRPC server: " err))
  | .ok conn =>
    let client : GRPCClient := { conn := some conn, service := service, timeout := 5 * Second }
    (some (clientOpts.foldl (fun client opt => opt.onGRPC client) client), none)

/-! ### Vocabulary for the contexts of the gRPC adapter -/

/-- A description of the context an RPC is called with. -/
def describeContext : Option Context → String
  | none => "nil context"
  | some ⟨none⟩ => "no deadline"
  | some ⟨some d⟩ => "timeout " ++ toString d

/-- A service stub all of whose RPCs fail with the description of the context
they are called with. -/
def echoService : OperRouterClient where
  Ping := fun ctx _ => .error (.foreign (describeContext ctx))
  ValidateConfig := fun ctx _ => .error (.foreign (describeContext ctx))
  LoadConfig := fun ctx _ => .error (.foreign (describeContext ctx))
  GetMetadata := fun ctx _ => .error (.foreign (describeContext ctx))
  CreateDataSource := fun ctx _ => .error (.foreign (describeContext ctx))
  QueryDataSource := fun ctx _ => .error (.foreign (describeContext ctx))
  ExecuteDataSource := fun ctx _ => .error (.foreign (describeContext ctx))
  InsertDataSource := fun ctx _ => .error (.foreign (describeContext ctx))
  PingDataSource := fun ctx _ => .error (.foreign (describeContext ctx))
  CloseDataSource := fun ctx _ => .error (.foreign (describeContext ctx))
  CreateLLM := fun ctx _ => .error (.foreign (describeContext ctx))
  GenerateLLM := fun ctx _ => .error (.foreign (describeContext ctx))
  ChatLLM := fun ctx _ => .error (.foreign (describeContext ctx))
  EmbeddingLLM := fun ctx _ => .error (.foreign (describeContext ctx))
  PingLLM := fun ctx _ => .error (.foreign (describeContext ctx))
  CloseLLM := fun ctx _ => .error (.foreign (describeContext ctx))

/-- A connected gRPC adapter over the echoing stub, with the timeout `t`. -/
def echoClient (t : Duration) : GRPCClient :=
  { conn := some ⟨false⟩, service := echoService, timeout := t }

/-- Whether the operation is `CreateDataSource`. -/
def Operation.isCreateDataSource : Operation → Bool
  | .CreateDataSource _ _ => true
  | _ => false

/-- The text the gRPC adapter's operation puts before an error of the stub;
`CreateDataSource` puts none and is left out. -/
def Operation.grpcWrap : Operation → String
  | .Ping => "ping failed: "
  | .ValidateConfig _ => "validate config failed: "
  | .LoadConfig _ => "load config failed: "
  | .GetMetadata => "get metadata failed: "
  | .CreateDataSource _ _ => ""
  | .QueryDataSource _ _ => "query datasource failed: "
  | .ExecuteDataSource _ _ => "execute datasource failed: "
  | .InsertDataSource _ _ => "insert datasource failed: "
  | .PingDataSource _ => "ping datasource failed: "
  | .CloseDataSource _ => "close datasource failed: "
  | .CreateLLM _ _ => "create llm failed: "
  | .GenerateLLM _ _ => "generate llm failed: "
  | .ChatLLM _ _ => "chat llm failed: "
  | .EmbeddingLLM _ _ => "embedding llm failed: "
  | .PingLLM _ => "ping llm failed: "
  | .CloseLLM _ => "close llm failed: "

/-- The gRPC adapter's operation returns a nil response and the error `err`. -/
def Operation.grpcFailsWith (c : GRPCClient) (ctx : Option Context) (err : GoError) :
    Operation → Prop
  | .Ping => c.Ping ctx = (none, some err)
  | .ValidateConfig tomlContent => c.ValidateConfig ctx tomlContent = (none, some err)
  | .LoadConfig configPath => c.LoadConfig ctx configPath = (none, some err)
  | .GetMetadata => c.GetMetadata ctx = (none, some err)
  | .CreateDataSource name config => c.CreateDataSource ctx name config = .ok (none, some err)
  | .QueryDataSource name query => c.QueryDataSource ctx name query = (none, some err)
  | .ExecuteDataSource name query => c.ExecuteDataSource ctx name query = (none, some err)
  | .InsertDataSource name data => c.InsertDataSource ctx name data = (none, some err)
  | .PingDataSource name => c.PingDataSource ctx name = (none, some err)
  | .CloseDataSource name => c.CloseDataSource ctx name = (none, some err)
  | .CreateLLM name config => c.CreateLLM ctx name config = (none, some err)
  | .GenerateLLM name prompt => c.GenerateLLM ctx name prompt = (none, some err)
  | .ChatLLM name messages => c.ChatLLM ctx name messages = (none, some err)
  | .EmbeddingLLM name text => c.EmbeddingLLM ctx name text = (none, some err)
  | .PingLLM name => c.PingLLM ctx name = (none, some err)
  | .CloseLLM name => c.CloseLLM ctx name = (none, some err)

/-- The gRPC adapter's operation returns the same under the two contexts. -/
def Operation.grpcAgree (c : GRPCClient) (ctx1 ctx2 : Option Context) : Operation → Prop
  | .Ping => c.Ping ctx1 = c.Ping ctx2
  | .ValidateConfig tomlContent => c.ValidateConfig ctx1 tomlContent = c.ValidateConfig ctx2 tomlContent
  | .LoadConfig configPath => c.LoadConfig ctx1 configPath = c.LoadConfig ctx2 configPath
  | .GetMetadata => c.GetMetadata ctx1 = c.GetMetadata ctx2
  | .CreateDataSource name config => c.CreateDataSource ctx1 name config = c.CreateDataSource ctx2 name config
  | .QueryDataSource name query => c.QueryDataSource ctx1 name query = c.QueryDataSource ctx2 name query
  | .ExecuteDataSource name query => c.ExecuteDataSource ctx1 name query = c.ExecuteDataSource ctx2 name query
  | .InsertDataSource name data => c.InsertDataSource ctx1 name data = c.InsertDataSource ctx2 name data
  | .PingDataSource name => c.PingDataSource ctx1 name = c.PingDataSource ctx2 name
  | .CloseDataSource name => c.CloseDataSource ctx1 name = c.CloseDataSource ctx2 name
  | .CreateLLM name config => c.CreateLLM ctx1 name config = c.CreateLLM ctx2 name config
  | .GenerateLLM name prompt => c.GenerateLLM ctx1 name prompt = c.GenerateLLM ctx2 name prompt
  | .ChatLLM name messages => c.ChatLLM ctx1 name messages = c.ChatLLM ctx2 name messages
  | .EmbeddingLLM name text => c.EmbeddingLLM ctx1 name text = c.EmbeddingLLM ctx2 name text
  | .PingLLM name => c.PingLLM ctx1 name = c.PingLLM ctx2 name
  | .CloseLLM name => c.CloseLLM ctx1 name = c.CloseLLM ctx2 name

/-! ### Vocabulary for the delivered responses and the examples -/

/-- A codec that serializes every request to three bytes and decodes every
buffer to the response `delivered`. -/
def deliveringCodec {Req Resp : Type} (delivered : Resp) : Codec Req Resp :=
  { Marshal := fun _ => .ok [1, 2, 3], Unmarshal := fun _ _ => (delivered, none) }

/-- The configuration of the example `examples/datasource_ffi/main.go` (lines
19-26): the port is the string "5432". -/
def datasourceFFIExample : Config :=
  List.toAList [⟨"driver", .string "postgres"⟩, ⟨"host", .string "localhost"⟩,
    ⟨"port", .string "5432"⟩, ⟨"database", .string "testdb"⟩,
    ⟨"username", .string "postgres"⟩, ⟨"password", .string "password"⟩]

/-- A `load_config` result of a successful load that carries a message. -/
def warnedLoadResult : JSON :=
  .object [("success", .bool true), ("operator_name", .string "demo"),
    ("message", .string "loaded with warnings")]

/-- A `load_config` result with two members whose names match "message". -/
def twoMessagesResult : JSON :=
  .object [("success", .bool true), ("message", .string "first"),
    ("Message", .string "second")]
/-! ## Lemmas on the request builders -/

theorem ffi_buildURL_eq :
    FFIClient.CreateDataSource.buildURL = GRPCClient.CreateDataSource.buildURL := rfl

theorem ffi_copyEntry_eq :
    FFIClient.CreateDataSource.copyEntry = GRPCClient.CreateDataSource.copyEntry := rfl

theorem ffi_request_eq :
    FFIClient.CreateDataSource.request = GRPCClient.CreateDataSource.request := rfl

theorem copyEntry_reserved (extra : StringMap) (k : String) (v : GoValue) (h : reservedKey k) :
    GRPCClient.CreateDataSource.copyEntry extra k v = extra := by
  unfold GRPCClient.CreateDataSource.copyEntry
  rw [if_neg]
  unfold reservedKey at h
  tauto

theorem copyEntry_free (extra : StringMap) (k : String) (v : GoValue) (h : ¬ reservedKey k) :
    GRPCClient.CreateDataSource.copyEntry extra k v = extra.insert k (sprintV v) := by
  unfold GRPCClient.CreateDataSource.copyEntry
  rw [if_pos]
  unfold reservedKey at h
  tauto

/-- What the copy loop leaves under each key, for a duplicate-free entry list. -/
theorem lookup_foldl_copyEntry (l : List (Sigma fun _ : String => GoValue)) (hl : l.NodupKeys)
    (extra : StringMap) (k : String) :
    (l.foldl (fun r a => GRPCClient.CreateDataSource.copyEntry r a.1 a.2) extra).lookup k =
      if reservedKey k then extra.lookup k
      else match l.dlookup k with
        | some v => some (sprintV v)
        | none => extra.lookup k := by
  induction l generalizing extra with
  | nil => simp
  | cons a l ih =>
    obtain ⟨ka, va⟩ := a
    rw [List.nodupKeys_cons] at hl
    rw [List.foldl_cons, ih hl.2]
    by_cases hk : reservedKey k
    · simp only [hk, if_true]
      by_cases hka : reservedKey ka
      · rw [copyEntry_reserved _ _ _ hka]
      · rw [copyEntry_free _ _ _ hka, AList.lookup_insert_ne]
        rintro rfl; exact hka hk
    · simp only [hk, if_false]
      by_cases hkk : k = ka
      · subst hkk
        have : List.dlookup k l = none := by
          rw [List.dlookup_eq_none]; exact hl.1
        rw [this, List.dlookup_cons_eq, copyEntry_free _ _ _ hk, AList.lookup_insert]
      · rw [List.dlookup_cons_ne _ _ hkk]
        cases hlk : List.dlookup k l with
        | some v => rfl
        | none =>
          simp only
          by_cases hka : reservedKey ka
          · rw [copyEntry_reserved _ _ _ hka]
          · rw [copyEntry_free _ _ _ hka, AList.lookup_insert_ne hkk]

/-- What the copy loop leaves under each key of the extras map. -/
theorem lookup_copyRemaining (config : Config) (extra : StringMap) (k : String) :
    (config.foldl GRPCClient.CreateDataSource.copyEntry extra).lookup k =
      if reservedKey k then extra.lookup k
      else match config.lookup k with
        | some v => some (sprintV v)
        | none => extra.lookup k :=
  lookup_foldl_copyEntry config.entries config.nodupKeys extra k

/-- The request in terms of the switch statement and the copy loop. -/
theorem request_of_buildURL (name d : String) (config : Config) (url : String) (extra : StringMap)
    (hd : index config "driver" = .string d)
    (hb : GRPCClient.CreateDataSource.buildURL config d = .ok (url, extra)) :
    GRPCClient.CreateDataSource.request name config =
      .ok { Name := name,
            Config := { Type_ := mapDataSourceType d, Url := url,
                        Extra := config.foldl GRPCClient.CreateDataSource.copyEntry extra } } := by
  simp [GRPCClient.CreateDataSource.request, hd, asString, hb, Except.map, bind, Except.bind, pure, Except.pure]

theorem toInt_ofInt (p : Int) (h : minInt ≤ p ∧ p ≤ maxInt) : (Float64.ofInt p).toInt = p := by
  simp [Float64.toInt, Float64.ofInt, Float64.trunc, h]

/-- The extras map as the postgres branch leaves it. -/
theorem buildURL_postgres (config : Config) (driver h d text : String) (f : Float64)
    (hpg : driver = "postgres" ∨ driver = "postgresql")
    (hhost : index config "host" = .string h)
    (hport : index config "port" = .float64 f text)
    (hdb : index config "database" = .string d) :
    ∃ extra, GRPCClient.CreateDataSource.buildURL config driver =
        .ok ("postgres://" ++ h ++ ":" ++ toString f.toInt ++ "/" ++ d, extra) ∧
      (∀ u, index config "username" = .string u → extra.lookup "username" = some u) ∧
      (∀ pw, index config "password" = .string pw → extra.lookup "password" = some pw) := by
  have hb : GRPCClient.CreateDataSource.buildURL config driver =
      .ok ("postgres://" ++ h ++ ":" ++ toString f.toInt ++ "/" ++ d,
        match asString (index config "password") with
        | some password =>
          (match asString (index config "username") with
            | some username => (∅ : StringMap).insert "username" username
            | none => ∅).insert "password" password
        | none =>
          match asString (index config "username") with
          | some username => (∅ : StringMap).insert "username" username
          | none => ∅) := by
    simp only [GRPCClient.CreateDataSource.buildURL, hpg, if_true, hhost, hport, hdb, assertString,
      assertFloat64, asString, asFloat64, bind, Except.bind, pure, Except.pure]
  refine ⟨_, hb, ?_, ?_⟩
  · intro u hu
    have hu2 : asString (index config "username") = some u := by rw [hu]; rfl
    rw [hu2]
    cases asString (index config "password") with
    | none => exact AList.lookup_insert _
    | some pw =>
      show AList.lookup "username" (AList.insert "password" pw _) = some u
      rw [AList.lookup_insert_ne (by decide)]
      exact AList.lookup_insert _
  · intro pw hpw
    have hpw2 : asString (index config "password") = some pw := by rw [hpw]; rfl
    rw [hpw2]
    exact AList.lookup_insert _

/-- C1 (amended): in both adapters, a config with driver "postgres" or
"postgresql", a string host `h`, a float64 port holding the integer `p` and a
string database `d` yields, when `p` fits the 64-bit `int`, the request with URL
"postgres://h:p/d" (`p` in decimal) and type tag postgresql, whose extras hold
the username and the password whenever these are strings. -/
theorem createDataSource_postgres_url (name driver h d text : String) (p : Int) (config : Config)
    (hdriver : index config "driver" = .string driver)
    (hpg : driver = "postgres" ∨ driver = "postgresql")
    (hhost : index config "host" = .string h)
    (hport : index config "port" = .float64 (.ofInt p) text)
    (hdb : index config "database" = .string d)
    (hfit : minInt ≤ p ∧ p ≤ maxInt) :
    ∃ req, GRPCClient.CreateDataSource.request name config = .ok req ∧
      FFIClient.CreateDataSource.request name config = .ok req ∧
      req.Config.Url = "postgres://" ++ h ++ ":" ++ toString p ++ "/" ++ d ∧
      req.Config.Type_ = .POSTGRESQL ∧
      (∀ u, index config "username" = .string u → req.Config.Extra.lookup "username" = some u) ∧
      (∀ pw, index config "password" = .string pw →
        req.Config.Extra.lookup "password" = some pw) := by
  obtain ⟨extra, hb, hu, hpw⟩ := buildURL_postgres config driver h d text _ hpg hhost hport hdb
  refine ⟨_, request_of_buildURL name driver config _ extra hdriver hb, ?_, ?_, ?_, ?_, ?_⟩
  · rw [ffi_request_eq]; exact request_of_buildURL name driver config _ extra hdriver hb
  · simp only [toInt_ofInt p hfit]
  · rcases hpg with rfl | rfl <;> rfl
  · intro u h1
    simp only [lookup_copyRemaining]
    rw [if_pos (by unfold reservedKey; simp)]
    exact hu u h1
  · intro pw h1
    simp only [lookup_copyRemaining]
    rw [if_pos (by unfold reservedKey; simp)]
    exact hpw pw h1

/-- C1, at the spec's example: "postgres://localhost:5432/testdb". -/
theorem createDataSource_postgres_url_witness :
    ∃ req, GRPCClient.CreateDataSource.request "db" postgresExample = .ok req ∧
      FFIClient.CreateDataSource.request "db" postgresExample = .ok req ∧
      req.Config.Url = "postgres://localhost:5432/testdb" ∧
      req.Config.Type_ = .POSTGRESQL ∧
      (∀ u, index postgresExample "username" = .string u →
        req.Config.Extra.lookup "username" = some u) ∧
      (∀ pw, index postgresExample "password" = .string pw →
        req.Config.Extra.lookup "password" = some pw) :=
  createDataSource_postgres_url "db" "postgres" "localhost" "testdb" "5432" 5432 postgresExample
    (by decide) (by decide) (by decide) (by decide) (by decide) (by decide)

/-- C1 as stated fails for the integer-valued port 2^63: the config meets the
premises, and both adapters put the smallest `int` into the URL, not the port. -/
theorem createDataSource_postgres_huge_port :
    index hugePortExample "driver" = .string "postgres" ∧
    index hugePortExample "host" = .string "localhost" ∧
    index hugePortExample "port" = .float64 (.ofInt (2 ^ 63)) "9.223372036854776e+18" ∧
    index hugePortExample "database" = .string "testdb" ∧
    (GRPCClient.CreateDataSource.request "db" hugePortExample).toOption.map (fun r => r.Config.Url) =
      some "postgres://localhost:-9223372036854775808/testdb" ∧
    (FFIClient.CreateDataSource.request "db" hugePortExample).toOption.map (fun r => r.Config.Url) =
      some "postgres://localhost:-9223372036854775808/testdb" ∧
    "postgres://localhost:-9223372036854775808/testdb" ≠
      "postgres://" ++ "localhost" ++ ":" ++ toString ((2 : Int) ^ 63) ++ "/" ++ "testdb" := by
  decide
/-- The switch statement on the branches that build "scheme://host:port". -/
theorem buildURL_hostPort (config : Config) (driver h text : String) (f : Float64)
    (hhost : index config "host" = .string h)
    (hport : index config "port" = .float64 f text) :
    (driver = "redis" → GRPCClient.CreateDataSource.buildURL config driver =
        .ok ("redis://" ++ h ++ ":" ++ toString f.toInt, ∅)) ∧
    (driver = "mongodb" ∨ driver = "mongo" → GRPCClient.CreateDataSource.buildURL config driver =
        .ok ("mongodb://" ++ h ++ ":" ++ toString f.toInt, ∅)) ∧
    (driver = "mysql" → ∀ d, index config "database" = .string d →
      GRPCClient.CreateDataSource.buildURL config driver =
        .ok ("mysql://" ++ h ++ ":" ++ toString f.toInt ++ "/" ++ d, ∅)) := by
  refine ⟨?_, ?_, ?_⟩
  · rintro rfl
    simp [GRPCClient.CreateDataSource.buildURL, hhost, hport, assertString,
      assertFloat64, asString, asFloat64, bind, Except.bind, pure, Except.pure]
  · rintro (rfl | rfl) <;>
    simp [GRPCClient.CreateDataSource.buildURL, hhost, hport, assertString,
      assertFloat64, asString, asFloat64, bind, Except.bind, pure, Except.pure]
  · rintro rfl d hdb
    simp [GRPCClient.CreateDataSource.buildURL, hhost, hport, hdb, assertString,
      assertFloat64, asString, asFloat64, bind, Except.bind, pure, Except.pure]

/-- C2: in both adapters, a config with driver "kafka" and a string `brokers`
value `b` yields, whatever else it holds, the request whose URL is `b` itself
and whose type tag is kafka. -/
theorem createDataSource_kafka_url (name b : String) (config : Config)
    (hdriver : index config "driver" = .string "kafka")
    (hbrokers : index config "brokers" = .string b) :
    ∃ req, GRPCClient.CreateDataSource.request name config = .ok req ∧
      FFIClient.CreateDataSource.request name config = .ok req ∧
      req.Config.Url = b ∧ req.Config.Type_ = .KAFKA := by
  have hb : GRPCClient.CreateDataSource.buildURL config "kafka" = .ok (b, ∅) := by
    simp [GRPCClient.CreateDataSource.buildURL, hbrokers, asString, pure, Except.pure]
  refine ⟨_, request_of_buildURL name "kafka" config _ _ hdriver hb, ?_, rfl, rfl⟩
  rw [ffi_request_eq]; exact request_of_buildURL name "kafka" config _ _ hdriver hb

/-- C2, at the spec's example: the URL is "b1:9092,b2:9092". -/
theorem createDataSource_kafka_url_witness :
    ∃ req, GRPCClient.CreateDataSource.request "events" kafkaExample = .ok req ∧
      FFIClient.CreateDataSource.request "events" kafkaExample = .ok req ∧
      req.Config.Url = "b1:9092,b2:9092" ∧ req.Config.Type_ = .KAFKA :=
  createDataSource_kafka_url "events" "b1:9092,b2:9092" kafkaExample (by decide) (by decide)

/-- C3 (amended): in both adapters, with a string host `h` and a float64 port
holding an integer `p` that fits the 64-bit `int`, the request URL is
"mysql://h:p/d" for driver "mysql" and a string database `d`, "redis://h:p" for
driver "redis", and "mongodb://h:p" for driver "mongodb" or "mongo", whatever
the database field holds in the last two cases. -/
theorem createDataSource_mysql_redis_mongodb_url (name driver h text : String) (p : Int)
    (config : Config)
    (hdriver : index config "driver" = .string driver)
    (hhost : index config "host" = .string h)
    (hport : index config "port" = .float64 (.ofInt p) text)
    (hfit : minInt ≤ p ∧ p ≤ maxInt) :
    (driver = "mysql" → ∀ d, index config "database" = .string d →
      ∃ req, GRPCClient.CreateDataSource.request name config = .ok req ∧
        FFIClient.CreateDataSource.request name config = .ok req ∧
        req.Config.Url = "mysql://" ++ h ++ ":" ++ toString p ++ "/" ++ d) ∧
    (driver = "redis" →
      ∃ req, GRPCClient.CreateDataSource.request name config = .ok req ∧
        FFIClient.CreateDataSource.request name config = .ok req ∧
        req.Config.Url = "redis://" ++ h ++ ":" ++ toString p) ∧
    (driver = "mongodb" ∨ driver = "mongo" →
      ∃ req, GRPCClient.CreateDataSource.request name config = .ok req ∧
        FFIClient.CreateDataSource.request name config = .ok req ∧
        req.Config.Url = "mongodb://" ++ h ++ ":" ++ toString p) := by
  obtain ⟨hredis, hmongo, hmysql⟩ := buildURL_hostPort config driver h text _ hhost hport
  rw [toInt_ofInt p hfit] at hredis hmongo hmysql
  refine ⟨fun hd d hdb => ?_, fun hd => ?_, fun hd => ?_⟩
  · refine ⟨_, request_of_buildURL name driver config _ _ hdriver (hmysql hd d hdb), ?_, rfl⟩
    rw [ffi_request_eq]
    exact request_of_buildURL name driver config _ _ hdriver (hmysql hd d hdb)
  · refine ⟨_, request_of_buildURL name driver config _ _ hdriver (hredis hd), ?_, rfl⟩
    rw [ffi_request_eq]
    exact request_of_buildURL name driver config _ _ hdriver (hredis hd)
  · refine ⟨_, request_of_buildURL name driver config _ _ hdriver (hmongo hd), ?_, rfl⟩
    rw [ffi_request_eq]
    exact request_of_buildURL name driver config _ _ hdriver (hmongo hd)

/-- C3, at a MySQL configuration: "mysql://db.internal:3306/shop". -/
theorem createDataSource_mysql_redis_mongodb_url_witness :
    ∃ req, GRPCClient.CreateDataSource.request "orders" mysqlExample = .ok req ∧
      FFIClient.CreateDataSource.request "orders" mysqlExample = .ok req ∧
      req.Config.Url = "mysql://db.internal:3306/shop" :=
  (createDataSource_mysql_redis_mongodb_url "orders" "mysql" "db.internal" "3306" 3306
    mysqlExample (by decide) (by decide) (by decide) (by decide)).1 rfl "shop" (by decide)

/-- C3 as stated fails for the integer-valued port 2^63 with driver "redis":
the config meets the premises, and both adapters put the smallest `int` into
the URL, not the port. -/
theorem createDataSource_redis_huge_port :
    index redisHugePortExample "driver" = .string "redis" ∧
    index redisHugePortExample "host" = .string "cache" ∧
    index redisHugePortExample "port" = .float64 (.ofInt (2 ^ 63)) "9.223372036854776e+18" ∧
    (GRPCClient.CreateDataSource.request "c" redisHugePortExample).toOption.map
      (fun r => r.Config.Url) = some "redis://cache:-9223372036854775808" ∧
    (FFIClient.CreateDataSource.request "c" redisHugePortExample).toOption.map
      (fun r => r.Config.Url) = some "redis://cache:-9223372036854775808" ∧
    "redis://cache:-9223372036854775808" ≠
      "redis://" ++ "cache" ++ ":" ++ toString ((2 : Int) ^ 63) := by
  decide

/-- The switch statement for a driver that no case names. -/
theorem buildURL_unrecognized (config : Config) (driver : String)
    (h : driver ≠ "postgres" ∧ driver ≠ "postgresql" ∧ driver ≠ "mysql" ∧ driver ≠ "redis" ∧
      driver ≠ "mongodb" ∧ driver ≠ "mongo" ∧ driver ≠ "kafka") :
    GRPCClient.CreateDataSource.buildURL config driver = .ok ("", ∅) := by
  obtain ⟨h1, h2, h3, h4, h5, h6, h7⟩ := h
  simp [GRPCClient.CreateDataSource.buildURL, h1, h2, h3, h4, h5, h6, h7, pure, Except.pure]

theorem mapDataSourceType_unrecognized (driver : String)
    (h : driver ≠ "postgres" ∧ driver ≠ "postgresql" ∧ driver ≠ "mysql" ∧ driver ≠ "redis" ∧
      driver ≠ "mongodb" ∧ driver ≠ "mongo" ∧ driver ≠ "kafka") :
    mapDataSourceType driver = .UNSPECIFIED := by
  obtain ⟨h1, h2, h3, h4, h5, h6, h7⟩ := h
  simp [mapDataSourceType, h1, h2, h3, h4, h5, h6, h7]

/-- C4: in both adapters, a driver string outside "postgres", "postgresql",
"mysql", "redis", "mongodb", "mongo", "kafka" yields, whatever else the config
holds, a request (construction does not fail) with the unspecified type tag
and the empty URL. -/
theorem createDataSource_unrecognized_driver (name driver : String) (config : Config)
    (hdriver : index config "driver" = .string driver)
    (h : driver ≠ "postgres" ∧ driver ≠ "postgresql" ∧ driver ≠ "mysql" ∧ driver ≠ "redis" ∧
      driver ≠ "mongodb" ∧ driver ≠ "mongo" ∧ driver ≠ "kafka") :
    ∃ req, GRPCClient.CreateDataSource.request name config = .ok req ∧
      FFIClient.CreateDataSource.request name config = .ok req ∧
      req.Config.Type_ = .UNSPECIFIED ∧ req.Config.Url = "" := by
  have hb := buildURL_unrecognized config driver h
  refine ⟨_, request_of_buildURL name driver config _ _ hdriver hb, ?_,
    mapDataSourceType_unrecognized driver h, rfl⟩
  rw [ffi_request_eq]; exact request_of_buildURL name driver config _ _ hdriver hb

/-- C4, at driver "sqlite" with connection fields of every kind. -/
theorem createDataSource_unrecognized_driver_witness :
    ∃ req, GRPCClient.CreateDataSource.request "local" sqliteExample = .ok req ∧
      FFIClient.CreateDataSource.request "local" sqliteExample = .ok req ∧
      req.Config.Type_ = .UNSPECIFIED ∧ req.Config.Url = "" :=
  createDataSource_unrecognized_driver "local" "sqlite" sqliteExample (by decide) (by decide)

/-- C5: `mapDataSourceType` and `mapLLMProvider` are functions from strings to
tags, with no error case: the first sends "postgres" and "postgresql" to
postgresql, "mysql" to mysql, "redis" to redis, "mongodb" and "mongo" to
mongodb, "kafka" to kafka and every other string to unspecified; the second
sends "openai" to openai, "ollama" to ollama, "anthropic" (and its alias
"claude") to anthropic, "local" to local and every string its switch does not
name to unspecified. -/
theorem tag_maps_total :
    mapDataSourceType "postgres" = .POSTGRESQL ∧ mapDataSourceType "postgresql" = .POSTGRESQL ∧
    mapDataSourceType "mysql" = .MYSQL ∧ mapDataSourceType "redis" = .REDIS ∧
    mapDataSourceType "mongodb" = .MONGODB ∧ mapDataSourceType "mongo" = .MONGODB ∧
    mapDataSourceType "kafka" = .KAFKA ∧
    (∀ s : String, s ∉ ["postgres", "postgresql", "mysql", "redis", "mongodb", "mongo", "kafka"] →
      mapDataSourceType s = .UNSPECIFIED) ∧
    mapLLMProvider "openai" = .OPENAI ∧ mapLLMProvider "ollama" = .OLLAMA ∧
    mapLLMProvider "anthropic" = .ANTHROPIC ∧ mapLLMProvider "claude" = .ANTHROPIC ∧
    mapLLMProvider "local" = .LOCAL ∧
    (∀ s : String, s ∉ ["openai", "ollama", "anthropic", "claude", "local"] →
      mapLLMProvider s = .UNSPECIFIED) := by
  refine ⟨by decide, by decide, by decide, by decide, by decide, by decide, by decide, ?_,
    by decide, by decide, by decide, by decide, by decide, ?_⟩
  · intro s hs
    simp only [List.mem_cons, List.mem_singleton, List.not_mem_nil, or_false, not_or] at hs
    exact mapDataSourceType_unrecognized s hs
  · intro s hs
    simp only [List.mem_cons, List.mem_singleton, List.not_mem_nil, or_false, not_or] at hs
    obtain ⟨h1, h2, h3, h4, h5⟩ := hs
    simp [mapLLMProvider, h1, h2, h3, h4, h5]
theorem credentialExtras_lookup (config : Config) (k : String)
    (hu : k ≠ "username") (hp : k ≠ "password") : (credentialExtras config).lookup k = none := by
  unfold credentialExtras
  cases asString (index config "password") <;> cases asString (index config "username") <;>
    simp only [AList.lookup_insert_ne hu, AList.lookup_insert_ne hp, AList.lookup_empty]

/-- The extras map the switch statement leaves, for every driver. -/
theorem buildURL_extra (config : Config) (d url : String) (extra : StringMap)
    (h : GRPCClient.CreateDataSource.buildURL config d = .ok (url, extra)) :
    extra = if d = "postgres" ∨ d = "postgresql" then credentialExtras config else ∅ := by
  unfold GRPCClient.CreateDataSource.buildURL at h
  simp only [bind, Except.bind, pure, Except.pure] at h
  by_cases h1 : d = "postgres" ∨ d = "postgresql"
  · rw [if_pos h1] at h ⊢
    cases hh : assertString (index config "host") with
    | error e => rw [hh] at h; cases h
    | ok host =>
      cases hp : assertFloat64 (index config "port") with
      | error e => rw [hh, hp] at h; cases h
      | ok port =>
        cases hd : assertString (index config "database") with
        | error e => rw [hh, hp, hd] at h; cases h
        | ok db =>
          rw [hh, hp, hd] at h
          exact (Prod.mk.inj (Except.ok.inj h)).2.symm
  · rw [if_neg h1] at h ⊢
    split_ifs at h
    all_goals (repeat' split at h)
    all_goals first
      | (simp only [reduceCtorEq] at h)
      | (simp only [Except.ok.injEq, Prod.mk.injEq] at h; exact h.2.symm)

/-- Every request that is built comes from the switch statement followed by the
copy loop. -/
theorem request_inv (name : String) (config : Config) (req : CreateDataSourceRequest)
    (h : GRPCClient.CreateDataSource.request name config = .ok req) :
    ∃ d url extra,
      req = { Name := name,
              Config := { Type_ := mapDataSourceType d, Url := url,
                          Extra := config.foldl GRPCClient.CreateDataSource.copyEntry extra } } ∧
      ((asString (index config "driver") = some d ∧
          GRPCClient.CreateDataSource.buildURL config d = .ok (url, extra)) ∨
        (asString (index config "driver") = none ∧ d = "" ∧ url = "" ∧ extra = ∅)) := by
  unfold GRPCClient.CreateDataSource.request at h
  cases hd : asString (index config "driver") with
  | none =>
    rw [hd] at h
    exact ⟨"", "", ∅, (Except.ok.inj h).symm, Or.inr ⟨rfl, rfl, rfl, rfl⟩⟩
  | some d =>
    rw [hd] at h
    cases hb : GRPCClient.CreateDataSource.buildURL config d with
    | error e => simp [hb, Except.map, bind, Except.bind] at h
    | ok r =>
      obtain ⟨url, extra⟩ := r
      simp only [hb, Except.map, bind, Except.bind, pure, Except.pure] at h
      exact ⟨d, url, extra, (Except.ok.inj h).symm, Or.inl ⟨rfl, hb⟩⟩

/-- The extras of a request under each key: a reserved key holds what the switch
statement put there, any other key the formatted config value. -/
theorem request_extra_lookup (name : String) (config : Config) (req : CreateDataSourceRequest)
    (h : GRPCClient.CreateDataSource.request name config = .ok req) (k : String) :
    req.Config.Extra.lookup k =
      if reservedKey k then
        match asString (index config "driver") with
        | some d => if d = "postgres" ∨ d = "postgresql" then (credentialExtras config).lookup k
                    else none
        | none => none
      else (config.lookup k).map sprintV := by
  obtain ⟨d, url, extra, rfl, hcase⟩ := request_inv name config req h
  simp only [lookup_copyRemaining]
  have hextra : extra = match asString (index config "driver") with
      | some d => if d = "postgres" ∨ d = "postgresql" then credentialExtras config else ∅
      | none => ∅ := by
    rcases hcase with ⟨hd, hb⟩ | ⟨hd, -, -, he⟩
    · rw [hd]; exact buildURL_extra config d url extra hb
    · rw [hd]; exact he
  by_cases hk : reservedKey k
  · rw [if_pos hk, if_pos hk, hextra]
    cases asString (index config "driver") with
    | none => rfl
    | some d' =>
      simp only
      split_ifs <;> rfl
  · rw [if_neg hk, if_neg hk]
    cases hl : config.lookup k with
    | some v => rfl
    | none =>
      simp only [Option.map_none']
      rw [hextra]
      have hk' : k ≠ "username" ∧ k ≠ "password" := by
        unfold reservedKey at hk; tauto
      cases asString (index config "driver") with
      | none => rfl
      | some d' =>
        simp only
        split_ifs
        · exact credentialExtras_lookup config k hk'.1 hk'.2
        · rfl
/-- What the copy loop does for every driver: in both adapters each
configuration key other than "driver", "host", "port", "database", "username",
"password" and "brokers" is a key of the request's extras map, with its value
stringified by default formatting, and "driver", "host", "port", "database" and
"brokers" are never keys of it. -/
theorem createDataSource_extras_unreserved (name : String) (config : Config)
    (req : CreateDataSourceRequest)
    (h : GRPCClient.CreateDataSource.request name config = .ok req) :
    FFIClient.CreateDataSource.request name config = .ok req ∧
    (∀ k v, config.lookup k = some v → ¬ reservedKey k →
      req.Config.Extra.lookup k = some (sprintV v)) ∧
    (∀ k ∈ ["driver", "host", "port", "database", "brokers"],
      req.Config.Extra.lookup k = none) := by
  refine ⟨by rw [ffi_request_eq]; exact h, ?_, ?_⟩
  · intro k v hv hk
    rw [request_extra_lookup name config req h k, if_neg hk, hv]
    rfl
  · intro k hk
    have hres : reservedKey k := by
      unfold reservedKey
      simp only [List.mem_cons, List.mem_singleton, List.not_mem_nil, or_false] at hk
      tauto
    have hne : k ≠ "username" ∧ k ≠ "password" := by
      simp only [List.mem_cons, List.mem_singleton, List.not_mem_nil, or_false] at hk
      rcases hk with rfl | rfl | rfl | rfl | rfl <;> decide
    rw [request_extra_lookup name config req h k, if_pos hres]
    cases asString (index config "driver") with
    | none => rfl
    | some d =>
      simp only
      split_ifs
      · exact credentialExtras_lookup config k hne.1 hne.2
      · rfl

/-- The copy loop at driver "sqlite": the extras hold "mode" and "pool", and
none of "driver", "host", "port", "database", "brokers". -/
theorem createDataSource_extras_unreserved_witness :
    ∃ req, GRPCClient.CreateDataSource.request "local" sqliteExample = .ok req ∧
      FFIClient.CreateDataSource.request "local" sqliteExample = .ok req ∧
      (∀ k v, sqliteExample.lookup k = some v → ¬ reservedKey k →
        req.Config.Extra.lookup k = some (sprintV v)) ∧
      (∀ k ∈ ["driver", "host", "port", "database", "brokers"],
        req.Config.Extra.lookup k = none) := by
  obtain ⟨req, h⟩ : ∃ req, GRPCClient.CreateDataSource.request "local" sqliteExample = .ok req :=
    ⟨_, rfl⟩
  exact ⟨req, h, createDataSource_extras_unreserved "local" sqliteExample req h⟩

/-- C6, the code at the failing input: for driver "mysql" the branch uses
host, port and database only, and the copy loop skips "username" and
"password" all the same, so the extras of the request hold neither (they hold
"charset" only), where the postgres branch stores both; and for the
unrecognized driver "sqlite", whose branch uses nothing, host, port, database,
username, password and brokers do not reach the extras, which hold "mode" and
"pool" only. -/
theorem createDataSource_extras_drop_reserved :
    mysqlExample.lookup "username" = some (.string "root") ∧
    mysqlExample.lookup "password" = some (.string "secret") ∧
    (GRPCClient.CreateDataSource.request "orders" mysqlExample).toOption.map
      (fun r => (r.Config.Url, r.Config.Extra.entries)) =
        some ("mysql://db.internal:3306/shop", [⟨"charset", "utf8"⟩]) ∧
    (FFIClient.CreateDataSource.request "orders" mysqlExample).toOption.map
      (fun r => (r.Config.Url, r.Config.Extra.entries)) =
        some ("mysql://db.internal:3306/shop", [⟨"charset", "utf8"⟩]) ∧
    (GRPCClient.CreateDataSource.request "db" postgresExample).toOption.map
      (fun r => r.Config.Extra.entries) =
        some [⟨"password", "password"⟩, ⟨"username", "postgres"⟩] ∧
    sqliteExample.lookup "host" = some (.string "localhost") ∧
    (GRPCClient.CreateDataSource.request "local" sqliteExample).toOption.map
      (fun r => r.Config.Extra.entries) = some [⟨"pool", "4"⟩, ⟨"mode", "rw"⟩] ∧
    (FFIClient.CreateDataSource.request "local" sqliteExample).toOption.map
      (fun r => r.Config.Extra.entries) = some [⟨"pool", "4"⟩, ⟨"mode", "rw"⟩] := by
  decide
/-- A panic of the switch statement is the panic of request construction. -/
theorem request_of_buildURL_panic (name d : String) (config : Config) (p : Panic)
    (hd : index config "driver" = .string d)
    (hb : GRPCClient.CreateDataSource.buildURL config d = .error p) :
    GRPCClient.CreateDataSource.request name config = .error p := by
  simp [GRPCClient.CreateDataSource.request, hd, asString, hb, Except.map, bind, Except.bind]

/-- The branches with host, port and database panic when one of them fails its
type assertion. -/
theorem buildURL_panic_database (config : Config) (d : String)
    (hd : d = "postgres" ∨ d = "postgresql" ∨ d = "mysql")
    (h : asString (index config "host") = none ∨ asFloat64 (index config "port") = none ∨
      asString (index config "database") = none) :
    ∃ p, GRPCClient.CreateDataSource.buildURL config d = .error p := by
  unfold GRPCClient.CreateDataSource.buildURL assertString assertFloat64
  rcases hd with rfl | rfl | rfl <;>
    simp only [bind, Except.bind, true_or, or_true, if_true, reduceIte, String.reduceEq,
      or_self, if_false] <;>
    cases hh : asString (index config "host") <;>
    cases hp : asFloat64 (index config "port") <;>
    cases hdb : asString (index config "database") <;>
    simp_all

/-- The branches with host and port panic when one of them fails its type
assertion. -/
theorem buildURL_panic_hostPort (config : Config) (d : String)
    (hd : d = "redis" ∨ d = "mongodb" ∨ d = "mongo")
    (h : asString (index config "host") = none ∨ asFloat64 (index config "port") = none) :
    ∃ p, GRPCClient.CreateDataSource.buildURL config d = .error p := by
  unfold GRPCClient.CreateDataSource.buildURL assertString assertFloat64
  rcases hd with rfl | rfl | rfl <;>
    simp only [bind, Except.bind, true_or, or_true, if_true, reduceIte, String.reduceEq,
      or_self, if_false] <;>
    cases hh : asString (index config "host") <;>
    cases hp : asFloat64 (index config "port") <;>
    simp_all
/-- C7 (amended): in both adapters, when the driver is "postgres", "postgresql"
or "mysql" and host, port or database is absent or wrongly typed, or the driver
is "redis", "mongodb" or "mongo" and host or port is, request construction stops
with a run-time panic: no request is built, nothing reaches the stub or the
library, and the operation hands no error value to its caller.  When the driver
is "kafka" and `brokers` is absent or not a string, nothing fails: the request
is built with the empty URL and handed to the stub. -/
theorem createDataSource_missing_key (name driver : String) (config : Config)
    (hdriver : index config "driver" = .string driver) :
    ((((driver = "postgres" ∨ driver = "postgresql" ∨ driver = "mysql") ∧
          (asString (index config "host") = none ∨ asFloat64 (index config "port") = none ∨
            asString (index config "database") = none)) ∨
        ((driver = "redis" ∨ driver = "mongodb" ∨ driver = "mongo") ∧
          (asString (index config "host") = none ∨ asFloat64 (index config "port") = none))) →
      ∃ p, GRPCClient.CreateDataSource.request name config = .error p ∧
        FFIClient.CreateDataSource.request name config = .error p ∧
        (∀ c ctx, GRPCClient.CreateDataSource c ctx name config = .error p) ∧
        (∀ c ld codec ctx,
          FFIClient.CreateDataSource c ld codec ctx name config = ⟨[], .error p⟩)) ∧
    (driver = "kafka" → asString (index config "brokers") = none →
      ∃ req, GRPCClient.CreateDataSource.request name config = .ok req ∧
        FFIClient.CreateDataSource.request name config = .ok req ∧
        req.Config.Url = "" ∧ req.Config.Type_ = .KAFKA ∧
        (∀ c ctx, GRPCClient.CreateDataSource c ctx name config =
          .ok (match c.service.CreateDataSource ctx req with
            | .error err => (none, some err)
            | .ok resp => (some { Success := resp.Success, Message := resp.Error }, none)))) := by
  refine ⟨fun h => ?_, fun hk hb => ?_⟩
  · have hp : ∃ p, GRPCClient.CreateDataSource.buildURL config driver = .error p := by
      rcases h with ⟨hd, hm⟩ | ⟨hd, hm⟩
      · exact buildURL_panic_database config driver hd hm
      · exact buildURL_panic_hostPort config driver hd hm
    obtain ⟨p, hp⟩ := hp
    have hr := request_of_buildURL_panic name driver config p hdriver hp
    refine ⟨p, hr, by rw [ffi_request_eq]; exact hr, ?_, ?_⟩
    · intro c ctx
      simp [GRPCClient.CreateDataSource, hr, bind, Except.bind]
    · intro c ld codec ctx
      have hf : FFIClient.CreateDataSource.request name config = .error p := by
        rw [ffi_request_eq]; exact hr
      simp [FFIClient.CreateDataSource, hf]
  · subst hk
    have hbu : GRPCClient.CreateDataSource.buildURL config "kafka" = .ok ("", ∅) := by
      simp [GRPCClient.CreateDataSource.buildURL, hb, pure, Except.pure]
    have hr := request_of_buildURL name "kafka" config _ _ hdriver hbu
    refine ⟨_, hr, by rw [ffi_request_eq]; exact hr, rfl, rfl, ?_⟩
    intro c ctx
    simp only [GRPCClient.CreateDataSource, hr, bind, Except.bind, pure, Except.pure]
    cases c.service.CreateDataSource ctx _ <;> rfl

/-- C7 (amended), at a postgres configuration without host: the failed
assertion of `config["host"]` is what both adapters end with. -/
theorem createDataSource_missing_key_witness :
    ∃ p, GRPCClient.CreateDataSource.request "db" postgresNoHostExample = .error p ∧
      FFIClient.CreateDataSource.request "db" postgresNoHostExample = .error p ∧
      (∀ c ctx, GRPCClient.CreateDataSource c ctx "db" postgresNoHostExample = .error p) ∧
      (∀ c ld codec ctx,
        FFIClient.CreateDataSource c ld codec ctx "db" postgresNoHostExample =
          ⟨[], .error p⟩) :=
  (createDataSource_missing_key "db" "postgres" postgresNoHostExample (by decide)).1
    (Or.inl ⟨Or.inl rfl, Or.inl (by decide)⟩)

/-- C7 as stated fails: without `brokers` the Kafka request is built with the
empty URL, sent, and the call returns a response and no error; without `host`
the postgres call ends in a panic instead of returning an error. -/
theorem createDataSource_no_error_for_missing_key :
    index kafkaNoBrokersExample "driver" = .string "kafka" ∧
    kafkaNoBrokersExample.lookup "brokers" = none ∧
    GRPCClient.CreateDataSource acceptingClient (some Context.Background) "events"
      kafkaNoBrokersExample = .ok (some { Success := true, Message := "" }, none) ∧
    (GRPCClient.CreateDataSource.request "events" kafkaNoBrokersExample).toOption.map
      (fun r => r.Config.Url) = some "" ∧
    index postgresNoHostExample "driver" = .string "postgres" ∧
    postgresNoHostExample.lookup "host" = none ∧
    GRPCClient.CreateDataSource acceptingClient (some Context.Background) "db"
      postgresNoHostExample =
        .error ⟨"interface conversion: interface {} is nil, not string"⟩ :=
  ⟨by decide, by decide, rfl, by decide, by decide, by decide, rfl⟩
/-! ## Chat messages -/

theorem ffi_chat_request_eq : FFIClient.ChatLLM.request = GRPCClient.ChatLLM.request := rfl

/-- C8: in both adapters the message list of the `ChatLLM` request has the
length of the input and, at every index, carries the content string of the
input message at that index (empty when missing or not a string) and the tag
`mapMessageRole` gives its role string (empty when missing or not a string);
`mapMessageRole` sends "system", "user" and "assistant" to their tags and
everything else to unspecified.  The spec's example maps to
[(system, "You are helpful"), (user, "Hi")]. -/
theorem chatLLM_messages_in_order (name : String) (messages : List Config) :
    FFIClient.ChatLLM.request name messages = GRPCClient.ChatLLM.request name messages ∧
    (GRPCClient.ChatLLM.request name messages).Messages.length = messages.length ∧
    (∀ i : Nat, (GRPCClient.ChatLLM.request name messages).Messages[i]? =
      messages[i]?.map fun msg =>
        { Role := mapMessageRole ((asString (index msg "role")).getD ""),
          Content := (asString (index msg "content")).getD "" }) ∧
    mapMessageRole "system" = .SYSTEM ∧ mapMessageRole "user" = .USER ∧
    mapMessageRole "assistant" = .ASSISTANT ∧ mapMessageRole "" = .UNSPECIFIED ∧
    (∀ s : String, s ∉ ["system", "user", "assistant"] → mapMessageRole s = .UNSPECIFIED) ∧
    (GRPCClient.ChatLLM.request "chat" chatExample).Messages =
      [{ Role := .SYSTEM, Content := "You are helpful" }, { Role := .USER, Content := "Hi" }] := by
  refine ⟨by rw [ffi_chat_request_eq], ?_, ?_, by decide, by decide, by decide, by decide, ?_,
    by decide⟩
  · simp [GRPCClient.ChatLLM.request]
  · intro i
    simp only [GRPCClient.ChatLLM.request, List.getElem?_map]
    cases messages[i]? with
    | none => rfl
    | some msg =>
      simp only [Option.map_some', GRPCClient.ChatLLM.message]
      cases asString (index msg "role") <;> cases asString (index msg "content") <;> rfl
  · intro s hs
    simp only [List.mem_cons, List.mem_singleton, List.not_mem_nil, or_false, not_or] at hs
    obtain ⟨h1, h2, h3⟩ := hs
    simp [mapMessageRole, h1, h2, h3]
/-! ## The HTTP adapter -/

/-- C9: when the decoded reply has an error object, `callJSONRPC` returns the
`httpError` with the reply's code and message and leaves the result target as
it was, whatever result the reply carries; hence every operation returns a nil
response with that error. -/
theorem callJSONRPC_error_object {ρ : Type} (c : HTTPClient) (js : EnvelopeCodec)
    (method : String) (params : Params) (unmarshal : JSON → ρ → ρ × Option GoError) (result : ρ)
    (rpcResp : jsonrpcResponse) (e : rpcError)
    (hx : c.exchange js method params = .ok rpcResp) (he : rpcResp.Error = some e) :
    c.callJSONRPC js method params unmarshal result =
      (result, some (.httpError e.Code e.Message)) ∧
    ∀ (op : Operation) (ctx : Option Context), op.method = method → op.params = params →
      op.httpFailsWith c js ctx (.httpError e.Code e.Message) := by
  have key : ∀ {σ : Type} (um : JSON → σ → σ × Option GoError) (r : σ),
      c.callJSONRPC js method params um r = (r, some (.httpError e.Code e.Message)) := by
    intro σ um r
    simp [HTTPClient.callJSONRPC, hx, he]
  refine ⟨key unmarshal result, ?_⟩
  intro op ctx hm hp
  cases op <;> subst hm <;> subst hp <;>
    simp only [Operation.httpFailsWith, HTTPClient.Ping, HTTPClient.ValidateConfig,
      HTTPClient.LoadConfig, HTTPClient.GetMetadata, HTTPClient.CreateDataSource,
      HTTPClient.QueryDataSource, HTTPClient.ExecuteDataSource, HTTPClient.InsertDataSource,
      HTTPClient.PingDataSource, HTTPClient.CloseDataSource, HTTPClient.CreateLLM,
      HTTPClient.GenerateLLM, HTTPClient.ChatLLM, HTTPClient.EmbeddingLLM, HTTPClient.PingLLM,
      HTTPClient.CloseLLM, Operation.method, Operation.params] at key ⊢ <;>
    rw [key]

/-- C9, at a reply with error code -32601 that also carries a result: the
target keeps its value, and `CreateDataSource` returns nil and the error. -/
theorem callJSONRPC_error_object_witness :
    (answering methodNotFoundReply).1.callJSONRPC (answering methodNotFoundReply).2
        "datasource.create" (Operation.CreateDataSource "db" postgresExample).params
        statusResult.unmarshal { Success := false, Message := "kept" } =
      ({ Success := false, Message := "kept" }, some (.httpError (-32601) "Method not found")) ∧
    (answering methodNotFoundReply).1.CreateDataSource (answering methodNotFoundReply).2
        (some Context.Background) "db" postgresExample =
      (none, some (.httpError (-32601) "Method not found")) := by
  have h := callJSONRPC_error_object (answering methodNotFoundReply).1
    (answering methodNotFoundReply).2 "datasource.create"
    (Operation.CreateDataSource "db" postgresExample).params statusResult.unmarshal
    { Success := false, Message := "kept" } methodNotFoundReply
    { Code := -32601, Message := "Method not found" } rfl rfl
  exact ⟨h.1, h.2 (.CreateDataSource "db" postgresExample) (some Context.Background) rfl rfl⟩
/-! ## Decoding the reply's result -/

theorem matchesTag_iff (tag key : String) :
    matchesTag tag key = true ↔ foldName key = foldName tag := by
  unfold matchesTag
  simp only [Bool.or_eq_true, beq_iff_eq]
  constructor
  · rintro (h | h)
    · rw [h]
    · exact h
  · intro h; exact Or.inr h

theorem matchesTag_disjoint (t1 t2 key : String) (hne : foldName t1 ≠ foldName t2)
    (h : matchesTag t1 key = true) : matchesTag t2 key = false := by
  rw [matchesTag_iff] at h
  cases h2 : matchesTag t2 key with
  | false => rfl
  | true =>
    rw [matchesTag_iff] at h2
    exact absurd (h.symm.trans h2) hne

/-- The field a struct decoding leaves, when at most one member addresses it:
the decoding of that member into the old field, or the old field. -/
theorem foldl_setField_get {ρ α : Type} (setField : String → JSON → ρ → ρ × Option GoError)
    (get : ρ → α) (dec : JSON → α → α) (p : String → Bool)
    (hhit : ∀ k v r, p k = true → get (setField k v r).1 = dec v (get r))
    (hmiss : ∀ k v r, p k = false → get (setField k v r).1 = get r)
    (ms : List (String × JSON)) (h1 : (ms.filter fun kv => p kv.1).length ≤ 1)
    (acc : ρ × Option GoError) :
    get (ms.foldl (fun acc kv =>
        let r := setField kv.1 kv.2 acc.1
        (r.1, firstError acc.2 r.2)) acc).1 =
      match ms.find? (fun kv => p kv.1) with
      | some kv => dec kv.2 (get acc.1)
      | none => get acc.1 := by
  induction ms generalizing acc with
  | nil => rfl
  | cons kv ms ih =>
    rw [List.foldl_cons]
    by_cases hp : p kv.1 = true
    · have hnone : (ms.filter fun kv => p kv.1) = [] := by
        rw [List.filter_cons_of_pos (by simpa using hp)] at h1
        exact List.length_eq_zero.mp (by simp only [List.length_cons] at h1; omega)
      have hfind : ms.find? (fun kv => p kv.1) = none := by
        rw [List.find?_eq_none]
        intro x hx hpx
        have : x ∈ ms.filter fun kv => p kv.1 := List.mem_filter.mpr ⟨hx, hpx⟩
        rw [hnone] at this
        exact absurd this (List.not_mem_nil x)
      rw [ih (by rw [hnone]; simp), hfind, List.find?_cons_of_pos _ (by simpa using hp)]
      exact hhit _ _ _ hp
    · have hp' : p kv.1 = false := by simpa using hp
      rw [List.filter_cons_of_neg (by simpa using hp)] at h1
      rw [ih h1, List.find?_cons_of_neg _ (by simpa using hp)]
      simp only [hmiss _ _ _ hp']

/-- A struct decoding yields no error when no member does. -/
theorem foldl_setField_noError {ρ : Type} (setField : String → JSON → ρ → ρ × Option GoError)
    (ms : List (String × JSON))
    (h : ∀ kv ∈ ms, ∀ r, (setField kv.1 kv.2 r).2 = none) (acc : ρ × Option GoError)
    (hacc : acc.2 = none) :
    (ms.foldl (fun acc kv =>
        let r := setField kv.1 kv.2 acc.1
        (r.1, firstError acc.2 r.2)) acc).2 = none := by
  induction ms generalizing acc with
  | nil => exact hacc
  | cons kv ms ih =>
    rw [List.foldl_cons]
    apply ih (fun kv' hkv' => h kv' (List.mem_cons_of_mem _ hkv'))
    simp only [hacc, firstError]
    exact h kv (List.mem_cons_self _ _) _

theorem unmarshalBool_value (v : JSON) : (unmarshalBool v false).1 = boolOf (some v) := by
  cases v <;> rfl

theorem unmarshalString_value (v : JSON) : (unmarshalString v "").1 = stringOf (some v) := by
  cases v <;> rfl

theorem unmarshalBool_noError (v : JSON) (old : Bool) (h : fitsBool v = true) :
    (unmarshalBool v old).2 = none := by
  cases v <;> simp_all [unmarshalBool, fitsBool]

theorem unmarshalString_noError (v : JSON) (old : String) (h : fitsString v = true) :
    (unmarshalString v old).2 = none := by
  cases v <;> simp_all [unmarshalString, fitsString]

theorem wire_object (tag : String) (ms : List (String × JSON)) :
    wire tag (some (.object ms)) = (ms.find? fun kv => matchesTag tag kv.1).map fun kv => kv.2 :=
  rfl

/-- A bool field after the decoding of an object. -/
theorem field_bool (ms : List (String × JSON)) (tag : String) (b : Bool)
    (h : b = match ms.find? (fun kv => matchesTag tag kv.1) with
      | some kv => (unmarshalBool kv.2 false).1
      | none => false) :
    b = boolOf (wire tag (some (.object ms))) := by
  rw [h, wire_object]
  cases ms.find? (fun kv => matchesTag tag kv.1) with
  | none => rfl
  | some kv => exact unmarshalBool_value kv.2

/-- A string field after the decoding of an object. -/
theorem field_string (ms : List (String × JSON)) (tag : String) (s : String)
    (h : s = match ms.find? (fun kv => matchesTag tag kv.1) with
      | some kv => (unmarshalString kv.2 "").1
      | none => "") :
    s = stringOf (wire tag (some (.object ms))) := by
  rw [h, wire_object]
  cases ms.find? (fun kv => matchesTag tag kv.1) with
  | none => rfl
  | some kv => exact unmarshalString_value kv.2

theorem unmarshalFloat64_noError (v : JSON) (old : Float64) (h : fitsFloat64 v = true) :
    (unmarshalFloat64 v old).2 = none := by
  cases v with
  | number f => cases f <;> simp_all [unmarshalFloat64, fitsFloat64]
  | _ => simp_all [unmarshalFloat64, fitsFloat64]

theorem unmarshalFloat64_value (v : JSON) :
    (unmarshalFloat64 v (.finite 0 0)).1 = floatOf (some v) := by
  cases v with
  | number f => cases f <;> rfl
  | _ => rfl

/-- The elements a slice decoding yields from a nil slice. -/
theorem unmarshalElems_nil {α : Type} (elem : JSON → α → α × Option GoError) (zero : α)
    (xs : List JSON) :
    (unmarshalElems elem zero xs []).1 = xs.map fun x => (elem x zero).1 := by
  induction xs with
  | nil => rfl
  | cons x xs ih =>
    simp only [unmarshalElems, List.headD_nil, List.tail_nil, List.map_cons]
    rw [ih]

/-- A slice decoding yields no error when no element does. -/
theorem unmarshalElems_noError {α : Type} (elem : JSON → α → α × Option GoError) (zero : α)
    (xs : List JSON) (h : ∀ x ∈ xs, ∀ old, (elem x old).2 = none) (old : List α) :
    (unmarshalElems elem zero xs old).2 = none := by
  induction xs generalizing old with
  | nil => rfl
  | cons x xs ih =>
    simp only [unmarshalElems]
    rw [h x (List.mem_cons_self _ _), ih fun y hy => h y (List.mem_cons_of_mem _ hy)]
    rfl

theorem unmarshalSlice_noError {α : Type} (elem : JSON → α → α × Option GoError) (zero : α)
    (goType : String) (fits : JSON → Bool) (hfits : ∀ x old, fits x = true → (elem x old).2 = none)
    (v : JSON) (old : List α) (h : fitsSlice fits v = true) :
    (unmarshalSlice elem zero goType v old).2 = none := by
  cases v with
  | null => rfl
  | array elems =>
    simp only [fitsSlice, List.all_eq_true] at h
    exact unmarshalElems_noError elem zero elems (fun x hx old => hfits x old (h x hx)) old
  | bool _ => simp [fitsSlice] at h
  | number _ => simp [fitsSlice] at h
  | string _ => simp [fitsSlice] at h
  | object _ => simp [fitsSlice] at h

/-- The map a row decoding builds, and its error. -/
theorem foldl_unmarshalRow (ms : List (String × JSON)) (acc : Row × Option GoError) :
    (ms.foldl (fun acc kv =>
        let r := unmarshalInterface kv.2
        (acc.1.insert kv.1 r.1, firstError acc.2 r.2)) acc) =
      (ms.foldl (fun m kv => m.insert kv.1 (.json kv.2)) acc.1,
        firstError acc.2 (if JSON.fitsMembers ms then none
          else some (.unmarshalType "number" "float64"))) := by
  induction ms generalizing acc with
  | nil =>
    obtain ⟨m, e⟩ := acc
    cases e <;> rfl
  | cons kv ms ih =>
    obtain ⟨k, v⟩ := kv
    obtain ⟨m, e⟩ := acc
    rw [List.foldl_cons, ih, List.foldl_cons]
    simp only [JSON.fitsMembers, unmarshalInterface]
    by_cases hv : v.fits = true <;> by_cases hm : JSON.fitsMembers ms = true <;> cases e <;>
      simp [firstError, hv, hm]

theorem unmarshalRow_value (v : JSON) : (unmarshalRow v ∅).1 = rowOf v := by
  cases v with
  | object ms => simp only [unmarshalRow, foldl_unmarshalRow, rowOf]
  | _ => rfl

theorem unmarshalRow_noError (v : JSON) (old : Row) (h : fitsRow v = true) :
    (unmarshalRow v old).2 = none := by
  cases v with
  | null => rfl
  | object ms =>
    simp only [fitsRow] at h
    simp only [unmarshalRow, foldl_unmarshalRow, h, if_true]
    rfl
  | bool _ => simp [fitsRow] at h
  | number _ => simp [fitsRow] at h
  | string _ => simp [fitsRow] at h
  | array _ => simp [fitsRow] at h

/-- A `[]string` field after the decoding of an object. -/
theorem field_strings (ms : List (String × JSON)) (tag : String) (l : List String)
    (h : l = match ms.find? (fun kv => matchesTag tag kv.1) with
      | some kv => (unmarshalSlice unmarshalString "" "[]string" kv.2 []).1
      | none => []) :
    l = stringsOf (wire tag (some (.object ms))) := by
  rw [h, wire_object]
  cases ms.find? (fun kv => matchesTag tag kv.1) with
  | none => rfl
  | some kv =>
    obtain ⟨k, v⟩ := kv
    cases v with
    | array elems =>
      simp only [unmarshalSlice, unmarshalElems_nil, Option.map_some', stringsOf,
        unmarshalString_value]
    | _ => rfl

/-- A `[]float64` field after the decoding of an object. -/
theorem field_floats (ms : List (String × JSON)) (tag : String) (l : List Float64)
    (h : l = match ms.find? (fun kv => matchesTag tag kv.1) with
      | some kv => (unmarshalSlice unmarshalFloat64 (.finite 0 0) "[]float64" kv.2 []).1
      | none => []) :
    l = floatsOf (wire tag (some (.object ms))) := by
  rw [h, wire_object]
  cases ms.find? (fun kv => matchesTag tag kv.1) with
  | none => rfl
  | some kv =>
    obtain ⟨k, v⟩ := kv
    cases v with
    | array elems =>
      simp only [unmarshalSlice, unmarshalElems_nil, Option.map_some', floatsOf,
        unmarshalFloat64_value]
    | _ => rfl

/-- A rows field after the decoding of an object. -/
theorem field_rows (ms : List (String × JSON)) (tag : String) (l : List Row)
    (h : l = match ms.find? (fun kv => matchesTag tag kv.1) with
      | some kv => (unmarshalSlice unmarshalRow ∅ "[]map[string]interface {}" kv.2 []).1
      | none => []) :
    l = rowsOf (wire tag (some (.object ms))) := by
  rw [h, wire_object]
  cases ms.find? (fun kv => matchesTag tag kv.1) with
  | none => rfl
  | some kv =>
    obtain ⟨k, v⟩ := kv
    cases v with
    | array elems =>
      simp only [unmarshalSlice, unmarshalElems_nil, Option.map_some', rowsOf,
        unmarshalRow_value]
    | _ => rfl

theorem validateResult_eq_mk (r : validateResult) (x0 : Bool) (x1 : List String)
    (h0 : r.Valid = x0) (h1 : r.Errors = x1) :
    r = { Valid := x0, Errors := x1 } := by
  cases r; simp_all

/-- Decoding a well-typed result into `validateResult`. -/
theorem validateResult_unmarshal (res : Option JSON)
    (ht : typedResult [("valid", fitsBool), ("errors", fitsSlice fitsString)] res)
    (raw : JSON) (hraw : res = some raw) :
    validateResult.unmarshal raw { Valid := false, Errors := [] } =
      ({ Valid := boolOf (wire "valid" res),
         Errors := stringsOf (wire "errors" res) }, none) := by
  subst hraw
  cases raw with
  | null => rfl
  | object ms =>
    simp only [typedResult, List.mem_cons, List.mem_singleton, List.not_mem_nil, or_false,
      forall_eq_or_imp, forall_eq] at ht
    obtain ⟨⟨hu0, ht0⟩, ⟨hu1, ht1⟩⟩ := ht
    have d10 := fun k => matchesTag_disjoint "errors" "valid" k (by decide)
    unfold validateResult.unmarshal unmarshalStruct
    simp only
    refine Prod.ext ?_ ?_
    · refine validateResult_eq_mk _ _ _ ?_ ?_
      · apply field_bool
        exact foldl_setField_get validateResult.setField (fun r : validateResult => r.Valid)
          (fun v old => (unmarshalBool v old).1)
          (matchesTag "valid") (by intro k v r h; simp [validateResult.setField, h])
          (by intro k v r h; unfold validateResult.setField; split_ifs <;> simp_all) ms hu0 _
      · apply field_strings
        exact foldl_setField_get validateResult.setField (fun r : validateResult => r.Errors)
          (fun v old => (unmarshalSlice unmarshalString "" "[]string" v old).1)
          (matchesTag "errors") (by intro k v r h; simp [validateResult.setField, h, d10 k h])
          (by intro k v r h; unfold validateResult.setField; split_ifs <;> simp_all) ms hu1 _
    · refine foldl_setField_noError validateResult.setField ms ?_ _ rfl
      intro kv hkv r
      unfold validateResult.setField
      split_ifs with h0 h1
      · exact unmarshalBool_noError _ _ (ht0 kv hkv h0)
      · exact unmarshalSlice_noError _ _ _ fitsString unmarshalString_noError _ _ (ht1 kv hkv h1)
      · rfl
  | bool _ => exact absurd ht (by simp [typedResult])
  | number _ => exact absurd ht (by simp [typedResult])
  | string _ => exact absurd ht (by simp [typedResult])
  | array _ => exact absurd ht (by simp [typedResult])

theorem loadConfigResult_eq_mk (r : loadConfigResult) (x0 : Bool) (x1 : String) (x2 : String)
    (h0 : r.Success = x0) (h1 : r.Message = x1) (h2 : r.OperatorName = x2) :
    r = { Success := x0, Message := x1, OperatorName := x2 } := by
  cases r; simp_all

/-- Decoding a well-typed result into `loadConfigResult`. -/
theorem loadConfigResult_unmarshal (res : Option JSON)
    (ht : typedResult [("success", fitsBool), ("message", fitsString), ("operator_name", fitsString)] res)
    (raw : JSON) (hraw : res = some raw) :
    loadConfigResult.unmarshal raw { Success := false, Message := "", OperatorName := "" } =
      ({ Success := boolOf (wire "success" res),
         Message := stringOf (wire "message" res),
         OperatorName := stringOf (wire "operator_name" res) }, none) := by
  subst hraw
  cases raw with
  | null => rfl
  | object ms =>
    simp only [typedResult, List.mem_cons, List.mem_singleton, List.not_mem_nil, or_false,
      forall_eq_or_imp, forall_eq] at ht
    obtain ⟨⟨hu0, ht0⟩, ⟨hu1, ht1⟩, ⟨hu2, ht2⟩⟩ := ht
    have d10 := fun k => matchesTag_disjoint "message" "success" k (by decide)
    have d20 := fun k => matchesTag_disjoint "operator_name" "success" k (by decide)
    have d21 := fun k => matchesTag_disjoint "operator_name" "message" k (by decide)
    unfold loadConfigResult.unmarshal unmarshalStruct
    simp only
    refine Prod.ext ?_ ?_
    · refine loadConfigResult_eq_mk _ _ _ _ ?_ ?_ ?_
      · apply field_bool
        exact foldl_setField_get loadConfigResult.setField (fun r : loadConfigResult => r.Success)
          (fun v old => (unmarshalBool v old).1)
          (matchesTag "success") (by intro k v r h; simp [loadConfigResult.setField, h])
          (by intro k v r h; unfold loadConfigResult.setField; split_ifs <;> simp_all) ms hu0 _
      · apply field_string
        exact foldl_setField_get loadConfigResult.setField (fun r : loadConfigResult => r.Message)
          (fun v old => (unmarshalString v old).1)
          (matchesTag "message") (by intro k v r h; simp [loadConfigResult.setField, h, d10 k h])
          (by intro k v r h; unfold loadConfigResult.setField; split_ifs <;> simp_all) ms hu1 _
      · apply field_string
        exact foldl_setField_get loadConfigResult.setField (fun r : loadConfigResult => r.OperatorName)
          (fun v old => (unmarshalString v old).1)
          (matchesTag "operator_name") (by intro k v r h; simp [loadConfigResult.setField, h, d20 k h, d21 k h])
          (by intro k v r h; unfold loadConfigResult.setField; split_ifs <;> simp_all) ms hu2 _
    · refine foldl_setField_noError loadConfigResult.setField ms ?_ _ rfl
      intro kv hkv r
      unfold loadConfigResult.setField
      split_ifs with h0 h1 h2
      · exact unmarshalBool_noError _ _ (ht0 kv hkv h0)
      · exact unmarshalString_noError _ _ (ht1 kv hkv h1)
      · exact unmarshalString_noError _ _ (ht2 kv hkv h2)
      · rfl
  | bool _ => exact absurd ht (by simp [typedResult])
  | number _ => exact absurd ht (by simp [typedResult])
  | string _ => exact absurd ht (by simp [typedResult])
  | array _ => exact absurd ht (by simp [typedResult])

theorem metadataResult_eq_mk (r : metadataResult) (x0 : String) (x1 : String) (x2 : String)
    (h0 : r.Name = x0) (h1 : r.Version = x1) (h2 : r.Description = x2) :
    r = { Name := x0, Version := x1, Description := x2 } := by
  cases r; simp_all

/-- Decoding a well-typed result into `metadataResult`. -/
theorem metadataResult_unmarshal (res : Option JSON)
    (ht : typedResult [("name", fitsString), ("version", fitsString), ("description", fitsString)] res)
    (raw : JSON) (hraw : res = some raw) :
    metadataResult.unmarshal raw { Name := "", Version := "", Description := "" } =
      ({ Name := stringOf (wire "name" res),
         Version := stringOf (wire "version" res),
         Description := stringOf (wire "description" res) }, none) := by
  subst hraw
  cases raw with
  | null => rfl
  | object ms =>
    simp only [typedResult, List.mem_cons, List.mem_singleton, List.not_mem_nil, or_false,
      forall_eq_or_imp, forall_eq] at ht
    obtain ⟨⟨hu0, ht0⟩, ⟨hu1, ht1⟩, ⟨hu2, ht2⟩⟩ := ht
    have d10 := fun k => matchesTag_disjoint "version" "name" k (by decide)
    have d20 := fun k => matchesTag_disjoint "description" "name" k (by decide)
    have d21 := fun k => matchesTag_disjoint "description" "version" k (by decide)
    unfold metadataResult.unmarshal unmarshalStruct
    simp only
    refine Prod.ext ?_ ?_
    · refine metadataResult_eq_mk _ _ _ _ ?_ ?_ ?_
      · apply field_string
        exact foldl_setField_get metadataResult.setField (fun r : metadataResult => r.Name)
          (fun v old => (unmarshalString v old).1)
          (matchesTag "name") (by intro k v r h; simp [metadataResult.setField, h])
          (by intro k v r h; unfold metadataResult.setField; split_ifs <;> simp_all) ms hu0 _
      · apply field_string
        exact foldl_setField_get metadataResult.setField (fun r : metadataResult => r.Version)
          (fun v old => (unmarshalString v old).1)
          (matchesTag "version") (by intro k v r h; simp [metadataResult.setField, h, d10 k h])
          (by intro k v r h; unfold metadataResult.setField; split_ifs <;> simp_all) ms hu1 _
      · apply field_string
        exact foldl_setField_get metadataResult.setField (fun r : metadataResult => r.Description)
          (fun v old => (unmarshalString v old).1)
          (matchesTag "description") (by intro k v r h; simp [metadataResult.setField, h, d20 k h, d21 k h])
          (by intro k v r h; unfold metadataResult.setField; split_ifs <;> simp_all) ms hu2 _
    · refine foldl_setField_noError metadataResult.setField ms ?_ _ rfl
      intro kv hkv r
      unfold metadataResult.setField
      split_ifs with h0 h1 h2
      · exact unmarshalString_noError _ _ (ht0 kv hkv h0)
      · exact unmarshalString_noError _ _ (ht1 kv hkv h1)
      · exact unmarshalString_noError _ _ (ht2 kv hkv h2)
      · rfl
  | bool _ => exact absurd ht (by simp [typedResult])
  | number _ => exact absurd ht (by simp [typedResult])
  | string _ => exact absurd ht (by simp [typedResult])
  | array _ => exact absurd ht (by simp [typedResult])

theorem statusResult_eq_mk (r : statusResult) (x0 : Bool) (x1 : String)
    (h0 : r.Success = x0) (h1 : r.Message = x1) :
    r = { Success := x0, Message := x1 } := by
  cases r; simp_all

/-- Decoding a well-typed result into `statusResult`. -/
theorem statusResult_unmarshal (res : Option JSON)
    (ht : typedResult [("success", fitsBool), ("message", fitsString)] res)
    (raw : JSON) (hraw : res = some raw) :
    statusResult.unmarshal raw { Success := false, Message := "" } =
      ({ Success := boolOf (wire "success" res),
         Message := stringOf (wire "message" res) }, none) := by
  subst hraw
  cases raw with
  | null => rfl
  | object ms =>
    simp only [typedResult, List.mem_cons, List.mem_singleton, List.not_mem_nil, or_false,
      forall_eq_or_imp, forall_eq] at ht
    obtain ⟨⟨hu0, ht0⟩, ⟨hu1, ht1⟩⟩ := ht
    have d10 := fun k => matchesTag_disjoint "message" "success" k (by decide)
    unfold statusResult.unmarshal unmarshalStruct
    simp only
    refine Prod.ext ?_ ?_
    · refine statusResult_eq_mk _ _ _ ?_ ?_
      · apply field_bool
        exact foldl_setField_get statusResult.setField (fun r : statusResult => r.Success)
          (fun v old => (unmarshalBool v old).1)
          (matchesTag "success") (by intro k v r h; simp [statusResult.setField, h])
          (by intro k v r h; unfold statusResult.setField; split_ifs <;> simp_all) ms hu0 _
      · apply field_string
        exact foldl_setField_get statusResult.setField (fun r : statusResult => r.Message)
          (fun v old => (unmarshalString v old).1)
          (matchesTag "message") (by intro k v r h; simp [statusResult.setField, h, d10 k h])
          (by intro k v r h; unfold statusResult.setField; split_ifs <;> simp_all) ms hu1 _
    · refine foldl_setField_noError statusResult.setField ms ?_ _ rfl
      intro kv hkv r
      unfold statusResult.setField
      split_ifs with h0 h1
      · exact unmarshalBool_noError _ _ (ht0 kv hkv h0)
      · exact unmarshalString_noError _ _ (ht1 kv hkv h1)
      · rfl
  | bool _ => exact absurd ht (by simp [typedResult])
  | number _ => exact absurd ht (by simp [typedResult])
  | string _ => exact absurd ht (by simp [typedResult])
  | array _ => exact absurd ht (by simp [typedResult])

theorem queryResult_eq_mk (r : queryResult) (x0 : Bool) (x1 : List Row) (x2 : String)
    (h0 : r.Success = x0) (h1 : r.Rows = x1) (h2 : r.Message = x2) :
    r = { Success := x0, Rows := x1, Message := x2 } := by
  cases r; simp_all

/-- Decoding a well-typed result into `queryResult`. -/
theorem queryResult_unmarshal (res : Option JSON)
    (ht : typedResult [("success", fitsBool), ("rows", fitsSlice fitsRow), ("message", fitsString)] res)
    (raw : JSON) (hraw : res = some raw) :
    queryResult.unmarshal raw { Success := false, Rows := [], Message := "" } =
      ({ Success := boolOf (wire "success" res),
         Rows := rowsOf (wire "rows" res),
         Message := stringOf (wire "message" res) }, none) := by
  subst hraw
  cases raw with
  | null => rfl
  | object ms =>
    simp only [typedResult, List.mem_cons, List.mem_singleton, List.not_mem_nil, or_false,
      forall_eq_or_imp, forall_eq] at ht
    obtain ⟨⟨hu0, ht0⟩, ⟨hu1, ht1⟩, ⟨hu2, ht2⟩⟩ := ht
    have d10 := fun k => matchesTag_disjoint "rows" "success" k (by decide)
    have d20 := fun k => matchesTag_disjoint "message" "success" k (by decide)
    have d21 := fun k => matchesTag_disjoint "message" "rows" k (by decide)
    unfold queryResult.unmarshal unmarshalStruct
    simp only
    refine Prod.ext ?_ ?_
    · refine queryResult_eq_mk _ _ _ _ ?_ ?_ ?_
      · apply field_bool
        exact foldl_setField_get queryResult.setField (fun r : queryResult => r.Success)
          (fun v old => (unmarshalBool v old).1)
          (matchesTag "success") (by intro k v r h; simp [queryResult.setField, h])
          (by intro k v r h; unfold queryResult.setField; split_ifs <;> simp_all) ms hu0 _
      · apply field_rows
        exact foldl_setField_get queryResult.setField (fun r : queryResult => r.Rows)
          (fun v old => (unmarshalSlice unmarshalRow ∅ "[]map[string]interface {}" v old).1)
          (matchesTag "rows") (by intro k v r h; simp [queryResult.setField, h, d10 k h])
          (by intro k v r h; unfold queryResult.setField; split_ifs <;> simp_all) ms hu1 _
      · apply field_string
        exact foldl_setField_get queryResult.setField (fun r : queryResult => r.Message)
          (fun v old => (unmarshalString v old).1)
          (matchesTag "message") (by intro k v r h; simp [queryResult.setField, h, d20 k h, d21 k h])
          (by intro k v r h; unfold queryResult.setField; split_ifs <;> simp_all) ms hu2 _
    · refine foldl_setField_noError queryResult.setField ms ?_ _ rfl
      intro kv hkv r
      unfold queryResult.setField
      split_ifs with h0 h1 h2
      · exact unmarshalBool_noError _ _ (ht0 kv hkv h0)
      · exact unmarshalSlice_noError _ _ _ fitsRow unmarshalRow_noError _ _ (ht1 kv hkv h1)
      · exact unmarshalString_noError _ _ (ht2 kv hkv h2)
      · rfl
  | bool _ => exact absurd ht (by simp [typedResult])
  | number _ => exact absurd ht (by simp [typedResult])
  | string _ => exact absurd ht (by simp [typedResult])
  | array _ => exact absurd ht (by simp [typedResult])

theorem generateResult_eq_mk (r : generateResult) (x0 : Bool) (x1 : String) (x2 : String)
    (h0 : r.Success = x0) (h1 : r.Text = x1) (h2 : r.Message = x2) :
    r = { Success := x0, Text := x1, Message := x2 } := by
  cases r; simp_all

/-- Decoding a well-typed result into `generateResult`. -/
theorem generateResult_unmarshal (res : Option JSON)
    (ht : typedResult [("success", fitsBool), ("text", fitsString), ("message", fitsString)] res)
    (raw : JSON) (hraw : res = some raw) :
    generateResult.unmarshal raw { Success := false, Text := "", Message := "" } =
      ({ Success := boolOf (wire "success" res),
         Text := stringOf (wire "text" res),
         Message := stringOf (wire "message" res) }, none) := by
  subst hraw
  cases raw with
  | null => rfl
  | object ms =>
    simp only [typedResult, List.mem_cons, List.mem_singleton, List.not_mem_nil, or_false,
      forall_eq_or_imp, forall_eq] at ht
    obtain ⟨⟨hu0, ht0⟩, ⟨hu1, ht1⟩, ⟨hu2, ht2⟩⟩ := ht
    have d10 := fun k => matchesTag_disjoint "text" "success" k (by decide)
    have d20 := fun k => matchesTag_disjoint "message" "success" k (by decide)
    have d21 := fun k => matchesTag_disjoint "message" "text" k (by decide)
    unfold generateResult.unmarshal unmarshalStruct
    simp only
    refine Prod.ext ?_ ?_
    · refine generateResult_eq_mk _ _ _ _ ?_ ?_ ?_
      · apply field_bool
        exact foldl_setField_get generateResult.setField (fun r : generateResult => r.Success)
          (fun v old => (unmarshalBool v old).1)
          (matchesTag "success") (by intro k v r h; simp [generateResult.setField, h])
          (by intro k v r h; unfold generateResult.setField; split_ifs <;> simp_all) ms hu0 _
      · apply field_string
        exact foldl_setField_get generateResult.setField (fun r : generateResult => r.Text)
          (fun v old => (unmarshalString v old).1)
          (matchesTag "text") (by intro k v r h; simp [generateResult.setField, h, d10 k h])
          (by intro k v r h; unfold generateResult.setField; split_ifs <;> simp_all) ms hu1 _
      · apply field_string
        exact foldl_setField_get generateResult.setField (fun r : generateResult => r.Message)
          (fun v old => (unmarshalString v old).1)
          (matchesTag "message") (by intro k v r h; simp [generateResult.setField, h, d20 k h, d21 k h])
          (by intro k v r h; unfold generateResult.setField; split_ifs <;> simp_all) ms hu2 _
    · refine foldl_setField_noError generateResult.setField ms ?_ _ rfl
      intro kv hkv r
      unfold generateResult.setField
      split_ifs with h0 h1 h2
      · exact unmarshalBool_noError _ _ (ht0 kv hkv h0)
      · exact unmarshalString_noError _ _ (ht1 kv hkv h1)
      · exact unmarshalString_noError _ _ (ht2 kv hkv h2)
      · rfl
  | bool _ => exact absurd ht (by simp [typedResult])
  | number _ => exact absurd ht (by simp [typedResult])
  | string _ => exact absurd ht (by simp [typedResult])
  | array _ => exact absurd ht (by simp [typedResult])

theorem embeddingResult_eq_mk (r : embeddingResult) (x0 : Bool) (x1 : List Float64) (x2 : String)
    (h0 : r.Success = x0) (h1 : r.Embedding = x1) (h2 : r.Message = x2) :
    r = { Success := x0, Embedding := x1, Message := x2 } := by
  cases r; simp_all

/-- Decoding a well-typed result into `embeddingResult`. -/
theorem embeddingResult_unmarshal (res : Option JSON)
    (ht : typedResult [("success", fitsBool), ("embedding", fitsSlice fitsFloat64), ("message", fitsString)] res)
    (raw : JSON) (hraw : res = some raw) :
    embeddingResult.unmarshal raw { Success := false, Embedding := [], Message := "" } =
      ({ Success := boolOf (wire "success" res),
         Embedding := floatsOf (wire "embedding" res),
         Message := stringOf (wire "message" res) }, none) := by
  subst hraw
  cases raw with
  | null => rfl
  | object ms =>
    simp only [typedResult, List.mem_cons, List.mem_singleton, List.not_mem_nil, or_false,
      forall_eq_or_imp, forall_eq] at ht
    obtain ⟨⟨hu0, ht0⟩, ⟨hu1, ht1⟩, ⟨hu2, ht2⟩⟩ := ht
    have d10 := fun k => matchesTag_disjoint "embedding" "success" k (by decide)
    have d20 := fun k => matchesTag_disjoint "message" "success" k (by decide)
    have d21 := fun k => matchesTag_disjoint "message" "embedding" k (by decide)
    unfold embeddingResult.unmarshal unmarshalStruct
    simp only
    refine Prod.ext ?_ ?_
    · refine embeddingResult_eq_mk _ _ _ _ ?_ ?_ ?_
      · apply field_bool
        exact foldl_setField_get embeddingResult.setField (fun r : embeddingResult => r.Success)
          (fun v old => (unmarshalBool v old).1)
          (matchesTag "success") (by intro k v r h; simp [embeddingResult.setField, h])
          (by intro k v r h; unfold embeddingResult.setField; split_ifs <;> simp_all) ms hu0 _
      · apply field_floats
        exact foldl_setField_get embeddingResult.setField (fun r : embeddingResult => r.Embedding)
          (fun v old => (unmarshalSlice unmarshalFloat64 (.finite 0 0) "[]float64" v old).1)
          (matchesTag "embedding") (by intro k v r h; simp [embeddingResult.setField, h, d10 k h])
          (by intro k v r h; unfold embeddingResult.setField; split_ifs <;> simp_all) ms hu1 _
      · apply field_string
        exact foldl_setField_get embeddingResult.setField (fun r : embeddingResult => r.Message)
          (fun v old => (unmarshalString v old).1)
          (matchesTag "message") (by intro k v r h; simp [embeddingResult.setField, h, d20 k h, d21 k h])
          (by intro k v r h; unfold embeddingResult.setField; split_ifs <;> simp_all) ms hu2 _
    · refine foldl_setField_noError embeddingResult.setField ms ?_ _ rfl
      intro kv hkv r
      unfold embeddingResult.setField
      split_ifs with h0 h1 h2
      · exact unmarshalBool_noError _ _ (ht0 kv hkv h0)
      · exact unmarshalSlice_noError _ _ _ fitsFloat64 unmarshalFloat64_noError _ _ (ht1 kv hkv h1)
      · exact unmarshalString_noError _ _ (ht2 kv hkv h2)
      · rfl
  | bool _ => exact absurd ht (by simp [typedResult])
  | number _ => exact absurd ht (by simp [typedResult])
  | string _ => exact absurd ht (by simp [typedResult])
  | array _ => exact absurd ht (by simp [typedResult])
/-- What the decoding of an object into a `map[string]string` leaves under a key
that at most one member carries, and its error. -/
theorem foldl_stringMap (key : String) (ms : List (String × JSON))
    (h1 : (ms.filter fun kv => kv.1 == key).length ≤ 1)
    (hfit : ∀ kv ∈ ms, fitsString kv.2 = true) (acc : StringMap × Option GoError) :
    let r := ms.foldl (fun acc kv =>
        let r := unmarshalString kv.2 ""
        (acc.1.insert kv.1 r.1, firstError acc.2 r.2)) acc
    r.2 = acc.2 ∧
    r.1.lookup key = match ms.find? (fun kv => kv.1 == key) with
      | some kv => some (unmarshalString kv.2 "").1
      | none => acc.1.lookup key := by
  induction ms generalizing acc with
  | nil => exact ⟨rfl, rfl⟩
  | cons kv ms ih =>
    obtain ⟨k, v⟩ := kv
    obtain ⟨m, e⟩ := acc
    have hv : (unmarshalString v "").2 = none :=
      unmarshalString_noError v "" (hfit (k, v) (List.mem_cons_self _ _))
    have hfit' : ∀ kv ∈ ms, fitsString kv.2 = true :=
      fun kv hkv => hfit kv (List.mem_cons_of_mem _ hkv)
    simp only [List.foldl_cons]
    by_cases hk : (k == key) = true
    · have hnone : (ms.filter fun kv => kv.1 == key) = [] := by
        rw [List.filter_cons_of_pos (by simpa using hk)] at h1
        exact List.length_eq_zero.mp (by simp only [List.length_cons] at h1; omega)
      have hfind : ms.find? (fun kv => kv.1 == key) = none := by
        rw [List.find?_eq_none]
        intro x hx hpx
        have : x ∈ ms.filter fun kv => kv.1 == key := List.mem_filter.mpr ⟨hx, hpx⟩
        rw [hnone] at this
        exact absurd this (List.not_mem_nil x)
      obtain ⟨he, hl⟩ := ih (by rw [hnone]; simp) hfit' (m.insert k (unmarshalString v "").1,
        firstError e (unmarshalString v "").2)
      refine ⟨?_, ?_⟩
      · rw [he, hv]; cases e <;> rfl
      · rw [hl, hfind, List.find?_cons_of_pos _ (by simpa using hk)]
        have hkk : k = key := by simpa using hk
        subst hkk
        exact AList.lookup_insert _
    · rw [List.filter_cons_of_neg (by simpa using hk)] at h1
      obtain ⟨he, hl⟩ := ih h1 hfit' (m.insert k (unmarshalString v "").1,
        firstError e (unmarshalString v "").2)
      refine ⟨?_, ?_⟩
      · rw [he, hv]; cases e <;> rfl
      · rw [hl, List.find?_cons_of_neg _ (by simpa using hk)]
        have hkk : key ≠ k := by
          intro h; apply hk; simp [h]
        cases ms.find? (fun kv => kv.1 == key) with
        | some kv => rfl
        | none => exact AList.lookup_insert_ne hkk

/-- Decoding a well-typed result into the `map[string]string` of `Ping`. -/
theorem stringMap_unmarshal (res : Option JSON) (ht : typedStringMap res) (raw : JSON)
    (hraw : res = some raw) :
    (unmarshalStringMap raw ∅).2 = none ∧
    indexString (unmarshalStringMap raw ∅).1 "status" = stringOf (wireKey "status" res) ∧
    indexString (unmarshalStringMap raw ∅).1 "version" = stringOf (wireKey "version" res) := by
  subst hraw
  cases raw with
  | null => exact ⟨rfl, rfl, rfl⟩
  | object ms =>
    obtain ⟨hfit, hs, hv⟩ := ht
    have key : ∀ k, (ms.filter fun kv => kv.1 == k).length ≤ 1 →
        indexString (unmarshalStringMap (.object ms) ∅).1 k =
          stringOf (wireKey k (some (.object ms))) := by
      intro k hk
      have h := (foldl_stringMap k ms hk hfit (∅, none)).2
      simp only [indexString, unmarshalStringMap, wireKey, JSON.members]
      rw [h]
      cases ms.find? (fun kv => kv.1 == k) with
      | none => rfl
      | some kv => exact unmarshalString_value kv.2
    exact ⟨(foldl_stringMap "status" ms hs hfit (∅, none)).1, key "status" hs, key "version" hv⟩
  | bool _ => exact absurd ht (by simp [typedStringMap])
  | number _ => exact absurd ht (by simp [typedStringMap])
  | string _ => exact absurd ht (by simp [typedStringMap])
  | array _ => exact absurd ht (by simp [typedStringMap])

/-- The helper `callJSONRPC` on a reply without an error object. -/
theorem callJSONRPC_result {ρ : Type} (c : HTTPClient) (js : EnvelopeCodec) (method : String)
    (params : Params) (unmarshal : JSON → ρ → ρ × Option GoError) (result : ρ)
    (rpcResp : jsonrpcResponse)
    (hx : c.exchange js method params = .ok rpcResp) (he : rpcResp.Error = none) :
    c.callJSONRPC js method params unmarshal result =
      match rpcResp.Result with
      | some raw =>
        match unmarshal raw result with
        | (result, some err) => (result, some (.wrapf "failed to unmarshal result: " err))
        | (result, none) => (result, none)
      | none => (result, none) := by
  simp only [HTTPClient.callJSONRPC, hx, he]
/-- C10 (amended): in the HTTP adapter, for every operation and every reply
without an error object whose result is absent, `null`, or an object in which
each field the operation reads occurs at most once and holds a value of the
field's type or `null`, the call returns no error, and each field of the
returned response holds the value of the wire field it is read from (zero
when that is absent or `null`): the like-named one, except that
`LoadConfigResponse.Error` is read from "message" and `OperatorName` from
"operator_name". -/
theorem http_response_fields (c : HTTPClient) (js : EnvelopeCodec) (ctx : Option Context)
    (op : Operation) (rpcResp : jsonrpcResponse)
    (hx : c.exchange js op.method op.params = .ok rpcResp) (he : rpcResp.Error = none)
    (ht : op.typedReply rpcResp.Result) :
    op.httpReturns c js ctx rpcResp.Result := by
  cases op with
  | Ping =>
    simp only [Operation.httpReturns, Operation.typedReply, Operation.method,
      Operation.params, HTTPClient.Ping] at hx ht ⊢
    rw [callJSONRPC_result c js _ _ _ _ rpcResp hx he]
    cases hres : rpcResp.Result with
    | none => rfl
    | some raw =>
      obtain ⟨h1, h2, h3⟩ := stringMap_unmarshal _ ht raw hres
      rw [hres] at h2 h3
      simp only
      rw [← h2, ← h3]
      generalize unmarshalStringMap raw ∅ = r at h1
      obtain ⟨m, e⟩ := r
      simp only at h1
      subst h1
      rfl
  | ValidateConfig tomlContent =>
    simp only [Operation.httpReturns, Operation.typedReply, Operation.method,
      Operation.params, HTTPClient.ValidateConfig] at hx ht ⊢
    rw [callJSONRPC_result c js _ _ _ _ rpcResp hx he]
    cases hres : rpcResp.Result with
    | none => rfl
    | some raw =>
      simp only [validateResult_unmarshal _ ht raw hres, hres]
  | LoadConfig configPath =>
    simp only [Operation.httpReturns, Operation.typedReply, Operation.method,
      Operation.params, HTTPClient.LoadConfig] at hx ht ⊢
    rw [callJSONRPC_result c js _ _ _ _ rpcResp hx he]
    cases hres : rpcResp.Result with
    | none => rfl
    | some raw =>
      simp only [loadConfigResult_unmarshal _ ht raw hres, hres]
  | GetMetadata =>
    simp only [Operation.httpReturns, Operation.typedReply, Operation.method,
      Operation.params, HTTPClient.GetMetadata] at hx ht ⊢
    rw [callJSONRPC_result c js _ _ _ _ rpcResp hx he]
    cases hres : rpcResp.Result with
    | none => rfl
    | some raw =>
      simp only [metadataResult_unmarshal _ ht raw hres, hres]
  | CreateDataSource name config =>
    simp only [Operation.httpReturns, Operation.typedReply, Operation.method,
      Operation.params, HTTPClient.CreateDataSource] at hx ht ⊢
    rw [callJSONRPC_result c js _ _ _ _ rpcResp hx he]
    cases hres : rpcResp.Result with
    | none => rfl
    | some raw =>
      simp only [statusResult_unmarshal _ ht raw hres, hres]
  | QueryDataSource name query =>
    simp only [Operation.httpReturns, Operation.typedReply, Operation.method,
      Operation.params, HTTPClient.QueryDataSource] at hx ht ⊢
    rw [callJSONRPC_result c js _ _ _ _ rpcResp hx he]
    cases hres : rpcResp.Result with
    | none => rfl
    | some raw =>
      simp only [queryResult_unmarshal _ ht raw hres, hres]
  | ExecuteDataSource name query =>
    simp only [Operation.httpReturns, Operation.typedReply, Operation.method,
      Operation.params, HTTPClient.ExecuteDataSource] at hx ht ⊢
    rw [callJSONRPC_result c js _ _ _ _ rpcResp hx he]
    cases hres : rpcResp.Result with
    | none => rfl
    | some raw =>
      simp only [statusResult_unmarshal _ ht raw hres, hres]
  | InsertDataSource name data =>
    simp only [Operation.httpReturns, Operation.typedReply, Operation.method,
      Operation.params, HTTPClient.InsertDataSource] at hx ht ⊢
    rw [callJSONRPC_result c js _ _ _ _ rpcResp hx he]
    cases hres : rpcResp.Result with
    | none => rfl
    | some raw =>
      simp only [statusResult_unmarshal _ ht raw hres, hres]
  | PingDataSource name =>
    simp only [Operation.httpReturns, Operation.typedReply, Operation.method,
      Operation.params, HTTPClient.PingDataSource] at hx ht ⊢
    rw [callJSONRPC_result c js _ _ _ _ rpcResp hx he]
    cases hres : rpcResp.Result with
    | none => rfl
    | some raw =>
      simp only [statusResult_unmarshal _ ht raw hres, hres]
  | CloseDataSource name =>
    simp only [Operation.httpReturns, Operation.typedReply, Operation.method,
      Operation.params, HTTPClient.CloseDataSource] at hx ht ⊢
    rw [callJSONRPC_result c js _ _ _ _ rpcResp hx he]
    cases hres : rpcResp.Result with
    | none => rfl
    | some raw =>
      simp only [statusResult_unmarshal _ ht raw hres, hres]
  | CreateLLM name config =>
    simp only [Operation.httpReturns, Operation.typedReply, Operation.method,
      Operation.params, HTTPClient.CreateLLM] at hx ht ⊢
    rw [callJSONRPC_result c js _ _ _ _ rpcResp hx he]
    cases hres : rpcResp.Result with
    | none => rfl
    | some raw =>
      simp only [statusResult_unmarshal _ ht raw hres, hres]
  | GenerateLLM name prompt =>
    simp only [Operation.httpReturns, Operation.typedReply, Operation.method,
      Operation.params, HTTPClient.GenerateLLM] at hx ht ⊢
    rw [callJSONRPC_result c js _ _ _ _ rpcResp hx he]
    cases hres : rpcResp.Result with
    | none => rfl
    | some raw =>
      simp only [generateResult_unmarshal _ ht raw hres, hres]
  | ChatLLM name messages =>
    simp only [Operation.httpReturns, Operation.typedReply, Operation.method,
      Operation.params, HTTPClient.ChatLLM] at hx ht ⊢
    rw [callJSONRPC_result c js _ _ _ _ rpcResp hx he]
    cases hres : rpcResp.Result with
    | none => rfl
    | some raw =>
      simp only [generateResult_unmarshal _ ht raw hres, hres]
  | EmbeddingLLM name text =>
    simp only [Operation.httpReturns, Operation.typedReply, Operation.method,
      Operation.params, HTTPClient.EmbeddingLLM] at hx ht ⊢
    rw [callJSONRPC_result c js _ _ _ _ rpcResp hx he]
    cases hres : rpcResp.Result with
    | none => rfl
    | some raw =>
      simp only [embeddingResult_unmarshal _ ht raw hres, hres]
  | PingLLM name =>
    simp only [Operation.httpReturns, Operation.typedReply, Operation.method,
      Operation.params, HTTPClient.PingLLM] at hx ht ⊢
    rw [callJSONRPC_result c js _ _ _ _ rpcResp hx he]
    cases hres : rpcResp.Result with
    | none => rfl
    | some raw =>
      simp only [statusResult_unmarshal _ ht raw hres, hres]
  | CloseLLM name =>
    simp only [Operation.httpReturns, Operation.typedReply, Operation.method,
      Operation.params, HTTPClient.CloseLLM] at hx ht ⊢
    rw [callJSONRPC_result c js _ _ _ _ rpcResp hx he]
    cases hres : rpcResp.Result with
    | none => rfl
    | some raw =>
      simp only [statusResult_unmarshal _ ht raw hres, hres]

/-- C10 (amended), at a `load_config` reply with success, message and operator
name: `Error` holds the message. -/
theorem http_response_fields_witness :
    (answering (resultReply loadedResult)).1.exchange (answering (resultReply loadedResult)).2
        "load_config" (Operation.LoadConfig "operator.toml").params =
      .ok (resultReply loadedResult) ∧
    (resultReply loadedResult).Error = none ∧
    (answering (resultReply loadedResult)).1.LoadConfig (answering (resultReply loadedResult)).2
        (some Context.Background) "operator.toml" =
      (some { Success := true, OperatorName := "demo", Error := "loaded" }, none) :=
  ⟨rfl, rfl,
    http_response_fields (answering (resultReply loadedResult)).1
      (answering (resultReply loadedResult)).2 (some Context.Background)
      (.LoadConfig "operator.toml") (resultReply loadedResult) rfl rfl
      (by
        intro f hf
        simp only [List.mem_cons, List.mem_singleton, List.not_mem_nil, or_false] at hf
        rcases hf with rfl | rfl | rfl <;> exact ⟨by decide, by decide⟩)⟩

/-- C10 as stated fails.  A `load_config` result without a member "error" yields
a response whose `Error` is not the zero value but the message; a result with
the member "error" yields a response whose `Error` is empty; and a result whose
"success" member is a string makes the call return an error. -/
theorem http_response_not_like_named :
    wire "error" (some loadedResult) = none ∧
    (answering (resultReply loadedResult)).1.LoadConfig (answering (resultReply loadedResult)).2
        (some Context.Background) "operator.toml" =
      (some { Success := true, OperatorName := "demo", Error := "loaded" }, none) ∧
    wire "error" (some errorNamedResult) = some (.string "boom") ∧
    (answering (resultReply errorNamedResult)).1.LoadConfig
        (answering (resultReply errorNamedResult)).2 (some Context.Background) "operator.toml" =
      (some { Success := false, OperatorName := "", Error := "" }, none) ∧
    (resultReply mistypedResult).Error = none ∧
    (answering (resultReply mistypedResult)).1.CreateDataSource
        (answering (resultReply mistypedResult)).2 (some Context.Background) "db"
        postgresExample =
      (none, some (.wrapf "failed to unmarshal result: " (.unmarshalType "string" "bool"))) :=
  ⟨rfl, rfl, rfl, rfl, rfl, rfl⟩
/-! ## The request envelope of the HTTP adapter -/

/-- C11: in the HTTP adapter every operation marshals the envelope with version
"2.0", id 1, its own params and the method the catalog fixes for it, and posts
the marshalled body to the base URL followed by "/jsonrpc": for every HTTP
stack, a failure of marshalling that envelope, of posting its body to that URL,
or of decoding the reply to that post is the error the operation returns. -/
theorem http_request_envelope (c : HTTPClient) (js : EnvelopeCodec) (ctx : Option Context)
    (op : Operation) (err : GoError)
    (h : (∃ e, js.Marshal op.envelope = .error e ∧
            err = .wrapf "failed to marshal request: " e) ∨
         (∃ body e, js.Marshal op.envelope = .ok body ∧
            c.HTTP.Post (c.BaseURL ++ "/jsonrpc") "application/json" body = .error e ∧
            err = .wrapf "http request failed: " e) ∨
         (∃ body reply e, js.Marshal op.envelope = .ok body ∧
            c.HTTP.Post (c.BaseURL ++ "/jsonrpc") "application/json" body = .ok reply ∧
            js.Decode reply = .error e ∧ err = .wrapf "failed to decode response: " e)) :
    op.httpFailsWith c js ctx err ∧
    op.envelope.JSONRPC = "2.0" ∧ op.envelope.ID = 1 ∧
    op.envelope.Method =
      (match op with
        | .Ping => "ping"
        | .ValidateConfig _ => "validate_config"
        | .LoadConfig _ => "load_config"
        | .GetMetadata => "get_metadata"
        | .CreateDataSource _ _ => "datasource.create"
        | .QueryDataSource _ _ => "datasource.query"
        | .ExecuteDataSource _ _ => "datasource.execute"
        | .InsertDataSource _ _ => "datasource.insert"
        | .PingDataSource _ => "datasource.ping"
        | .CloseDataSource _ => "datasource.close"
        | .CreateLLM _ _ => "llm.create"
        | .GenerateLLM _ _ => "llm.generate"
        | .ChatLLM _ _ => "llm.chat"
        | .EmbeddingLLM _ _ => "llm.embedding"
        | .PingLLM _ => "llm.ping"
        | .CloseLLM _ => "llm.close") := by
  have hx : c.exchange js op.method op.params = .error err := by
    unfold Operation.envelope at h
    rcases h with ⟨e, h1, rfl⟩ | ⟨body, e, h1, h2, rfl⟩ | ⟨body, reply, e, h1, h2, h3, rfl⟩
    · simp only [HTTPClient.exchange, h1]
    · simp only [HTTPClient.exchange, h1, h2]
    · simp only [HTTPClient.exchange, h1, h2, h3]
  have key : ∀ {σ : Type} (um : JSON → σ → σ × Option GoError) (r : σ),
      c.callJSONRPC js op.method op.params um r = (r, some err) := by
    intro σ um r
    simp only [HTTPClient.callJSONRPC, hx]
  refine ⟨?_, rfl, rfl, ?_⟩
  · cases op <;>
      simp only [Operation.httpFailsWith, HTTPClient.Ping, HTTPClient.ValidateConfig,
        HTTPClient.LoadConfig, HTTPClient.GetMetadata, HTTPClient.CreateDataSource,
        HTTPClient.QueryDataSource, HTTPClient.ExecuteDataSource, HTTPClient.InsertDataSource,
        HTTPClient.PingDataSource, HTTPClient.CloseDataSource, HTTPClient.CreateLLM,
        HTTPClient.GenerateLLM, HTTPClient.ChatLLM, HTTPClient.EmbeddingLLM, HTTPClient.PingLLM,
        HTTPClient.CloseLLM, Operation.method, Operation.params] at key ⊢ <;>
      rw [key]
  · cases op <;> rfl

/-- C11, at `ChatLLM` on a stack that reports the envelope it is asked to
marshal: version "2.0", method "llm.chat", id 1. -/
theorem http_request_envelope_witness :
    reportingStack.1.ChatLLM reportingStack.2 (some Context.Background) "assistant" chatExample =
      (none, some (.wrapf "failed to marshal request: " (.foreign "2.0 llm.chat 1"))) :=
  (http_request_envelope reportingStack.1 reportingStack.2 (some Context.Background)
    (.ChatLLM "assistant" chatExample)
    (.wrapf "failed to marshal request: " (.foreign "2.0 llm.chat 1"))
    (Or.inl ⟨.foreign "2.0 llm.chat 1", rfl, rfl⟩)).1

/-! ## Metadata, `Close` and the native boundary -/

/-- What `callFFI` yields when the library does not export the symbol: no
error, the response untouched. -/
theorem callFFI_unresolved {Req Resp : Type} (c : FFIClient) (ld : Loader)
    (codec : Codec Req Resp) (symbol : String) (req : Req) (resp : Resp) (reqBytes : Bytes)
    (hm : codec.Marshal req = .ok reqBytes) (hs : ld.dlsym c.handle symbol = none) :
    (c.callFFI ld codec (call_proto ld symbol) req resp).outcome = .ok (none, resp) := by
  simp only [FFIClient.callFFI, hm, call_proto, hs]
  rfl

/-- C12: in the gRPC and the FFI adapter, when the transport call succeeds,
`GetMetadata` returns a nil response and an error if the metadata sub-object of
the response is absent, and otherwise no error and the response with the name,
the version and the description of the sub-object. -/
theorem getMetadata_requires_metadata (g : GRPCClient) (ctx : Option Context)
    (f : FFIClient) (ld : Loader) (codec : Codec pb.GetMetadataRequest pb.GetMetadataResponse)
    (respG respF : pb.GetMetadataResponse)
    (hg : g.service.GetMetadata (callContext g ctx) {} = .ok respG)
    (hf : (f.callFFI ld codec (call_proto ld "get_metadata_proto") {}
        ({ Metadata := none } : pb.GetMetadataResponse)).outcome = .ok (none, respF)) :
    (respG.Metadata = none →
      g.GetMetadata ctx = (none, some (.errorf "metadata is nil in response"))) ∧
    (∀ m, respG.Metadata = some m →
      g.GetMetadata ctx =
        (some { Name := m.Name, Version := m.Version, Description := m.Description }, none)) ∧
    (respF.Metadata = none →
      (f.GetMetadata ld codec ctx).outcome =
        .ok (none, some (.errorf "metadata is nil in response"))) ∧
    (∀ m, respF.Metadata = some m →
      (f.GetMetadata ld codec ctx).outcome =
        .ok (some { Name := m.Name, Version := m.Version, Description := m.Description },
          none)) := by
  unfold callContext at hg
  refine ⟨?_, ?_, ?_, ?_⟩
  · intro h
    simp only [GRPCClient.GetMetadata, hg, h]
  · intro m h
    simp only [GRPCClient.GetMetadata, hg, h]
  · intro h
    simp only [FFIClient.GetMetadata, hf, h]
  · intro m h
    simp only [FFIClient.GetMetadata, hf, h]

/-- C12, at the accepting stub, whose response carries the metadata, and at a
library without the symbol, which leaves the response without metadata. -/
theorem getMetadata_requires_metadata_witness :
    acceptingClient.GetMetadata none =
      (some { Name := "demo", Version := "1.0", Description := "" }, none) ∧
    (loadedClient.GetMetadata emptyLibrary fixedCodec none).outcome =
      .ok (none, some (.errorf "metadata is nil in response")) :=
  have h := getMetadata_requires_metadata acceptingClient none loadedClient emptyLibrary
    fixedCodec { Metadata := some { Name := "demo", Version := "1.0", Description := "" } }
    { Metadata := none } rfl rfl
  ⟨h.2.1 _ rfl, h.2.2.1 rfl⟩

/-- C13, the code at the failing input: on a reply without an error object
whose result is `null` or absent, the HTTP adapter's `GetMetadata` returns the
zero-valued `MetadataResponse` and no error, where the gRPC adapter returns
the error "metadata is nil in response" for a response without metadata. -/
theorem http_getMetadata_null_result :
    nullResultReply.Error = none ∧ nullResultReply.Result = none ∧
    (answering nullResultReply).1.GetMetadata (answering nullResultReply).2
        (some Context.Background) =
      (some { Name := "", Version := "", Description := "" }, none) ∧
    noMetadataClient.GetMetadata (some Context.Background) =
      (none, some (.errorf "metadata is nil in response")) :=
  ⟨rfl, rfl, rfl, rfl⟩

/-- C14, the code at the failing input: the first `Close` of a connected gRPC
adapter returns no error and leaves `conn` non-nil, so the second `Close`
calls `conn.Close()` again and returns its error; the FFI adapter, whose
`Close` clears the handle, and the HTTP adapter return no error both times. -/
theorem grpc_close_twice :
    acceptingClient.Close.2 = none ∧
    acceptingClient.Close.1.conn = some { closed := true } ∧
    acceptingClient.Close.1.Close.2 =
      some (.foreign "grpc: the client connection is closing") ∧
    loadedClient.Close = ({ loadedClient with handle := none }, [.dlclose 1], none) ∧
    loadedClient.Close.1.Close = ({ loadedClient with handle := none }, [], none) ∧
    (answering nullResultReply).1.Close.2 = none ∧
    (answering nullResultReply).1.Close.1.Close.2 = none :=
  ⟨rfl, rfl, rfl, rfl, rfl, rfl, rfl⟩

/-- C15: the FFI adapter's `Close` returns no error; with a non-null handle it
unloads the library once and leaves the handle null, and with a null handle it
unloads nothing and leaves the client as it is. -/
theorem ffi_close (c : FFIClient) :
    c.Close.2.2 = none ∧
    (∀ handle, c.handle = some handle →
      c.Close = ({ c with handle := none }, [.dlclose handle], none)) ∧
    (c.handle = none → c.Close = (c, [], none)) ∧
    c.Close.1.handle = none ∧
    c.Close.1.Close = (c.Close.1, [], none) := by
  unfold FFIClient.Close
  cases hh : c.handle with
  | none => simp [hh]
  | some handle => simp

/-- The pointer and the length `callFFI` computes are those of `nativeInput`. -/
theorem input_eq (reqBytes : Bytes) :
    (if reqBytes.length > 0 then ((some reqBytes, reqBytes.length) : Ptr × Nat) else (none, 0)) =
      nativeInput reqBytes := by
  cases reqBytes <;> simp [nativeInput]

/-- The events of `call_proto_buffer_free` hold no call of an entry point. -/
theorem free_no_invoke (ld : Loader) (handle : Option Handle) (buf : ProtoBuffer)
    (e : FFIEvent) (he : e ∈ call_proto_buffer_free ld handle buf) :
    ∀ s p n, e ≠ .invoke s p n := by
  intro s p n
  unfold call_proto_buffer_free at he
  split_ifs at he
  · simp only [List.append_eq, List.nil_append, List.mem_singleton] at he
    rw [he]; exact fun h => nomatch h
  · exact absurd he (List.not_mem_nil e)

/-- `callFFI` on a resolved symbol, in terms of the buffer the entry point
returns for the input of `nativeInput`. -/
theorem callFFI_resolved {Req Resp : Type} (c : FFIClient) (ld : Loader)
    (codec : Codec Req Resp) (symbol : String) (req : Req) (resp : Resp) (reqBytes : Bytes)
    (fn : EntryPoint)
    (hm : codec.Marshal req = .ok reqBytes) (hs : ld.dlsym c.handle symbol = some fn) :
    c.callFFI ld codec (call_proto ld symbol) req resp =
      let call : List FFIEvent :=
        [.invoke symbol (nativeInput reqBytes).1 (nativeInput reqBytes).2]
      let outputBuf := fn (nativeInput reqBytes).1 (nativeInput reqBytes).2
      match outputBuf.data with
      | none =>
        if outputBuf.len > 0 then
          ⟨call, .ok (some (.errorf "FFI call returned null pointer"), resp)⟩
        else
          ⟨call ++ call_proto_buffer_free ld c.handle outputBuf, .ok (none, resp)⟩
      | some data =>
        if outputBuf.len > 0 then
          match GoBytes data (toCInt outputBuf.len) with
          | .error p => ⟨call ++ [.goBytes outputBuf], .error p⟩
          | .ok respBytes =>
            let freed :=
              call ++ [.goBytes outputBuf] ++ call_proto_buffer_free ld c.handle outputBuf
            if respBytes.length > 0 then
              match codec.Unmarshal respBytes resp with
              | (resp, some err) =>
                ⟨freed ++ [.unmarshal respBytes],
                  .ok (some (.wrapf "failed to unmarshal response: " err), resp)⟩
              | (resp, none) => ⟨freed ++ [.unmarshal respBytes], .ok (none, resp)⟩
            else
              ⟨freed, .ok (none, resp)⟩
        else
          ⟨call ++ call_proto_buffer_free ld c.handle outputBuf, .ok (none, resp)⟩ := by
  simp only [FFIClient.callFFI, hm, input_eq, call_proto, hs]

/-- The first event of `callFFI` on a resolved symbol is the call of the entry
point, and no later event is one. -/
theorem callFFI_events {Req Resp : Type} (c : FFIClient) (ld : Loader)
    (codec : Codec Req Resp) (symbol : String) (req : Req) (resp : Resp) (reqBytes : Bytes)
    (fn : EntryPoint)
    (hm : codec.Marshal req = .ok reqBytes) (hs : ld.dlsym c.handle symbol = some fn) :
    ∃ rest, (c.callFFI ld codec (call_proto ld symbol) req resp).events =
        .invoke symbol (nativeInput reqBytes).1 (nativeInput reqBytes).2 :: rest ∧
      ∀ e ∈ rest, ∀ s p n, e ≠ .invoke s p n := by
  rw [callFFI_resolved c ld codec symbol req resp reqBytes fn hm hs]
  simp only
  have hfree := free_no_invoke ld c.handle (fn (nativeInput reqBytes).1 (nativeInput reqBytes).2)
  split
  · split_ifs
    · exact ⟨[], rfl, fun e he => absurd he (List.not_mem_nil e)⟩
    · exact ⟨_, rfl, hfree⟩
  · split_ifs
    · split
      · refine ⟨_, rfl, ?_⟩
        intro e he s p n
        simp only [List.append_eq, List.nil_append, List.mem_singleton] at he
        rw [he]; exact fun h => nomatch h
      · split_ifs
        · split
          all_goals
            refine ⟨_, rfl, ?_⟩
            intro e he s p n
            simp only [List.append_eq, List.cons_append, List.nil_append, List.mem_cons, List.mem_append,
              List.mem_singleton, List.not_mem_nil, or_false] at he
            rcases he with rfl | he | rfl
            · exact fun h => nomatch h
            · exact hfree e he s p n
            · exact fun h => nomatch h
        · refine ⟨_, rfl, ?_⟩
          intro e he s p n
          simp only [List.append_eq, List.cons_append, List.nil_append, List.mem_cons] at he
          rcases he with rfl | he
          · exact fun h => nomatch h
          · exact hfree e he s p n
    · exact ⟨_, rfl, hfree⟩

/-- Every operation of the FFI adapter whose request is built is one call of
`callFFI` on the operation's symbol: the events are those of the call, and an
error of the call is returned wrapped, with a nil response. -/
theorem ffi_view (c : FFIClient) (ld : Loader) (cs : Codecs) (ctx : Option Context)
    (op : Operation) (m : Except GoError Bytes) (hm : op.ffiMarshal cs = some m) :
    ∃ (Req Resp : Type) (codec : Codec Req Resp) (req : Req) (resp : Resp),
      codec.Marshal req = m ∧
      op.ffiEvents c ld cs ctx =
        (c.callFFI ld codec (call_proto ld op.symbol) req resp).events ∧
      ∀ err resp1,
        (c.callFFI ld codec (call_proto ld op.symbol) req resp).outcome = .ok (some err, resp1) →
        op.ffiFailsWith c ld cs ctx (.wrapf op.ffiWrap err) := by
  cases op with
  | Ping =>
    simp only [Operation.ffiMarshal, Option.some.injEq] at hm
    refine ⟨_, _, cs.Ping, {}, { Status := "", Version := "" }, hm, ?_, ?_⟩
    · show (c.Ping ld cs.Ping ctx).events = _
      unfold FFIClient.Ping
      simp only []
      split <;> rfl
    · intro err resp1 h
      show (c.Ping ld cs.Ping ctx).outcome = _
      unfold FFIClient.Ping
      simp only [Operation.symbol] at h
      simp only [h]
      rfl
  | ValidateConfig tomlContent =>
    simp only [Operation.ffiMarshal, Option.some.injEq] at hm
    refine ⟨_, _, cs.ValidateConfig, { TomlContent := tomlContent }, { Valid := false, Errors := [] }, hm, ?_, ?_⟩
    · show (c.ValidateConfig ld cs.ValidateConfig ctx tomlContent).events = _
      unfold FFIClient.ValidateConfig
      simp only []
      split <;> rfl
    · intro err resp1 h
      show (c.ValidateConfig ld cs.ValidateConfig ctx tomlContent).outcome = _
      unfold FFIClient.ValidateConfig
      simp only [Operation.symbol] at h
      simp only [h]
      rfl
  | LoadConfig configPath =>
    simp only [Operation.ffiMarshal, Option.some.injEq] at hm
    refine ⟨_, _, cs.LoadConfig, { ConfigPath := configPath }, { Success := false, OperatorName := "", Error := "" }, hm, ?_, ?_⟩
    · show (c.LoadConfig ld cs.LoadConfig ctx configPath).events = _
      unfold FFIClient.LoadConfig
      simp only []
      split <;> rfl
    · intro err resp1 h
      show (c.LoadConfig ld cs.LoadConfig ctx configPath).outcome = _
      unfold FFIClient.LoadConfig
      simp only [Operation.symbol] at h
      simp only [h]
      rfl
  | GetMetadata =>
    simp only [Operation.ffiMarshal, Option.some.injEq] at hm
    refine ⟨_, _, cs.GetMetadata, {}, { Metadata := none }, hm, ?_, ?_⟩
    · show (c.GetMetadata ld cs.GetMetadata ctx).events = _
      unfold FFIClient.GetMetadata
      simp only []
      split
      · rfl
      · rfl
      · split <;> rfl
    · intro err resp1 h
      show (c.GetMetadata ld cs.GetMetadata ctx).outcome = _
      unfold FFIClient.GetMetadata
      simp only [Operation.symbol] at h
      simp only [h]
      rfl
  | CreateDataSource name config =>
    simp only [Operation.ffiMarshal] at hm
    cases hreq : FFIClient.CreateDataSource.request name config with
    | error p => rw [hreq] at hm; exact absurd hm (by simp)
    | ok req =>
      rw [hreq] at hm
      simp only [Option.some.injEq] at hm
      refine ⟨_, _, cs.CreateDataSource, req, { Success := false, Error := "" }, hm, ?_, ?_⟩
      · show (c.CreateDataSource ld cs.CreateDataSource ctx name config).events = _
        unfold FFIClient.CreateDataSource
        simp only [hreq]
        split <;> rfl
      · intro err resp1 h
        show (c.CreateDataSource ld cs.CreateDataSource ctx name config).outcome = _
        unfold FFIClient.CreateDataSource
        simp only [Operation.symbol] at h
        simp only [hreq, h]
        rfl
  | QueryDataSource name query =>
    simp only [Operation.ffiMarshal, Option.some.injEq] at hm
    refine ⟨_, _, cs.QueryDataSource, { Name := name, Query := query }, { Success := false, Rows := [], Error := "" }, hm, ?_, ?_⟩
    · show (c.QueryDataSource ld cs.QueryDataSource ctx name query).events = _
      unfold FFIClient.QueryDataSource
      simp only []
      split <;> rfl
    · intro err resp1 h
      show (c.QueryDataSource ld cs.QueryDataSource ctx name query).outcome = _
      unfold FFIClient.QueryDataSource
      simp only [Operation.symbol] at h
      simp only [h]
      rfl
  | ExecuteDataSource name query =>
    simp only [Operation.ffiMarshal, Option.some.injEq] at hm
    refine ⟨_, _, cs.ExecuteDataSource, { Name := name, Query := query }, { Success := false, Error := "" }, hm, ?_, ?_⟩
    · show (c.ExecuteDataSource ld cs.ExecuteDataSource ctx name query).events = _
      unfold FFIClient.ExecuteDataSource
      simp only []
      split <;> rfl
    · intro err resp1 h
      show (c.ExecuteDataSource ld cs.ExecuteDataSource ctx name query).outcome = _
      unfold FFIClient.ExecuteDataSource
      simp only [Operation.symbol] at h
      simp only [h]
      rfl
  | InsertDataSource name data =>
    simp only [Operation.ffiMarshal, Option.some.injEq] at hm
    refine ⟨_, _, cs.InsertDataSource, FFIClient.InsertDataSource.request name data, { Success := false, Error := "" }, hm, ?_, ?_⟩
    · show (c.InsertDataSource ld cs.InsertDataSource ctx name data).events = _
      unfold FFIClient.InsertDataSource
      simp only []
      split <;> rfl
    · intro err resp1 h
      show (c.InsertDataSource ld cs.InsertDataSource ctx name data).outcome = _
      unfold FFIClient.InsertDataSource
      simp only [Operation.symbol] at h
      simp only [h]
      rfl
  | PingDataSource name =>
    simp only [Operation.ffiMarshal, Option.some.injEq] at hm
    refine ⟨_, _, cs.PingDataSource, { Name := name }, { Healthy := false, Error := "" }, hm, ?_, ?_⟩
    · show (c.PingDataSource ld cs.PingDataSource ctx name).events = _
      unfold FFIClient.PingDataSource
      simp only []
      split <;> rfl
    · intro err resp1 h
      show (c.PingDataSource ld cs.PingDataSource ctx name).outcome = _
      unfold FFIClient.PingDataSource
      simp only [Operation.symbol] at h
      simp only [h]
      rfl
  | CloseDataSource name =>
    simp only [Operation.ffiMarshal, Option.some.injEq] at hm
    refine ⟨_, _, cs.CloseDataSource, { Name := name }, { Success := false, Error := "" }, hm, ?_, ?_⟩
    · show (c.CloseDataSource ld cs.CloseDataSource ctx name).events = _
      unfold FFIClient.CloseDataSource
      simp only []
      split <;> rfl
    · intro err resp1 h
      show (c.CloseDataSource ld cs.CloseDataSource ctx name).outcome = _
      unfold FFIClient.CloseDataSource
      simp only [Operation.symbol] at h
      simp only [h]
      rfl
  | CreateLLM name config =>
    simp only [Operation.ffiMarshal, Option.some.injEq] at hm
    refine ⟨_, _, cs.CreateLLM, FFIClient.CreateLLM.request name config, { Success := false, Error := "" }, hm, ?_, ?_⟩
    · show (c.CreateLLM ld cs.CreateLLM ctx name config).events = _
      unfold FFIClient.CreateLLM
      simp only []
      split <;> rfl
    · intro err resp1 h
      show (c.CreateLLM ld cs.CreateLLM ctx name config).outcome = _
      unfold FFIClient.CreateLLM
      simp only [Operation.symbol] at h
      simp only [h]
      rfl
  | GenerateLLM name prompt =>
    simp only [Operation.ffiMarshal, Option.some.injEq] at hm
    refine ⟨_, _, cs.GenerateLLM, { Name := name, Prompt := prompt }, { Success := false, Text := "", Error := "" }, hm, ?_, ?_⟩
    · show (c.GenerateLLM ld cs.GenerateLLM ctx name prompt).events = _
      unfold FFIClient.GenerateLLM
      simp only []
      split <;> rfl
    · intro err resp1 h
      show (c.GenerateLLM ld cs.GenerateLLM ctx name prompt).outcome = _
      unfold FFIClient.GenerateLLM
      simp only [Operation.symbol] at h
      simp only [h]
      rfl
  | ChatLLM name messages =>
    simp only [Operation.ffiMarshal, Option.some.injEq] at hm
    refine ⟨_, _, cs.ChatLLM, FFIClient.ChatLLM.request name messages, { Success := false, Text := "", Error := "" }, hm, ?_, ?_⟩
    · show (c.ChatLLM ld cs.ChatLLM ctx name messages).events = _
      unfold FFIClient.ChatLLM
      simp only []
      split <;> rfl
    · intro err resp1 h
      show (c.ChatLLM ld cs.ChatLLM ctx name messages).outcome = _
      unfold FFIClient.ChatLLM
      simp only [Operation.symbol] at h
      simp only [h]
      rfl
  | EmbeddingLLM name text =>
    simp only [Operation.ffiMarshal, Option.some.injEq] at hm
    refine ⟨_, _, cs.EmbeddingLLM, { Name := name, Text := text }, { Success := false, Embedding := [], Error := "" }, hm, ?_, ?_⟩
    · show (c.EmbeddingLLM ld cs.EmbeddingLLM ctx name text).events = _
      unfold FFIClient.EmbeddingLLM
      simp only []
      split <;> rfl
    · intro err resp1 h
      show (c.EmbeddingLLM ld cs.EmbeddingLLM ctx name text).outcome = _
      unfold FFIClient.EmbeddingLLM
      simp only [Operation.symbol] at h
      simp only [h]
      rfl
  | PingLLM name =>
    simp only [Operation.ffiMarshal, Option.some.injEq] at hm
    refine ⟨_, _, cs.PingLLM, { Name := name }, { Healthy := false, Error := "" }, hm, ?_, ?_⟩
    · show (c.PingLLM ld cs.PingLLM ctx name).events = _
      unfold FFIClient.PingLLM
      simp only []
      split <;> rfl
    · intro err resp1 h
      show (c.PingLLM ld cs.PingLLM ctx name).outcome = _
      unfold FFIClient.PingLLM
      simp only [Operation.symbol] at h
      simp only [h]
      rfl
  | CloseLLM name =>
    simp only [Operation.ffiMarshal, Option.some.injEq] at hm
    refine ⟨_, _, cs.CloseLLM, { Name := name }, { Success := false, Error := "" }, hm, ?_, ?_⟩
    · show (c.CloseLLM ld cs.CloseLLM ctx name).events = _
      unfold FFIClient.CloseLLM
      simp only []
      split <;> rfl
    · intro err resp1 h
      show (c.CloseLLM ld cs.CloseLLM ctx name).outcome = _
      unfold FFIClient.CloseLLM
      simp only [Operation.symbol] at h
      simp only [h]
      rfl

/-- The pointer and the length of `nativeInput`, case by case. -/
theorem nativeInput_spec (reqBytes : Bytes) :
    (reqBytes.length = 0 → (nativeInput reqBytes).1 = none ∧ (nativeInput reqBytes).2 = 0) ∧
    (0 < reqBytes.length →
      (nativeInput reqBytes).1 = some reqBytes ∧ (nativeInput reqBytes).2 = reqBytes.length) ∧
    ((nativeInput reqBytes).1 ≠ none → (nativeInput reqBytes).2 ≠ 0) := by
  cases reqBytes with
  | nil => simp [nativeInput]
  | cons b bs => simp [nativeInput]

/-- C16: when the request serializes and the library exports the symbol,
`callFFI` calls the entry point once, with the null pointer and the length 0
if the serialized request has no bytes, and else with the address of its first
byte and the number of its bytes; it never passes a non-null pointer with the
length 0.  The same holds of each of the sixteen operations of the adapter. -/
theorem callFFI_native_input {Req Resp : Type} (c : FFIClient) (ld : Loader)
    (codec : Codec Req Resp) (symbol : String) (req : Req) (resp : Resp) (reqBytes : Bytes)
    (fn : EntryPoint)
    (hm : codec.Marshal req = .ok reqBytes) (hs : ld.dlsym c.handle symbol = some fn) :
    (∃ p n rest,
      (c.callFFI ld codec (call_proto ld symbol) req resp).events = .invoke symbol p n :: rest ∧
      (∀ e ∈ rest, ∀ s q k, e ≠ .invoke s q k) ∧
      (reqBytes.length = 0 → p = none ∧ n = 0) ∧
      (0 < reqBytes.length → p = some reqBytes ∧ n = reqBytes.length) ∧
      (p ≠ none → n ≠ 0)) ∧
    ∀ (cs : Codecs) (ctx : Option Context) (op : Operation) (opBytes : Bytes)
      (opFn : EntryPoint),
      op.ffiMarshal cs = some (.ok opBytes) → ld.dlsym c.handle op.symbol = some opFn →
      ∃ p n rest,
        op.ffiEvents c ld cs ctx = .invoke op.symbol p n :: rest ∧
        (∀ e ∈ rest, ∀ s q k, e ≠ .invoke s q k) ∧
        (opBytes.length = 0 → p = none ∧ n = 0) ∧
        (0 < opBytes.length → p = some opBytes ∧ n = opBytes.length) ∧
        (p ≠ none → n ≠ 0) := by
  constructor
  · obtain ⟨rest, hev, hno⟩ := callFFI_events c ld codec symbol req resp reqBytes fn hm hs
    obtain ⟨h0, h1, h2⟩ := nativeInput_spec reqBytes
    exact ⟨_, _, rest, hev, hno, h0, h1, h2⟩
  · intro cs ctx op opBytes opFn hom hos
    obtain ⟨Rq, Rs, cd, rq, rs, hcm, hev, _⟩ := ffi_view c ld cs ctx op _ hom
    obtain ⟨rest, hev2, hno⟩ := callFFI_events c ld cd op.symbol rq rs opBytes opFn hcm hos
    obtain ⟨h0, h1, h2⟩ := nativeInput_spec opBytes
    exact ⟨_, _, rest, hev.trans hev2, hno, h0, h1, h2⟩

/-- C16 at a library that returns no bytes: `Ping` with a request of no bytes
passes NULL and 0, and `callFFI` with a request of three bytes passes their
address and 3. -/
theorem callFFI_native_input_witness :
    (∃ p n rest,
      (loadedClient.callFFI (libraryReturning ⟨none, 0⟩ true)
        (fixedCodec : Codec pb.PingRequest pb.PingResponse)
        (call_proto (libraryReturning ⟨none, 0⟩ true) "ping_proto") {}
        { Status := "", Version := "" }).events = .invoke "ping_proto" p n :: rest ∧
      (∀ e ∈ rest, ∀ s q k, e ≠ .invoke s q k) ∧
      (([1, 2, 3] : Bytes).length = 0 → p = none ∧ n = 0) ∧
      (0 < ([1, 2, 3] : Bytes).length → p = some [1, 2, 3] ∧ n = ([1, 2, 3] : Bytes).length) ∧
      (p ≠ none → n ≠ 0)) ∧
    ∃ p n rest,
      Operation.Ping.ffiEvents loadedClient (libraryReturning ⟨none, 0⟩ true) emptyCodecs none =
        .invoke Operation.Ping.symbol p n :: rest ∧
      (∀ e ∈ rest, ∀ s q k, e ≠ .invoke s q k) ∧
      (([] : Bytes).length = 0 → p = none ∧ n = 0) ∧
      (0 < ([] : Bytes).length → p = some [] ∧ n = ([] : Bytes).length) ∧
      (p ≠ none → n ≠ 0) :=
  let h := callFFI_native_input loadedClient (libraryReturning ⟨none, 0⟩ true)
    (fixedCodec : Codec pb.PingRequest pb.PingResponse) "ping_proto" {}
    { Status := "", Version := "" } [1, 2, 3] (fun _ _ => ⟨none, 0⟩) rfl rfl
  ⟨h.1, h.2 emptyCodecs none .Ping [] (fun _ _ => ⟨none, 0⟩) rfl rfl⟩

/-- C17: when the entry point returns a buffer whose data pointer is null and
whose length is positive, `callFFI` returns the error "FFI call returned null
pointer" after the call of the entry point alone (no byte is copied, nothing is
released, nothing is decoded) and leaves the response as it was; so each of the
sixteen operations returns a nil response and that error, wrapped. -/
theorem callFFI_null_data {Req Resp : Type} (c : FFIClient) (ld : Loader)
    (codec : Codec Req Resp) (symbol : String) (req : Req) (resp : Resp) (reqBytes : Bytes)
    (fn : EntryPoint)
    (hm : codec.Marshal req = .ok reqBytes) (hs : ld.dlsym c.handle symbol = some fn)
    (hd : (fn (nativeInput reqBytes).1 (nativeInput reqBytes).2).data = none)
    (hl : 0 < (fn (nativeInput reqBytes).1 (nativeInput reqBytes).2).len) :
    ((c.callFFI ld codec (call_proto ld symbol) req resp).events =
        [.invoke symbol (nativeInput reqBytes).1 (nativeInput reqBytes).2] ∧
      (c.callFFI ld codec (call_proto ld symbol) req resp).outcome =
        .ok (some (.errorf "FFI call returned null pointer"), resp)) ∧
    ∀ (cs : Codecs) (ctx : Option Context) (op : Operation) (opBytes : Bytes)
      (opFn : EntryPoint),
      op.ffiMarshal cs = some (.ok opBytes) → ld.dlsym c.handle op.symbol = some opFn →
      (opFn (nativeInput opBytes).1 (nativeInput opBytes).2).data = none →
      0 < (opFn (nativeInput opBytes).1 (nativeInput opBytes).2).len →
      op.ffiEvents c ld cs ctx =
          [.invoke op.symbol (nativeInput opBytes).1 (nativeInput opBytes).2] ∧
        op.ffiFailsWith c ld cs ctx
          (.wrapf op.ffiWrap (.errorf "FFI call returned null pointer")) := by
  have key : ∀ {Rq Rs : Type} (cd : Codec Rq Rs) (sym : String) (rq : Rq) (rs : Rs)
      (bs : Bytes) (f : EntryPoint), cd.Marshal rq = .ok bs →
      ld.dlsym c.handle sym = some f →
      (f (nativeInput bs).1 (nativeInput bs).2).data = none →
      0 < (f (nativeInput bs).1 (nativeInput bs).2).len →
      (c.callFFI ld cd (call_proto ld sym) rq rs).events =
          [.invoke sym (nativeInput bs).1 (nativeInput bs).2] ∧
        (c.callFFI ld cd (call_proto ld sym) rq rs).outcome =
          .ok (some (.errorf "FFI call returned null pointer"), rs) := by
    intro Rq Rs cd sym rq rs bs f h1 h2 h3 h4
    rw [callFFI_resolved c ld cd sym rq rs bs f h1 h2]
    simp only [h3, gt_iff_lt, h4, if_true]
    exact ⟨trivial, trivial⟩
  refine ⟨key codec symbol req resp reqBytes fn hm hs hd hl, ?_⟩
  intro cs ctx op opBytes opFn hom hos hod hol
  obtain ⟨Rq, Rs, cd, rq, rs, hcm, hev, hfail⟩ := ffi_view c ld cs ctx op _ hom
  obtain ⟨h1, h2⟩ := key cd op.symbol rq rs opBytes opFn hcm hos hod hol
  exact ⟨hev.trans h1, hfail _ _ h2⟩

/-- C17 at a library whose entry points return a null pointer with the length
8: `callFFI` and `QueryDataSource` stop after the call with the error. -/
theorem callFFI_null_data_witness :
    ((loadedClient.callFFI (libraryReturning ⟨none, 8⟩ true)
          (fixedCodec : Codec pb.PingRequest pb.PingResponse)
          (call_proto (libraryReturning ⟨none, 8⟩ true) "ping_proto") {}
          { Status := "", Version := "" }).events =
        [.invoke "ping_proto" (some [1, 2, 3]) 3] ∧
      (loadedClient.callFFI (libraryReturning ⟨none, 8⟩ true)
          (fixedCodec : Codec pb.PingRequest pb.PingResponse)
          (call_proto (libraryReturning ⟨none, 8⟩ true) "ping_proto") {}
          { Status := "", Version := "" }).outcome =
        .ok (some (.errorf "FFI call returned null pointer"), { Status := "", Version := "" })) ∧
    (loadedClient.QueryDataSource (libraryReturning ⟨none, 8⟩ true) fixedCodec none
        "db" "SELECT 1").events = [.invoke "datasource_query_proto" (some [1, 2, 3]) 3] ∧
    (loadedClient.QueryDataSource (libraryReturning ⟨none, 8⟩ true) fixedCodec none
        "db" "SELECT 1").outcome =
      .ok (none, some (.wrapf "datasource query failed: "
        (.errorf "FFI call returned null pointer"))) :=
  let h := callFFI_null_data loadedClient (libraryReturning ⟨none, 8⟩ true)
    (fixedCodec : Codec pb.PingRequest pb.PingResponse) "ping_proto" {}
    { Status := "", Version := "" } [1, 2, 3] (fun _ _ => ⟨none, 8⟩) rfl rfl rfl (by decide)
  ⟨h.1, h.2 fixedCodecs none (.QueryDataSource "db" "SELECT 1") [1, 2, 3]
    (fun _ _ => ⟨none, 8⟩) rfl rfl rfl (by decide)⟩

/-- The conversion `C.int` keeps a length below 2^31. -/
theorem toCInt_small (n : Nat) (h : n < 2 ^ 31) : toCInt n = (n : Int) := by
  have h2 : n % 2 ^ 32 = n := Nat.mod_eq_of_lt (by omega)
  unfold toCInt
  rw [h2, if_pos h]

/-- `C.GoBytes` on a length below 2^31 copies that many bytes. -/
theorem GoBytes_small (data : Bytes) (n : Nat) (h : n < 2 ^ 31) :
    GoBytes data (toCInt n) = .ok (data.take n) := by
  rw [toCInt_small n h]
  unfold GoBytes
  rw [if_neg (by omega)]
  rfl

/-- C18, amended: when the entry point returns a buffer with a non-null data
pointer and a positive length below 2^31, and the library exports
`proto_buffer_free`, `callFFI` calls the entry point, copies the bytes,
releases the buffer once, and only then decodes the copy if it has bytes;
this is so whether decoding succeeds or fails, and a decoding error is
returned wrapped. -/
theorem callFFI_releases_buffer {Req Resp : Type} (c : FFIClient) (ld : Loader)
    (codec : Codec Req Resp) (symbol : String) (req : Req) (resp : Resp) (reqBytes : Bytes)
    (fn : EntryPoint) (data : Bytes)
    (hm : codec.Marshal req = .ok reqBytes) (hs : ld.dlsym c.handle symbol = some fn)
    (hd : (fn (nativeInput reqBytes).1 (nativeInput reqBytes).2).data = some data)
    (hl : 0 < (fn (nativeInput reqBytes).1 (nativeInput reqBytes).2).len)
    (hc : (fn (nativeInput reqBytes).1 (nativeInput reqBytes).2).len < 2 ^ 31)
    (hf : ld.dlsymFree c.handle = true) :
    (c.callFFI ld codec (call_proto ld symbol) req resp).events =
        [.invoke symbol (nativeInput reqBytes).1 (nativeInput reqBytes).2,
          .goBytes (fn (nativeInput reqBytes).1 (nativeInput reqBytes).2),
          .bufferFree (fn (nativeInput reqBytes).1 (nativeInput reqBytes).2)] ++
        (if 0 < (data.take (fn (nativeInput reqBytes).1 (nativeInput reqBytes).2).len).length
          then [.unmarshal (data.take (fn (nativeInput reqBytes).1 (nativeInput reqBytes).2).len)]
          else []) ∧
    ∀ err,
      0 < (data.take (fn (nativeInput reqBytes).1 (nativeInput reqBytes).2).len).length →
      (codec.Unmarshal
        (data.take (fn (nativeInput reqBytes).1 (nativeInput reqBytes).2).len) resp).2 =
        some err →
      (c.callFFI ld codec (call_proto ld symbol) req resp).outcome =
        .ok (some (.wrapf "failed to unmarshal response: " err),
          (codec.Unmarshal
            (data.take (fn (nativeInput reqBytes).1 (nativeInput reqBytes).2).len) resp).1) := by
  rw [callFFI_resolved c ld codec symbol req resp reqBytes fn hm hs]
  simp only [hd, gt_iff_lt, hl, if_true, GoBytes_small data _ hc, call_proto_buffer_free, hf]
  constructor
  · split_ifs with hb
    · split <;> rfl
    · rfl
  · intro err hb he
    rw [if_pos hb]
    split
    · rename_i r e heq
      rw [heq] at he ⊢
      simp only [Option.some.injEq] at he
      rw [he]
    · rename_i r heq
      rw [heq] at he
      exact absurd he (by simp)

/-- C18 at a library that returns two bytes and exports `proto_buffer_free`,
with a decoder that fails: the buffer is released once, between the copy and
the decoding, and the decoding error is returned. -/
theorem callFFI_releases_buffer_witness :
    (loadedClient.callFFI (libraryReturning ⟨some [7, 8], 2⟩ true)
        (failingCodec : Codec pb.PingRequest pb.PingResponse)
        (call_proto (libraryReturning ⟨some [7, 8], 2⟩ true) "ping_proto") {}
        { Status := "", Version := "" }).events =
      [.invoke "ping_proto" (some [1, 2, 3]) 3, .goBytes ⟨some [7, 8], 2⟩,
        .bufferFree ⟨some [7, 8], 2⟩, .unmarshal [7, 8]] ∧
    (loadedClient.callFFI (libraryReturning ⟨some [7, 8], 2⟩ true)
        (failingCodec : Codec pb.PingRequest pb.PingResponse)
        (call_proto (libraryReturning ⟨some [7, 8], 2⟩ true) "ping_proto") {}
        { Status := "", Version := "" }).outcome =
      .ok (some (.wrapf "failed to unmarshal response: "
          (.foreign "proto: cannot parse invalid wire-format data")),
        { Status := "", Version := "" }) :=
  let h := callFFI_releases_buffer loadedClient (libraryReturning ⟨some [7, 8], 2⟩ true)
    (failingCodec : Codec pb.PingRequest pb.PingResponse) "ping_proto" {}
    { Status := "", Version := "" } [1, 2, 3] (fun _ _ => ⟨some [7, 8], 2⟩) [7, 8]
    rfl rfl rfl (by decide) (by decide) rfl
  ⟨h.1, h.2 (.foreign "proto: cannot parse invalid wire-format data") (by decide) rfl⟩

/-- C18 fails at two inputs.  A library that does not export
`proto_buffer_free` returns two bytes: `callFFI` copies and decodes them and
releases nothing.  A library that exports it returns a buffer of 2^31 bytes:
the length converts to a negative `C.int`, `C.GoBytes` panics, and `callFFI`
ends without releasing the buffer. -/
theorem callFFI_buffer_not_released :
    ((libraryReturning ⟨some [7, 8], 2⟩ false).dlsymFree loadedClient.handle = false ∧
      (loadedClient.callFFI (libraryReturning ⟨some [7, 8], 2⟩ false)
          (fixedCodec : Codec pb.PingRequest pb.PingResponse)
          (call_proto (libraryReturning ⟨some [7, 8], 2⟩ false) "ping_proto") {}
          { Status := "", Version := "" }).events =
        [.invoke "ping_proto" (some [1, 2, 3]) 3, .goBytes ⟨some [7, 8], 2⟩,
          .unmarshal [7, 8]]) ∧
    hugeBuffer.data ≠ none ∧ 0 < hugeBuffer.len ∧
    (libraryReturning hugeBuffer true).dlsymFree loadedClient.handle = true ∧
    (loadedClient.callFFI (libraryReturning hugeBuffer true)
        (fixedCodec : Codec pb.PingRequest pb.PingResponse)
        (call_proto (libraryReturning hugeBuffer true) "ping_proto") {}
        { Status := "", Version := "" }).events =
      [.invoke "ping_proto" (some [1, 2, 3]) 3, .goBytes hugeBuffer] ∧
    (loadedClient.callFFI (libraryReturning hugeBuffer true)
        (fixedCodec : Codec pb.PingRequest pb.PingResponse)
        (call_proto (libraryReturning hugeBuffer true) "ping_proto") {}
        { Status := "", Version := "" }).outcome =
      .error ⟨"gobytes: length out of range"⟩ := by
  have hneg : toCInt (2 ^ 31) < 0 := by
    unfold toCInt
    norm_num
  have hcall := callFFI_resolved loadedClient (libraryReturning hugeBuffer true)
    (fixedCodec : Codec pb.PingRequest pb.PingResponse) "ping_proto" {}
    { Status := "", Version := "" } [1, 2, 3] (fun _ _ => hugeBuffer) rfl rfl
  refine ⟨⟨rfl, rfl⟩, Option.some_ne_none _, by decide, rfl, ?_⟩
  rw [hcall]
  have hlen : hugeBuffer.len = 2 ^ 31 := rfl
  have hdata : hugeBuffer.data = some (List.replicate (2 ^ 31) 0) := rfl
  simp only [hdata, hlen, GoBytes, hneg, if_true]
  simp [nativeInput]

/-- What a loop that stores `f val` under every key leaves under each key, for
a duplicate-free entry list. -/
theorem lookup_foldl_insert {β γ : Type} (f : β → γ) (l : List (Sigma fun _ : String => β))
    (hl : l.NodupKeys) (acc : AList (fun _ : String => γ)) (k : String) :
    (l.foldl (fun r a => r.insert a.1 (f a.2)) acc).lookup k =
      match l.dlookup k with
      | some v => some (f v)
      | none => acc.lookup k := by
  induction l generalizing acc with
  | nil => simp
  | cons a l ih =>
    obtain ⟨ka, va⟩ := a
    rw [List.nodupKeys_cons] at hl
    rw [List.foldl_cons, ih hl.2]
    by_cases hkk : k = ka
    · subst hkk
      have : List.dlookup k l = none := by
        rw [List.dlookup_eq_none]; exact hl.1
      rw [this, List.dlookup_cons_eq, AList.lookup_insert]
    · rw [List.dlookup_cons_ne _ _ hkk]
      cases hlk : List.dlookup k l with
      | some v => rfl
      | none =>
        simp only
        rw [AList.lookup_insert_ne hkk]

/-- A loop that stores `f val` under every key of a map, started on the empty
map, leaves `f` of the map's value under each key. -/
theorem lookup_foldl_insert_empty {β γ : Type} (f : β → γ)
    (m : AList (fun _ : String => β)) (k : String) :
    (m.foldl (fun (r : AList (fun _ : String => γ)) key val => r.insert key (f val)) ∅).lookup k =
      (m.lookup k).map f := by
  have h := lookup_foldl_insert f m.entries m.nodupKeys ∅ k
  unfold AList.foldl
  rw [h]
  show _ = (List.dlookup k m.entries).map f
  cases List.dlookup k m.entries with
  | some v => rfl
  | none => rfl

/-- A loop that appends `g x` for every `x` of a list yields the list mapped. -/
theorem foldl_append_map {α β : Type} (g : α → β) (l : List α) (acc : List β) :
    l.foldl (fun rows x => rows ++ [g x]) acc = acc ++ l.map g := by
  induction l generalizing acc with
  | nil => simp
  | cons x l ih => rw [List.foldl_cons, ih, List.map_cons, List.append_assoc]; rfl

/-- A key is in a map exactly when its lookup is not `none`. -/
theorem mem_iff_lookup_map {β γ : Type} (f : β → γ) (m : AList (fun _ : String => β))
    (m2 : AList (fun _ : String => γ)) (k : String)
    (h : m2.lookup k = (m.lookup k).map f) : k ∈ m2 ↔ k ∈ m := by
  rw [← AList.lookup_isSome, ← AList.lookup_isSome, h]
  cases m.lookup k <;> rfl

/-- C19: in the gRPC and the FFI adapter, the request `InsertDataSource` builds
for a data map has the empty table name and a row whose columns are the keys of
the data map, each holding the string variant with the `%v` text of the data
value; no column holds another variant. -/
theorem insertDataSource_request (name : String) (data : Config) :
    ((GRPCClient.InsertDataSource.request name data).Name = name ∧
      (GRPCClient.InsertDataSource.request name data).Table = "" ∧
      (∀ k, (GRPCClient.InsertDataSource.request name data).Data.Columns.lookup k =
        (data.lookup k).map (fun v => pb.Value.StringValue (sprintV v))) ∧
      (∀ k, k ∈ (GRPCClient.InsertDataSource.request name data).Data.Columns ↔ k ∈ data) ∧
      (∀ k v, (GRPCClient.InsertDataSource.request name data).Data.Columns.lookup k = some v →
        ∃ val, data.lookup k = some val ∧ v = pb.Value.StringValue (sprintV val))) ∧
    ((FFIClient.InsertDataSource.request name data).Name = name ∧
      (FFIClient.InsertDataSource.request name data).Table = "" ∧
      (∀ k, (FFIClient.InsertDataSource.request name data).Data.Columns.lookup k =
        (data.lookup k).map (fun v => pb.Value.StringValue (sprintV v))) ∧
      (∀ k, k ∈ (FFIClient.InsertDataSource.request name data).Data.Columns ↔ k ∈ data) ∧
      (∀ k v, (FFIClient.InsertDataSource.request name data).Data.Columns.lookup k = some v →
        ∃ val, data.lookup k = some val ∧ v = pb.Value.StringValue (sprintV val))) := by
  have hg : ∀ k, (GRPCClient.InsertDataSource.request name data).Data.Columns.lookup k =
      (data.lookup k).map (fun v => pb.Value.StringValue (sprintV v)) := fun k =>
    lookup_foldl_insert_empty (fun v => pb.Value.StringValue (sprintV v)) data k
  have hf : ∀ k, (FFIClient.InsertDataSource.request name data).Data.Columns.lookup k =
      (data.lookup k).map (fun v => pb.Value.StringValue (sprintV v)) := fun k =>
    lookup_foldl_insert_empty (fun v => pb.Value.StringValue (sprintV v)) data k
  refine ⟨⟨rfl, rfl, hg, fun k => mem_iff_lookup_map _ _ _ k (hg k), ?_⟩,
    ⟨rfl, rfl, hf, fun k => mem_iff_lookup_map _ _ _ k (hf k), ?_⟩⟩
  · intro k v h
    rw [hg k] at h
    cases hd : data.lookup k with
    | none => rw [hd] at h; exact absurd h (by simp)
    | some val =>
      rw [hd] at h
      simp only [Option.map_some', Option.some.injEq] at h
      exact ⟨val, rfl, h.symm⟩
  · intro k v h
    rw [hf k] at h
    cases hd : data.lookup k with
    | none => rw [hd] at h; exact absurd h (by simp)
    | some val =>
      rw [hd] at h
      simp only [Option.map_some', Option.some.injEq] at h
      exact ⟨val, rfl, h.symm⟩

/-- C20: when the call succeeds, the gRPC adapter's `QueryDataSource` returns
as many rows as the response holds, in the same order, and the i-th returned row
has the column names of the i-th row of the response, each with the value the
response holds, as it is. -/
theorem queryDataSource_rows (c : GRPCClient) (ctx : Option Context) (name query : String)
    (resp : pb.QueryDataSourceResponse)
    (h : c.service.QueryDataSource (callContext c ctx) { Name := name, Query := query } =
      .ok resp) :
    ∃ out, c.QueryDataSource ctx name query = (some out, none) ∧
      out.Success = resp.Success ∧ out.Message = resp.Error ∧
      out.Rows.length = resp.Rows.length ∧
      ∀ i (h1 : i < out.Rows.length) (h2 : i < resp.Rows.length) (k : String),
        (out.Rows.get ⟨i, h1⟩).lookup k =
            ((resp.Rows.get ⟨i, h2⟩).Columns.lookup k).map RowValue.proto ∧
          (k ∈ out.Rows.get ⟨i, h1⟩ ↔ k ∈ (resp.Rows.get ⟨i, h2⟩).Columns) := by
  have hrows : GRPCClient.QueryDataSource.rows resp.Rows =
      resp.Rows.map GRPCClient.QueryDataSource.rowMap := by
    unfold GRPCClient.QueryDataSource.rows
    rw [foldl_append_map]
    rfl
  have hrow : ∀ (r : pb.Row) (k : String), (GRPCClient.QueryDataSource.rowMap r).lookup k =
      (r.Columns.lookup k).map RowValue.proto := fun r k =>
    lookup_foldl_insert_empty RowValue.proto r.Columns k
  have hcall : c.QueryDataSource ctx name query =
      (some { Success := resp.Success, Rows := GRPCClient.QueryDataSource.rows resp.Rows,
              Message := resp.Error }, none) := by
    unfold callContext at h
    unfold GRPCClient.QueryDataSource
    simp only [h]
  refine ⟨_, hcall, rfl, rfl, ?_, ?_⟩
  · show (GRPCClient.QueryDataSource.rows resp.Rows).length = _
    rw [hrows, List.length_map]
  · intro i h1 h2 k
    have hget : (GRPCClient.QueryDataSource.rows resp.Rows).get ⟨i, h1⟩ =
        GRPCClient.QueryDataSource.rowMap (resp.Rows.get ⟨i, h2⟩) := by
      have hgen : ∀ (l : List Row) (_ : l = resp.Rows.map GRPCClient.QueryDataSource.rowMap)
          (h3 : i < l.length),
          l.get ⟨i, h3⟩ = GRPCClient.QueryDataSource.rowMap (resp.Rows.get ⟨i, h2⟩) := by
        intro l hl h3
        subst hl
        simp
      exact hgen _ hrows h1
    show ((GRPCClient.QueryDataSource.rows resp.Rows).get ⟨i, h1⟩).lookup k = _ ∧
      (k ∈ (GRPCClient.QueryDataSource.rows resp.Rows).get ⟨i, h1⟩ ↔ _)
    rw [hget]
    exact ⟨hrow _ k, mem_iff_lookup_map _ _ _ k (hrow _ k)⟩

/-- C20 at a stub that answers with two rows: the adapter returns two rows with
the columns and the values of the response. -/
theorem queryDataSource_rows_witness :
    ∃ out, twoRowsClient.QueryDataSource none "db" "SELECT id, name FROM t" = (some out, none) ∧
      out.Success = twoRowsResponse.Success ∧ out.Message = twoRowsResponse.Error ∧
      out.Rows.length = twoRowsResponse.Rows.length ∧
      ∀ i (h1 : i < out.Rows.length) (h2 : i < twoRowsResponse.Rows.length) (k : String),
        (out.Rows.get ⟨i, h1⟩).lookup k =
            ((twoRowsResponse.Rows.get ⟨i, h2⟩).Columns.lookup k).map RowValue.proto ∧
          (k ∈ out.Rows.get ⟨i, h1⟩ ↔ k ∈ (twoRowsResponse.Rows.get ⟨i, h2⟩).Columns) :=
  queryDataSource_rows twoRowsClient none "db" "SELECT id, name FROM t" twoRowsResponse rfl

/-! ## The two binary adapters side by side, the options and the contexts -/

/-- C21, the code at the failing input: for the same query response of two
rows, delivered by the stub to the gRPC adapter and decoded from the library's
buffer by the FFI adapter, the gRPC adapter's `QueryDataSource` returns two
rows and the FFI adapter's returns none; the success flag and the message are
the same. -/
theorem ffi_query_rows_dropped :
    (∃ out, twoRowsClient.QueryDataSource (some Context.Background) "my_postgres"
        "SELECT * FROM users LIMIT 5" = (some out, none) ∧
      out.Success = true ∧ out.Message = "" ∧ out.Rows.length = 2) ∧
    (loadedClient.callFFI (libraryReturning ⟨some [7, 8], 2⟩ true)
        (deliveringCodec twoRowsResponse : Codec pb.QueryDataSourceRequest _)
        (call_proto (libraryReturning ⟨some [7, 8], 2⟩ true) "datasource_query_proto")
        { Name := "my_postgres", Query := "SELECT * FROM users LIMIT 5" }
        { Success := false, Rows := [], Error := "" }).outcome =
      .ok (none, twoRowsResponse) ∧
    (loadedClient.QueryDataSource (libraryReturning ⟨some [7, 8], 2⟩ true)
        (deliveringCodec twoRowsResponse) (some Context.Background) "my_postgres"
        "SELECT * FROM users LIMIT 5").outcome =
      .ok (some { Success := true, Rows := [], Message := "" }, none) :=
  ⟨⟨_, rfl, rfl, rfl, rfl⟩, rfl, rfl⟩

/-- C22, the code at the failing input: the function `WithTimeout` returns
does nothing, so a client constructed with `WithTimeout t` is the client
constructed without it, and its timeout is the constructor's 5 seconds. -/
theorem withTimeout_ignored (t : Int) (doer : HTTPDoer) (baseURL : String) (conn : ClientConn)
    (service : OperRouterClient) :
    (NewHTTP doer baseURL [WithTimeout t]).timeout = 5 * Second ∧
    NewHTTP doer baseURL [WithTimeout t] = NewHTTP doer baseURL [] ∧
    NewGRPCWithOptions (.ok conn) service [WithTimeout t] =
      (some { conn := some conn, service := service, timeout := 5 * Second }, none) :=
  ⟨rfl, rfl, rfl⟩

/-- C25, the code at the failing input: on the configuration of the example
`datasource_ffi`, whose port is the string "5432", the assertion
`config["port"].(float64)` panics; no request is built and `CreateDataSource`
calls no entry point of the library. -/
theorem ffi_example_config_panics :
    FFIClient.CreateDataSource.request "my_postgres" datasourceFFIExample =
      .error (conversionPanic (.string "5432") "float64") ∧
    (loadedClient.CreateDataSource (libraryReturning ⟨none, 0⟩ true) fixedCodec
        (some Context.Background) "my_postgres" datasourceFFIExample).events = [] ∧
    (loadedClient.CreateDataSource (libraryReturning ⟨none, 0⟩ true) fixedCodec
        (some Context.Background) "my_postgres" datasourceFFIExample).outcome =
      .error (conversionPanic (.string "5432") "float64") ∧
    (∃ req, FFIClient.CreateDataSource.request "my_postgres" postgresExample = .ok req) :=
  ⟨rfl, rfl, rfl, ⟨_, rfl⟩⟩

/-- C23, amended: in the gRPC adapter, every operation other than
`CreateDataSource` that is called with a nil context issues its call on the
stub under a context with the adapter's timeout, which is 5 seconds for an
adapter the constructor made, and called with a non-nil context issues it
under that context as it is: the echoing stub reports the one and the other,
and over every stub the operation called with nil returns what it returns
called with the timeout context. -/
theorem grpc_nil_context_timeout (op : Operation) (h : op.isCreateDataSource = false) :
    (∀ c : GRPCClient, op.grpcAgree c none (some (Context.WithTimeout c.timeout))) ∧
    (∀ t : Duration, op.grpcFailsWith (echoClient t) none
      (.wrapf op.grpcWrap (.foreign (describeContext (some (Context.WithTimeout t)))))) ∧
    (∀ (t : Duration) (x : Context), op.grpcFailsWith (echoClient t) (some x)
      (.wrapf op.grpcWrap (.foreign (describeContext (some x))))) ∧
    (∀ conn service, NewGRPCWithOptions (.ok conn) service [] =
      (some { conn := some conn, service := service, timeout := 5 * Second }, none)) := by
  cases op with
  | CreateDataSource name config => exact absurd h (by simp [Operation.isCreateDataSource])
  | Ping => exact ⟨fun _ => rfl, fun _ => rfl, fun _ _ => rfl, fun _ _ => rfl⟩
  | ValidateConfig _ => exact ⟨fun _ => rfl, fun _ => rfl, fun _ _ => rfl, fun _ _ => rfl⟩
  | LoadConfig _ => exact ⟨fun _ => rfl, fun _ => rfl, fun _ _ => rfl, fun _ _ => rfl⟩
  | GetMetadata => exact ⟨fun _ => rfl, fun _ => rfl, fun _ _ => rfl, fun _ _ => rfl⟩
  | QueryDataSource _ _ => exact ⟨fun _ => rfl, fun _ => rfl, fun _ _ => rfl, fun _ _ => rfl⟩
  | ExecuteDataSource _ _ => exact ⟨fun _ => rfl, fun _ => rfl, fun _ _ => rfl, fun _ _ => rfl⟩
  | InsertDataSource _ _ => exact ⟨fun _ => rfl, fun _ => rfl, fun _ _ => rfl, fun _ _ => rfl⟩
  | PingDataSource _ => exact ⟨fun _ => rfl, fun _ => rfl, fun _ _ => rfl, fun _ _ => rfl⟩
  | CloseDataSource _ => exact ⟨fun _ => rfl, fun _ => rfl, fun _ _ => rfl, fun _ _ => rfl⟩
  | CreateLLM _ _ => exact ⟨fun _ => rfl, fun _ => rfl, fun _ _ => rfl, fun _ _ => rfl⟩
  | GenerateLLM _ _ => exact ⟨fun _ => rfl, fun _ => rfl, fun _ _ => rfl, fun _ _ => rfl⟩
  | ChatLLM _ _ => exact ⟨fun _ => rfl, fun _ => rfl, fun _ _ => rfl, fun _ _ => rfl⟩
  | EmbeddingLLM _ _ => exact ⟨fun _ => rfl, fun _ => rfl, fun _ _ => rfl, fun _ _ => rfl⟩
  | PingLLM _ => exact ⟨fun _ => rfl, fun _ => rfl, fun _ _ => rfl, fun _ _ => rfl⟩
  | CloseLLM _ => exact ⟨fun _ => rfl, fun _ => rfl, fun _ _ => rfl, fun _ _ => rfl⟩

/-- C23, amended, at `QueryDataSource`: called with nil on the adapter with the
constructor's timeout, the stub is called under a timeout of 5 seconds. -/
theorem grpc_nil_context_timeout_witness :
    (Operation.QueryDataSource "db" "SELECT 1").isCreateDataSource = false ∧
    (echoClient (5 * Second)).QueryDataSource none "db" "SELECT 1" =
      (none, some (.wrapf "query datasource failed: " (.foreign "timeout 5000000000"))) :=
  ⟨rfl, (grpc_nil_context_timeout (.QueryDataSource "db" "SELECT 1") rfl).2.1 (5 * Second)⟩

/-- C23 fails at two inputs.  `QueryDataSource` called with
`context.Background()`, which has no deadline, calls the stub under that
context, with no timeout; and `CreateDataSource` called with a nil context
calls the stub with the nil context. -/
theorem grpc_call_without_timeout :
    Context.Background.timeout = none ∧
    (echoClient (5 * Second)).QueryDataSource (some Context.Background) "db" "SELECT 1" =
      (none, some (.wrapf "query datasource failed: " (.foreign "no deadline"))) ∧
    (echoClient (5 * Second)).CreateDataSource none "db" postgresExample =
      .ok (none, some (.foreign "nil context")) ∧
    (echoClient (5 * Second)).CreateDataSource (some Context.Background) "db" postgresExample =
      .ok (none, some (.foreign "no deadline")) :=
  ⟨rfl, rfl, rfl, rfl⟩

/-! ## The remaining request builders -/

/-- C24: in both adapters the `CreateLLM` request, which is built for every
config, carries the given name, the tag `mapLLMProvider` gives the config's
provider string (the empty string when `provider` is missing or not a
string), the config's model string (empty when missing or not a string), and
as API key the config's `api_key` when that is a string and none otherwise. -/
theorem createLLM_request (name : String) (config : Config) :
    ((GRPCClient.CreateLLM.request name config).Name = name ∧
      (GRPCClient.CreateLLM.request name config).Config.Provider =
        mapLLMProvider ((asString (index config "provider")).getD "") ∧
      (GRPCClient.CreateLLM.request name config).Config.Model =
        (asString (index config "model")).getD "" ∧
      (GRPCClient.CreateLLM.request name config).Config.ApiKey =
        asString (index config "api_key")) ∧
    ((FFIClient.CreateLLM.request name config).Name = name ∧
      (FFIClient.CreateLLM.request name config).Config.Provider =
        mapLLMProvider ((asString (index config "provider")).getD "") ∧
      (FFIClient.CreateLLM.request name config).Config.Model =
        (asString (index config "model")).getD "" ∧
      (FFIClient.CreateLLM.request name config).Config.ApiKey =
        asString (index config "api_key")) ∧
    (∀ s, index config "api_key" = .string s →
      (GRPCClient.CreateLLM.request name config).Config.ApiKey = some s) ∧
    ((∀ s, index config "api_key" ≠ .string s) →
      (GRPCClient.CreateLLM.request name config).Config.ApiKey = none) := by
  have hg : (GRPCClient.CreateLLM.request name config).Name = name ∧
      (GRPCClient.CreateLLM.request name config).Config.Provider =
        mapLLMProvider ((asString (index config "provider")).getD "") ∧
      (GRPCClient.CreateLLM.request name config).Config.Model =
        (asString (index config "model")).getD "" ∧
      (GRPCClient.CreateLLM.request name config).Config.ApiKey =
        asString (index config "api_key") := by
    unfold GRPCClient.CreateLLM.request
    cases asString (index config "provider") <;> cases asString (index config "model") <;>
      cases asString (index config "api_key") <;> exact ⟨rfl, rfl, rfl, rfl⟩
  refine ⟨hg, hg, ?_, ?_⟩
  · intro s hs
    rw [hg.2.2.2, hs]
    rfl
  · intro hs
    rw [hg.2.2.2]
    cases hv : index config "api_key" with
    | string s => exact absurd hv (hs s)
    | _ => rfl

/-- C28: from equal arguments the gRPC adapter and the FFI adapter build equal
requests: `CreateDataSource` and `CreateLLM` for every name and config (for
`CreateDataSource` also the same run-time panic when one occurs),
`InsertDataSource` for every name and data map, and `ChatLLM` for every name
and message list. -/
theorem adapters_build_equal_requests (name : String) (config data : Config)
    (messages : List Config) :
    FFIClient.CreateDataSource.request name config =
      GRPCClient.CreateDataSource.request name config ∧
    FFIClient.CreateLLM.request name config = GRPCClient.CreateLLM.request name config ∧
    FFIClient.InsertDataSource.request name data =
      GRPCClient.InsertDataSource.request name data ∧
    FFIClient.ChatLLM.request name messages = GRPCClient.ChatLLM.request name messages :=
  ⟨rfl, rfl, rfl, rfl⟩

/-- The credentials the postgres branch stores are the string values of the
config. -/
theorem credentialExtras_credentials (config : Config) :
    (credentialExtras config).lookup "username" = asString (index config "username") ∧
    (credentialExtras config).lookup "password" = asString (index config "password") := by
  have hne : ("username" : String) ≠ "password" := by decide
  unfold credentialExtras
  cases asString (index config "password") <;> cases asString (index config "username") <;>
    simp only [AList.lookup_insert, AList.lookup_insert_ne hne, AList.lookup_insert_ne hne.symm,
      AList.lookup_empty, and_self]

/-- C26: in both adapters, the keys of the extras map of a `CreateDataSource`
request are the config's keys outside "driver", "host", "port", "database",
"username", "password" and "brokers", together with "username" and
"password" when the driver is "postgres" or "postgresql" and the config holds
a string under them; so "driver", "host", "port", "database" and "brokers" are
never keys of it, and "username" and "password" are not for another driver. -/
theorem createDataSource_extras_keys (name : String) (config : Config)
    (req : CreateDataSourceRequest)
    (h : GRPCClient.CreateDataSource.request name config = .ok req) :
    FFIClient.CreateDataSource.request name config = .ok req ∧
    (∀ k, k ∈ req.Config.Extra ↔
      (k ∈ config ∧ ¬ reservedKey k) ∨
      ((k = "username" ∨ k = "password") ∧
        (∃ d, asString (index config "driver") = some d ∧
          (d = "postgres" ∨ d = "postgresql")) ∧
        (asString (index config k)).isSome = true)) ∧
    ("driver" ∉ req.Config.Extra ∧ "host" ∉ req.Config.Extra ∧ "port" ∉ req.Config.Extra ∧
      "database" ∉ req.Config.Extra ∧ "brokers" ∉ req.Config.Extra) ∧
    ((¬ ∃ d, asString (index config "driver") = some d ∧
        (d = "postgres" ∨ d = "postgresql")) →
      "username" ∉ req.Config.Extra ∧ "password" ∉ req.Config.Extra) := by
  have hkeys : ∀ k, k ∈ req.Config.Extra ↔
      (k ∈ config ∧ ¬ reservedKey k) ∨
      ((k = "username" ∨ k = "password") ∧
        (∃ d, asString (index config "driver") = some d ∧
          (d = "postgres" ∨ d = "postgresql")) ∧
        (asString (index config k)).isSome = true) := by
    intro k
    have hlook := request_extra_lookup name config req h k
    rw [← AList.lookup_isSome, hlook]
    by_cases hk : reservedKey k
    · rw [if_pos hk]
      have hcred : (k = "username" ∨ k = "password") →
          (credentialExtras config).lookup k = asString (index config k) := by
        rintro (rfl | rfl)
        · exact (credentialExtras_credentials config).1
        · exact (credentialExtras_credentials config).2
      constructor
      · intro hs
        right
        cases hd : asString (index config "driver") with
        | none => rw [hd] at hs; exact absurd hs (by simp)
        | some d =>
          rw [hd] at hs
          simp only at hs
          by_cases hpg : d = "postgres" ∨ d = "postgresql"
          · rw [if_pos hpg] at hs
            by_cases hup : k = "username" ∨ k = "password"
            · refine ⟨hup, ⟨d, rfl, hpg⟩, ?_⟩
              rw [← hcred hup]; exact hs
            · rw [not_or] at hup
              rw [credentialExtras_lookup config k hup.1 hup.2] at hs
              exact absurd hs (by simp)
          · rw [if_neg hpg] at hs
            exact absurd hs (by simp)
      · rintro (⟨-, hn⟩ | ⟨hup, ⟨d, hd, hpg⟩, hs⟩)
        · exact absurd hk hn
        · rw [hd]
          simp only
          rw [if_pos hpg, hcred hup]
          exact hs
    · rw [if_neg hk]
      constructor
      · intro hs
        left
        refine ⟨?_, hk⟩
        rw [← AList.lookup_isSome]
        cases hl : config.lookup k with
        | none => rw [hl] at hs; exact absurd hs (by simp)
        | some v => rfl
      · rintro (⟨hm, -⟩ | ⟨hup, -, -⟩)
        · rw [← AList.lookup_isSome] at hm
          cases hl : config.lookup k with
          | none => rw [hl] at hm; exact absurd hm (by simp)
          | some v => rfl
        · exfalso
          apply hk
          unfold reservedKey
          rcases hup with rfl | rfl <;> simp
  have hnot : ∀ k, reservedKey k → k ≠ "username" → k ≠ "password" →
      k ∉ req.Config.Extra := by
    intro k hk hu hp hm
    rcases (hkeys k).1 hm with ⟨-, hn⟩ | ⟨hup, -, -⟩
    · exact hn hk
    · rcases hup with rfl | rfl
      · exact hu rfl
      · exact hp rfl
  refine ⟨by rw [ffi_request_eq]; exact h, hkeys, ⟨?_, ?_, ?_, ?_, ?_⟩, ?_⟩
  · exact hnot _ (by unfold reservedKey; simp) (by decide) (by decide)
  · exact hnot _ (by unfold reservedKey; simp) (by decide) (by decide)
  · exact hnot _ (by unfold reservedKey; simp) (by decide) (by decide)
  · exact hnot _ (by unfold reservedKey; simp) (by decide) (by decide)
  · exact hnot _ (by unfold reservedKey; simp) (by decide) (by decide)
  · intro hno
    constructor
    · intro hm
      rcases (hkeys _).1 hm with ⟨-, hn⟩ | ⟨-, hex, -⟩
      · exact hn (by unfold reservedKey; simp)
      · exact hno hex
    · intro hm
      rcases (hkeys _).1 hm with ⟨-, hn⟩ | ⟨-, hex, -⟩
      · exact hn (by unfold reservedKey; simp)
      · exact hno hex

/-- C26 at the spec's postgres example: the extras hold the two credentials
and nothing else. -/
theorem createDataSource_extras_keys_witness :
    ∃ req, GRPCClient.CreateDataSource.request "db" postgresExample = .ok req ∧
      FFIClient.CreateDataSource.request "db" postgresExample = .ok req ∧
      (∀ k, k ∈ req.Config.Extra ↔
        (k ∈ postgresExample ∧ ¬ reservedKey k) ∨
        ((k = "username" ∨ k = "password") ∧
          (∃ d, asString (index postgresExample "driver") = some d ∧
            (d = "postgres" ∨ d = "postgresql")) ∧
          (asString (index postgresExample k)).isSome = true)) ∧
      ("driver" ∉ req.Config.Extra ∧ "host" ∉ req.Config.Extra ∧
        "port" ∉ req.Config.Extra ∧ "database" ∉ req.Config.Extra ∧
        "brokers" ∉ req.Config.Extra) ∧
      ((¬ ∃ d, asString (index postgresExample "driver") = some d ∧
          (d = "postgres" ∨ d = "postgresql")) →
        "username" ∉ req.Config.Extra ∧ "password" ∉ req.Config.Extra) :=
  ⟨_, rfl, createDataSource_extras_keys "db" postgresExample _ rfl⟩

/-- The switch statement ends without a panic when the fields the selected
branch asserts have their types. -/
theorem buildURL_ok (config : Config) (d : String)
    (h : (d = "kafka" ∨
          (d ≠ "postgres" ∧ d ≠ "postgresql" ∧ d ≠ "mysql" ∧ d ≠ "redis" ∧ d ≠ "mongodb" ∧
            d ≠ "mongo" ∧ d ≠ "kafka")) ∨
        ((d = "postgres" ∨ d = "postgresql" ∨ d = "mysql") ∧
          (asString (index config "host")).isSome = true ∧
          (asFloat64 (index config "port")).isSome = true ∧
          (asString (index config "database")).isSome = true) ∨
        ((d = "redis" ∨ d = "mongodb" ∨ d = "mongo") ∧
          (asString (index config "host")).isSome = true ∧
          (asFloat64 (index config "port")).isSome = true)) :
    ∃ r, GRPCClient.CreateDataSource.buildURL config d = .ok r := by
  rcases h with (rfl | hun) | ⟨hd, hh, hp, hdb⟩ | ⟨hd, hh, hp⟩
  · cases hb : asString (index config "brokers") <;>
      simp [GRPCClient.CreateDataSource.buildURL, hb, pure, Except.pure]
  · exact ⟨_, buildURL_unrecognized config d hun⟩
  · obtain ⟨host, hh⟩ := Option.isSome_iff_exists.1 hh
    obtain ⟨port, hp⟩ := Option.isSome_iff_exists.1 hp
    obtain ⟨db, hdb⟩ := Option.isSome_iff_exists.1 hdb
    rcases hd with rfl | rfl | rfl <;>
      simp [GRPCClient.CreateDataSource.buildURL, hh, hp, hdb, assertString,
        assertFloat64, bind, Except.bind, pure, Except.pure]
  · obtain ⟨host, hh⟩ := Option.isSome_iff_exists.1 hh
    obtain ⟨port, hp⟩ := Option.isSome_iff_exists.1 hp
    rcases hd with rfl | rfl | rfl <;>
      simp [GRPCClient.CreateDataSource.buildURL, hh, hp, assertString,
        assertFloat64, bind, Except.bind, pure, Except.pure]

/-- C27: in both adapters the request of `CreateDataSource` is built, with no
failing type assertion, when the driver is missing or not a string, is "kafka"
or is none of the seven driver names; when it is "postgres", "postgresql" or
"mysql" and the config holds a string host, a float64 port and a string
database; and when it is "redis", "mongodb" or "mongo" and the config holds a
string host and a float64 port. -/
theorem createDataSource_no_failing_assertion (name : String) (config : Config)
    (h : asString (index config "driver") = none ∨
      ∃ d, asString (index config "driver") = some d ∧
        ((d = "kafka" ∨
          (d ≠ "postgres" ∧ d ≠ "postgresql" ∧ d ≠ "mysql" ∧ d ≠ "redis" ∧ d ≠ "mongodb" ∧
            d ≠ "mongo" ∧ d ≠ "kafka")) ∨
        ((d = "postgres" ∨ d = "postgresql" ∨ d = "mysql") ∧
          (asString (index config "host")).isSome = true ∧
          (asFloat64 (index config "port")).isSome = true ∧
          (asString (index config "database")).isSome = true) ∨
        ((d = "redis" ∨ d = "mongodb" ∨ d = "mongo") ∧
          (asString (index config "host")).isSome = true ∧
          (asFloat64 (index config "port")).isSome = true))) :
    ∃ req, GRPCClient.CreateDataSource.request name config = .ok req ∧
      FFIClient.CreateDataSource.request name config = .ok req := by
  have hg : ∃ req, GRPCClient.CreateDataSource.request name config = .ok req := by
    rcases h with hn | ⟨d, hd, hc⟩
    · simp [GRPCClient.CreateDataSource.request, hn, bind, Except.bind, pure, Except.pure]
    · obtain ⟨r, hr⟩ := buildURL_ok config d hc
      simp [GRPCClient.CreateDataSource.request, hd, hr, Except.map, bind, Except.bind, pure,
        Except.pure]
  obtain ⟨req, hreq⟩ := hg
  exact ⟨req, hreq, by rw [ffi_request_eq]; exact hreq⟩

/-- C27 at a mysql configuration with host, port and database. -/
theorem createDataSource_no_failing_assertion_witness :
    asString (index mysqlExample "driver") = some "mysql" ∧
    ∃ req, GRPCClient.CreateDataSource.request "db" mysqlExample = .ok req ∧
      FFIClient.CreateDataSource.request "db" mysqlExample = .ok req :=
  ⟨rfl, createDataSource_no_failing_assertion "db" mysqlExample
    (Or.inr ⟨"mysql", rfl, Or.inr (Or.inl ⟨Or.inr (Or.inr rfl), rfl, rfl, rfl⟩)⟩)⟩

/-! ## Empty buffers and the `load_config` reply -/

/-- C29: when the native call yields a buffer of length 0, as the C helper does
when the symbol does not resolve, `callFFI` returns no error and leaves the
response as it was; so `Ping` returns the response with empty status and
version and no error, and `GetMetadata` returns the error "metadata is nil in
response". -/
theorem callFFI_empty_buffer {Req Resp : Type} (c : FFIClient) (ld : Loader)
    (codec : Codec Req Resp) (symbol : String) (req : Req) (resp : Resp) (reqBytes : Bytes)
    (hm : codec.Marshal req = .ok reqBytes)
    (hl : (call_proto ld symbol c.handle (nativeInput reqBytes).1
      (nativeInput reqBytes).2).1.len = 0) :
    (c.callFFI ld codec (call_proto ld symbol) req resp).outcome = .ok (none, resp) ∧
    (∀ sym p n, ld.dlsym c.handle sym = none →
      (call_proto ld sym c.handle p n).1 = ⟨none, 0⟩) ∧
    (∀ (ctx : Option Context) (pingCodec : Codec pb.PingRequest pb.PingResponse)
      (pingBytes : Bytes), pingCodec.Marshal {} = .ok pingBytes →
      (call_proto ld "ping_proto" c.handle (nativeInput pingBytes).1
        (nativeInput pingBytes).2).1.len = 0 →
      (c.Ping ld pingCodec ctx).outcome = .ok (some { Status := "", Version := "" }, none)) ∧
    (∀ (ctx : Option Context)
      (metadataCodec : Codec pb.GetMetadataRequest pb.GetMetadataResponse)
      (metadataBytes : Bytes), metadataCodec.Marshal {} = .ok metadataBytes →
      (call_proto ld "get_metadata_proto" c.handle (nativeInput metadataBytes).1
        (nativeInput metadataBytes).2).1.len = 0 →
      (c.GetMetadata ld metadataCodec ctx).outcome =
        .ok (none, some (.errorf "metadata is nil in response"))) := by
  have key : ∀ {Rq Rs : Type} (cd : Codec Rq Rs) (sym : String) (rq : Rq) (rs : Rs)
      (bs : Bytes), cd.Marshal rq = .ok bs →
      (call_proto ld sym c.handle (nativeInput bs).1 (nativeInput bs).2).1.len = 0 →
      (c.callFFI ld cd (call_proto ld sym) rq rs).outcome = .ok (none, rs) := by
    intro Rq Rs cd sym rq rs bs h1 h2
    simp only [FFIClient.callFFI, h1, input_eq]
    split <;> simp only [h2, gt_iff_lt, lt_self_iff_false, if_false]
  refine ⟨key codec symbol req resp reqBytes hm hl, ?_, ?_, ?_⟩
  · intro sym p n hs
    simp only [call_proto, hs]
  · intro ctx pingCodec pingBytes h1 h2
    have h := key pingCodec "ping_proto" ({} : pb.PingRequest)
      ({ Status := "", Version := "" } : pb.PingResponse) pingBytes h1 h2
    unfold FFIClient.Ping
    simp only [h]
  · intro ctx metadataCodec metadataBytes h1 h2
    have h := key metadataCodec "get_metadata_proto" ({} : pb.GetMetadataRequest)
      ({ Metadata := none } : pb.GetMetadataResponse) metadataBytes h1 h2
    unfold FFIClient.GetMetadata
    simp only [h]

/-- C29 at a library that exports no symbol: `callFFI` returns no error,
`Ping` the empty response and `GetMetadata` the error. -/
theorem callFFI_empty_buffer_witness :
    (loadedClient.callFFI emptyLibrary (fixedCodec : Codec pb.PingRequest pb.PingResponse)
        (call_proto emptyLibrary "ping_proto") {}
        { Status := "", Version := "" }).outcome =
      .ok (none, { Status := "", Version := "" }) ∧
    (loadedClient.Ping emptyLibrary fixedCodec none).outcome =
      .ok (some { Status := "", Version := "" }, none) ∧
    (loadedClient.GetMetadata emptyLibrary fixedCodec none).outcome =
      .ok (none, some (.errorf "metadata is nil in response")) :=
  let h := callFFI_empty_buffer loadedClient emptyLibrary
    (fixedCodec : Codec pb.PingRequest pb.PingResponse) "ping_proto" {}
    { Status := "", Version := "" } [1, 2, 3] rfl rfl
  ⟨h.1, h.2.2.1 none fixedCodec [1, 2, 3] rfl rfl, h.2.2.2 none fixedCodec [1, 2, 3] rfl rfl⟩

/-- C30, amended: in the HTTP adapter, for every `load_config` reply without
an error object whose result is absent, `null`, or an object in which
"success", "message" and "operator_name" each occur at most once (names
compared without regard to case) and hold a value of their type or `null`,
`LoadConfig` returns no error and the response whose `Error` is the reply's
"message", whatever the success flag, whose `Success` is the reply's "success"
and whose `OperatorName` is the reply's "operator_name" (the zero value for a
member that is absent or `null`). -/
theorem http_loadConfig_message (c : HTTPClient) (js : EnvelopeCodec) (ctx : Option Context)
    (configPath : String) (rpcResp : jsonrpcResponse)
    (hx : c.exchange js "load_config" (Operation.LoadConfig configPath).params = .ok rpcResp)
    (he : rpcResp.Error = none)
    (ht : typedResult
      [("success", fitsBool), ("message", fitsString), ("operator_name", fitsString)]
      rpcResp.Result) :
    c.LoadConfig js ctx configPath =
      (some { Success := boolOf (wire "success" rpcResp.Result),
              OperatorName := stringOf (wire "operator_name" rpcResp.Result),
              Error := stringOf (wire "message" rpcResp.Result) }, none) := by
  simp only [Operation.params, HTTPClient.LoadConfig] at hx ⊢
  rw [callJSONRPC_result c js _ _ _ _ rpcResp hx he]
  cases hres : rpcResp.Result with
  | none => rfl
  | some raw =>
    simp only [loadConfigResult_unmarshal _ ht raw hres, hres]

/-- C30, amended, at the reply of a successful load that carries a message:
`Success` is true and `Error` holds the message. -/
theorem http_loadConfig_message_witness :
    (resultReply warnedLoadResult).Error = none ∧
    (answering (resultReply warnedLoadResult)).1.LoadConfig
        (answering (resultReply warnedLoadResult)).2 (some Context.Background)
        "operator.toml" =
      (some { Success := true, OperatorName := "demo", Error := "loaded with warnings" },
        none) :=
  ⟨rfl,
    http_loadConfig_message (answering (resultReply warnedLoadResult)).1
      (answering (resultReply warnedLoadResult)).2 (some Context.Background)
      "operator.toml" (resultReply warnedLoadResult) rfl rfl
      (by
        intro f hf
        simp only [List.mem_cons, List.mem_singleton, List.not_mem_nil, or_false] at hf
        rcases hf with rfl | rfl | rfl <;> exact ⟨by decide, by decide⟩)⟩

/-- C30 as stated fails.  A reply without an error object whose "success" is
a string makes `LoadConfig` return an error and no response; and of two
members whose names match "message" the later one is what `Error` holds. -/
theorem http_loadConfig_untyped_reply :
    (resultReply mistypedResult).Error = none ∧
    (answering (resultReply mistypedResult)).1.LoadConfig
        (answering (resultReply mistypedResult)).2 (some Context.Background)
        "operator.toml" =
      (none, some (.wrapf "failed to unmarshal result: " (.unmarshalType "string" "bool"))) ∧
    (resultReply twoMessagesResult).Error = none ∧
    (answering (resultReply twoMessagesResult)).1.LoadConfig
        (answering (resultReply twoMessagesResult)).2 (some Context.Background)
        "operator.toml" =
      (some { Success := true, OperatorName := "", Error := "second" }, none) :=
  ⟨rfl, rfl, rfl, rfl⟩

end OperRouter
